import Mathlib

/-!
# Power-management request core (`pm_core.c`) — shallow embedding

The handlers of `lib/sw_apps/zynqmp_pmufw/src/pm_core.c` are translated one by
one.  The firmware state reachable from the handlers is an explicit `PmWorld`
value; every handler returns the new world together with the chronological
list of outward effects and collaborator calls it performed (`PmEffect`).

Conventions
* `u32` values are natural numbers; arithmetic that can wrap is written with an
  explicit `% 2 ^ 32` (resp. `% 2 ^ 64` for `u64`).
* `int status` values are represented by their 32-bit pattern: the code only
  compares status codes for equality and passes them on.
* Pointers are indices into the tables of `PmWorld`; a pointer that may be
  `NULL` is an `Option`.
* Constants and macros of headers that are not part of the translated files
  are the fields of `PmDefs`; functions of other translation units are the
  fields of `PmExtern`.  A C `switch` is an `if`-chain over its case labels in
  source order.
* The `IPI_RESPONSEn` macros and the notification collaborator
  (`PmAcknowledgeCb`, `PmInitSuspendCb`, `PmNotifierEvent`) are outputs: as in
  section 6 of the specification (fire-and-forget) they are recorded in the
  trace and do not change `PmWorld`.  `PmDbg` output is not modelled.
-/

namespace PmCore

/-- Constants of `pm_defs.h`, `xstatus.h`, `pm_api.h`, `pm_proc.h`, `pm_node.h`,
`pm_master.h` and `pm_notifier.h` used by `pm_core.c`. -/
structure PmDefs where
  XST_SUCCESS : Nat
  XST_FAILURE : Nat
  XST_INVALID_PARAM : Nat
  XST_INVALID_VERSION : Nat
  XST_NO_FEATURE : Nat
  XST_PM_CONFLICT : Nat
  XST_PM_NO_ACCESS : Nat
  XST_PM_INVALID_NODE : Nat
  XST_PM_DOUBLE_REQ : Nat
  REQUEST_ACK_BLOCKING : Nat
  REQUEST_ACK_NON_BLOCKING : Nat
  PM_PROC_EVENT_SELF_SUSPEND : Nat
  PM_PROC_EVENT_FORCE_PWRDN : Nat
  PM_PROC_EVENT_ABORT_SUSPEND : Nat
  PM_PROC_EVENT_WAKE : Nat
  PM_PROC_STATE_SUSPENDING : Nat
  PM_PROC_STATE_ACTIVE : Nat
  PM_TYPE_PROC : Nat
  PM_TYPE_PWR_ISLAND : Nat
  PM_TYPE_PWR_DOMAIN : Nat
  PM_TYPE_SLAVE : Nat
  PM_MASTER_USING_SLAVE_MASK : Nat
  PM_MASTER_WAKEUP_REQ_MASK : Nat
  SUSPEND_REASON_PU_REQ : Nat
  EVENT_ZERO_USERS : Nat
  NODE_UNKNOWN : Nat
  PM_SHUTDOWN : Nat
  PM_RESTART : Nat
  PM_VERSION_MAJOR : Nat
  PM_VERSION_MINOR : Nat
  PM_OPCHAR_TYPE_POWER : Nat
  PM_OPCHAR_TYPE_TEMP : Nat
  PM_OPCHAR_TYPE_LATENCY : Nat
  PM_PAYLOAD_OK : Nat
  PM_PAYLOAD_ERR_API_ID : Nat
  PM_SELF_SUSPEND : Nat
  PM_REQUEST_SUSPEND : Nat
  PM_FORCE_POWERDOWN : Nat
  PM_ABORT_SUSPEND : Nat
  PM_REQUEST_WAKEUP : Nat
  PM_SET_WAKEUP_SOURCE : Nat
  PM_SYSTEM_SHUTDOWN : Nat
  PM_REQUEST_NODE : Nat
  PM_RELEASE_NODE : Nat
  PM_SET_REQUIREMENT : Nat
  PM_SET_MAX_LATENCY : Nat
  PM_GET_API_VERSION : Nat
  PM_SET_CONFIGURATION : Nat
  PM_GET_NODE_STATUS : Nat
  PM_GET_OP_CHARACTERISTIC : Nat
  PM_REGISTER_NOTIFIER : Nat
  PM_RESET_ASSERT : Nat
  PM_RESET_GET_STATUS : Nat
  PM_MMIO_WRITE : Nat
  PM_MMIO_READ : Nat

/-! ## Data model: the fields `pm_core.c` reads or writes -/

/-- Fields of `struct PmNode` used by the handlers.  `parent` is the `PmPower*`
parent (`NULL` is `none`), `derived` the `void*` to the enclosing structure. -/
structure PmNode where
  nodeId : Nat
  typeId : Nat
  currState : Nat
  parent : Option Nat
  derived : Nat

/-- Fields of `struct PmProc`.  `node` is the address of the embedded `PmNode`
in the node table. -/
structure PmProc where
  node : Nat
  pwrDnLatency : Nat
  pwrUpLatency : Nat
  latencyReq : Nat

/-- Fields of `struct PmSlave`: the embedded node and the `wake` pointer. -/
structure PmSlave where
  node : Nat
  wake : Option Nat

/-- Fields of `struct PmRequirement`. -/
structure PmRequirement where
  slave : Nat
  info : Nat
  latencyReq : Nat

/-- The `suspendRequest` member of a master. -/
structure PmSuspendRequest where
  initiator : Option Nat
  acknowledge : Nat

/-- Fields of `struct PmMaster`.  `procs` is the address of the first element of
the master's processor array. -/
structure PmMaster where
  nid : Nat
  buffer : Nat
  procs : Nat
  suspendRequest : PmSuspendRequest

/-- The mutable firmware state: one table per structure type, plus `mem` for
every other word (further structure members, device registers). -/
structure PmWorld where
  nodes : Nat → PmNode
  procs : Nat → PmProc
  slaves : Nat → PmSlave
  reqs : Nat → PmRequirement
  masters : Nat → PmMaster
  mem : Nat → Nat

/-- Outward effects and collaborator calls, in the order the handler performs
them.  `IPI_RESPONSEn` write `n` words to a reply buffer; `PmAcknowledgeCb`,
`PmInitSuspendCb` and `PmNotifierEvent` are the notification collaborator;
the remaining constructors record that the function of that name was called
with these arguments. -/
inductive PmEffect where
  | IPI_RESPONSE1 (buffer status : Nat)
  | IPI_RESPONSE2 (buffer status w1 : Nat)
  | IPI_RESPONSE4 (buffer status w1 w2 w3 : Nat)
  | PmAcknowledgeCb (master nodeId status oppoint : Nat)
  | PmInitSuspendCb (target reason latency state timeout : Nat)
  | PmNotifierEvent (node event : Nat)
  | saveResumeAddr (proc address : Nat)
  | PmProcFsm (proc event : Nat)
  | PmForceDownTree (power : Nat)
  | PmOpportunisticSuspend (power : Nat)
  | PmRequirementUpdate (req caps : Nat)
  | PmRequirementSchedule (req caps : Nat)
  | PmUpdateSlave (slave : Nat)
  | PmSystemProcessShutdown (master restart : Nat)
  | PmNotifierRegister (master node event wake : Nat)
  | PmNotifierUnregister (master node event : Nat)
  | PmResetAssert (master reset action : Nat)
  | PmResetGetStatus (master reset : Nat)
  | XPfw_Read32 (address : Nat)
  | XPfw_Write32 (address value : Nat)
  deriving DecidableEq, Repr

/-- What a handler leaves behind: the new state and what it did. -/
structure PmResult where
  world : PmWorld
  trace : List PmEffect

/-- Functions of other translation units called by `pm_core.c`.  Queries read
the state; the others may change any part of it and, where the C function
returns `int`, yield a status.  `saveResumeAddr proc` is the function the
member `proc->saveResumeAddr` points to.  `PmResetAssert` and
`PmResetGetStatus` are complete API handlers of `pm_reset.c`, including their
own replies. -/
structure PmExtern where
  PmCheckPayload : PmWorld → (Nat → Nat) → Nat
  PmRequestAcknowledge : PmWorld → (Nat → Nat) → Nat
  PmGetProcOfThisMaster : PmWorld → Nat → Nat → Option Nat
  PmGetProcByNodeId : PmWorld → Nat → Option Nat
  PmGetNodeById : PmWorld → Nat → Option Nat
  PmMasterGetPlaceholder : PmWorld → Nat → Option Nat
  PmGetRequirementForSlave : PmWorld → Nat → Nat → Option Nat
  PmCanRequestSuspend : PmWorld → Nat → Nat → Bool
  PmIsRequestedToSuspend : PmWorld → Nat → Bool
  PmSystemShutdownProcessing : PmWorld → Bool
  PmSystemRequestNotAllowed : PmWorld → Nat → Bool
  PmSlaveGetUsersMask : PmWorld → Nat → Nat
  PmSlaveGetRequirements : PmWorld → Nat → Nat → Nat
  PmSlaveGetUsageStatus : PmWorld → Nat → Nat → Nat
  PmNodeGetPowerConsumption : PmWorld → Nat → Nat → Nat
  PmNodeGetWakeLatency : PmWorld → Nat → Nat
  PmGetMmioAccess : PmWorld → Nat → Nat → Bool
  XPfw_Read32 : PmWorld → Nat → Nat
  XPfw_Write32 : Nat → Nat → PmWorld → PmWorld
  saveResumeAddr : Nat → Nat → PmWorld → Nat × PmWorld
  PmProcFsm : Nat → Nat → PmWorld → Nat × PmWorld
  PmForceDownTree : Nat → PmWorld → Nat × PmWorld
  PmOpportunisticSuspend : Nat → PmWorld → PmWorld
  PmRequirementUpdate : Nat → Nat → PmWorld → Nat × PmWorld
  PmRequirementSchedule : Nat → Nat → PmWorld → Nat × PmWorld
  PmUpdateSlave : Nat → PmWorld → Nat × PmWorld
  PmSystemProcessShutdown : Nat → Nat → PmWorld → Nat × PmWorld
  PmNotifierRegister : Nat → Nat → Nat → Nat → PmWorld → Nat × PmWorld
  PmNotifierUnregister : Nat → Nat → Nat → PmWorld → PmWorld
  PmResetAssert : Nat → Nat → Nat → PmWorld → PmResult
  PmResetGetStatus : Nat → Nat → PmWorld → PmResult

/-! ## Field writes -/

/-- The 32-bit complement `~x`. -/
def not32 (x : Nat) : Nat := 0xFFFFFFFF ^^^ (x % 2 ^ 32)

/-- Store `proc->latencyReq = latency`. -/
def PmWorld.setProcLatencyReq (w : PmWorld) (proc latency : Nat) : PmWorld :=
  let p : PmProc := { (w.procs proc) with latencyReq := latency }
  { w with procs := Function.update w.procs proc p }

/-- Store `target->suspendRequest.initiator = master; target->suspendRequest.acknowledge = ack`. -/
def PmWorld.setSuspendRequest (w : PmWorld) (target master ack : Nat) : PmWorld :=
  let m : PmMaster :=
    { (w.masters target) with suspendRequest := ⟨some master, ack⟩ }
  { w with masters := Function.update w.masters target m }

/-- Store `req->info = info`. -/
def PmWorld.setReqInfo (w : PmWorld) (req info : Nat) : PmWorld :=
  let r : PmRequirement := { (w.reqs req) with info := info }
  { w with reqs := Function.update w.reqs req r }

/-- Store `req->latencyReq = latency`. -/
def PmWorld.setReqLatencyReq (w : PmWorld) (req latency : Nat) : PmWorld :=
  let r : PmRequirement := { (w.reqs req) with latencyReq := latency }
  { w with reqs := Function.update w.reqs req r }

/-! ## The handlers of `pm_core.c` -/

/-- `PmProcessAckRequest`: the acknowledge selected by `ack`. -/
def PmProcessAckRequest (d : PmDefs) (w : PmWorld) (ack master nodeId status oppoint : Nat) :
    List PmEffect :=
  if d.REQUEST_ACK_BLOCKING = ack then
    [PmEffect.IPI_RESPONSE1 (w.masters master).buffer status]
  else if d.REQUEST_ACK_NON_BLOCKING = ack then
    [PmEffect.PmAcknowledgeCb master nodeId status oppoint]
  else
    []

/-- `PmSelfSuspend`.  The argument `state` is only printed by the C code. -/
def PmSelfSuspend (d : PmDefs) (e : PmExtern) (w : PmWorld)
    (master node latency _state address : Nat) : PmResult :=
  match e.PmGetProcOfThisMaster w master node with
  | none => ⟨w, [PmEffect.IPI_RESPONSE1 (w.masters master).buffer d.XST_INVALID_PARAM]⟩
  | some proc =>
    let worstCaseLatency := ((w.procs proc).pwrDnLatency + (w.procs proc).pwrUpLatency) % 2 ^ 32
    if latency < worstCaseLatency then
      ⟨w, [PmEffect.IPI_RESPONSE1 (w.masters master).buffer d.XST_INVALID_PARAM]⟩
    else
      let w1 := w.setProcLatencyReq proc latency
      let r2 := e.saveResumeAddr proc address w1
      if d.XST_SUCCESS ≠ r2.1 then
        ⟨r2.2, [PmEffect.saveResumeAddr proc address,
                PmEffect.IPI_RESPONSE1 (r2.2.masters master).buffer r2.1]⟩
      else
        let r3 := e.PmProcFsm proc d.PM_PROC_EVENT_SELF_SUSPEND r2.2
        ⟨r3.2, [PmEffect.saveResumeAddr proc address,
                PmEffect.PmProcFsm proc d.PM_PROC_EVENT_SELF_SUSPEND,
                PmEffect.IPI_RESPONSE1 (r3.2.masters master).buffer r3.1]⟩

/-- The `done:` label of `PmRequestSuspend`: acknowledge only a status other
than `XST_SUCCESS`. -/
def PmRequestSuspend_done (d : PmDefs) (w : PmWorld) (master node ack status : Nat)
    (pre : List PmEffect) : PmResult :=
  ⟨w, pre ++ (if d.XST_SUCCESS ≠ status then PmProcessAckRequest d w ack master node status 0
              else [])⟩

/-- `PmRequestSuspend`. -/
def PmRequestSuspend (d : PmDefs) (e : PmExtern) (w : PmWorld)
    (master node ack latency state : Nat) : PmResult :=
  if d.REQUEST_ACK_BLOCKING = ack then
    PmRequestSuspend_done d w master node ack d.XST_INVALID_PARAM []
  else if e.PmSystemShutdownProcessing w = true then
    PmRequestSuspend_done d w master node ack d.XST_PM_CONFLICT []
  else
    match e.PmMasterGetPlaceholder w node with
    | none => PmRequestSuspend_done d w master node ack d.XST_INVALID_PARAM []
    | some target =>
      if e.PmCanRequestSuspend w master target = false then
        PmRequestSuspend_done d w master node ack d.XST_PM_NO_ACCESS []
      else if e.PmIsRequestedToSuspend w target = true then
        PmRequestSuspend_done d w master node ack d.XST_PM_DOUBLE_REQ []
      else
        PmRequestSuspend_done d (w.setSuspendRequest target master ack) master node ack
          d.XST_SUCCESS
          [PmEffect.PmInitSuspendCb target d.SUSPEND_REASON_PU_REQ latency state 0]

/-- The `switch (nodePtr->typeId)` of `PmForcePowerdown`: status, state and the
call made. -/
def PmForcePowerdown_switch (d : PmDefs) (e : PmExtern) (w : PmWorld) (nodePtr : Nat) :
    (Nat × PmWorld) × List PmEffect :=
  let typeId := (w.nodes nodePtr).typeId
  let derived := (w.nodes nodePtr).derived
  if typeId = d.PM_TYPE_PROC then
    (e.PmProcFsm derived d.PM_PROC_EVENT_FORCE_PWRDN w,
      [PmEffect.PmProcFsm derived d.PM_PROC_EVENT_FORCE_PWRDN])
  else if typeId = d.PM_TYPE_PWR_ISLAND ∨ typeId = d.PM_TYPE_PWR_DOMAIN then
    (e.PmForceDownTree derived w, [PmEffect.PmForceDownTree derived])
  else
    ((d.XST_INVALID_PARAM, w), [])

/-- `PmForcePowerdown`. -/
def PmForcePowerdown (d : PmDefs) (e : PmExtern) (w : PmWorld) (master node ack : Nat) :
    PmResult :=
  match e.PmGetNodeById w node with
  | none => ⟨w, PmProcessAckRequest d w ack master node d.XST_INVALID_PARAM 0⟩
  | some nodePtr =>
    let r := PmForcePowerdown_switch d e w nodePtr
    let status := r.1.1
    let w1 := r.1.2
    let oppoint := (w1.nodes nodePtr).currState
    match (if d.XST_SUCCESS = status then (w1.nodes nodePtr).parent else none) with
    | some parent =>
      let w2 := e.PmOpportunisticSuspend parent w1
      ⟨w2, r.2 ++ [PmEffect.PmOpportunisticSuspend parent]
              ++ PmProcessAckRequest d w2 ack master node status oppoint⟩
    | none => ⟨w1, r.2 ++ PmProcessAckRequest d w1 ack master node status oppoint⟩

/-- `PmAbortSuspend`.  The argument `reason` is only printed by the C code. -/
def PmAbortSuspend (d : PmDefs) (e : PmExtern) (w : PmWorld) (master _reason node : Nat) :
    PmResult :=
  match e.PmGetProcOfThisMaster w master node with
  | none => ⟨w, [PmEffect.IPI_RESPONSE1 (w.masters master).buffer d.XST_PM_INVALID_NODE]⟩
  | some proc =>
    let r := e.PmProcFsm proc d.PM_PROC_EVENT_ABORT_SUSPEND w
    ⟨r.2, [PmEffect.PmProcFsm proc d.PM_PROC_EVENT_ABORT_SUSPEND,
           PmEffect.IPI_RESPONSE1 (r.2.masters master).buffer r.1]⟩

/-- `PmRequestWakeup`.  The status of `saveResumeAddr` is discarded, as in the
C code. -/
def PmRequestWakeup (d : PmDefs) (e : PmExtern) (w : PmWorld)
    (master node setAddress address ack : Nat) : PmResult :=
  let procPtr := e.PmGetProcByNodeId w node
  if e.PmSystemShutdownProcessing w = true then
    ⟨w, PmProcessAckRequest d w ack master node d.XST_PM_CONFLICT 0⟩
  else
    match procPtr with
    | none => ⟨w, PmProcessAckRequest d w ack master node d.XST_PM_INVALID_NODE 0⟩
    | some proc =>
      let saved : PmResult :=
        if 1 = setAddress then
          ⟨(e.saveResumeAddr proc address w).2, [PmEffect.saveResumeAddr proc address]⟩
        else ⟨w, []⟩
      let r := e.PmProcFsm proc d.PM_PROC_EVENT_WAKE saved.world
      let oppoint := (r.2.nodes (r.2.procs proc).node).currState
      ⟨r.2, saved.trace ++ [PmEffect.PmProcFsm proc d.PM_PROC_EVENT_WAKE]
              ++ PmProcessAckRequest d r.2 ack master node r.1 oppoint⟩

/-- `PmReleaseNode`. -/
def PmReleaseNode (d : PmDefs) (e : PmExtern) (w : PmWorld) (master node : Nat) : PmResult :=
  match e.PmGetRequirementForSlave w master node with
  | none => ⟨w, [PmEffect.IPI_RESPONSE1 (w.masters master).buffer d.XST_PM_NO_ACCESS]⟩
  | some masterReq =>
    if 0 = (w.reqs masterReq).info &&& d.PM_MASTER_USING_SLAVE_MASK then
      ⟨w, [PmEffect.IPI_RESPONSE1 (w.masters master).buffer d.XST_FAILURE]⟩
    else
      let r := e.PmRequirementUpdate masterReq 0 w
      let w2 := r.2.setReqInfo masterReq
        ((r.2.reqs masterReq).info &&& not32 d.PM_MASTER_USING_SLAVE_MASK)
      let slave := (w2.reqs masterReq).slave
      let usage := e.PmSlaveGetUsersMask w2 slave
      let notify : List PmEffect :=
        if 0 = usage then [PmEffect.PmNotifierEvent (w2.slaves slave).node d.EVENT_ZERO_USERS]
        else []
      ⟨w2, [PmEffect.PmRequirementUpdate masterReq 0] ++ notify
              ++ [PmEffect.IPI_RESPONSE1 (w2.masters master).buffer r.1]⟩

/-- `PmRequestNode`.  The argument `qos` is only printed by the C code. -/
def PmRequestNode (d : PmDefs) (e : PmExtern) (w : PmWorld)
    (master node capabilities _qos ack : Nat) : PmResult :=
  match e.PmGetRequirementForSlave w master node with
  | none => ⟨w, PmProcessAckRequest d w ack master node d.XST_PM_NO_ACCESS 0⟩
  | some masterReq =>
    if d.PM_MASTER_USING_SLAVE_MASK &&& (w.reqs masterReq).info ≠ 0 then
      ⟨w, PmProcessAckRequest d w ack master node d.XST_PM_DOUBLE_REQ 0⟩
    else
      let w1 := w.setReqInfo masterReq
        ((w.reqs masterReq).info ||| d.PM_MASTER_USING_SLAVE_MASK)
      let r := e.PmRequirementUpdate masterReq capabilities w1
      ⟨r.2, [PmEffect.PmRequirementUpdate masterReq capabilities]
              ++ PmProcessAckRequest d r.2 ack master node r.1 0⟩

/-- The `switch (master->procs->node.currState)` of `PmSetRequirement`. -/
def PmSetRequirement_switch (d : PmDefs) (e : PmExtern) (w : PmWorld)
    (master masterReq capabilities : Nat) : (Nat × PmWorld) × List PmEffect :=
  let currState := (w.nodes (w.procs (w.masters master).procs).node).currState
  if currState = d.PM_PROC_STATE_SUSPENDING then
    (e.PmRequirementSchedule masterReq capabilities w,
      [PmEffect.PmRequirementSchedule masterReq capabilities])
  else if currState = d.PM_PROC_STATE_ACTIVE then
    (e.PmRequirementUpdate masterReq capabilities w,
      [PmEffect.PmRequirementUpdate masterReq capabilities])
  else
    ((d.XST_FAILURE, w), [])

/-- `PmSetRequirement`.  The argument `qos` is only printed by the C code. -/
def PmSetRequirement (d : PmDefs) (e : PmExtern) (w : PmWorld)
    (master node capabilities _qos ack : Nat) : PmResult :=
  match e.PmGetRequirementForSlave w master node with
  | none => ⟨w, PmProcessAckRequest d w ack master node d.XST_PM_NO_ACCESS 0⟩
  | some masterReq =>
    if 0 = d.PM_MASTER_USING_SLAVE_MASK &&& (w.reqs masterReq).info then
      ⟨w, PmProcessAckRequest d w ack master node d.XST_PM_NO_ACCESS 0⟩
    else
      let r := PmSetRequirement_switch d e w master masterReq capabilities
      let w1 := r.1.2
      let oppoint := (w1.nodes (w1.slaves (w1.reqs masterReq).slave).node).currState
      ⟨w1, r.2 ++ PmProcessAckRequest d w1 ack master node r.1.1 oppoint⟩

/-- `PmGetApiVersion`. -/
def PmGetApiVersion (d : PmDefs) (w : PmWorld) (master : Nat) : PmResult :=
  let version := ((d.PM_VERSION_MAJOR <<< 16) % 2 ^ 32) ||| d.PM_VERSION_MINOR
  ⟨w, [PmEffect.IPI_RESPONSE2 (w.masters master).buffer d.XST_SUCCESS version]⟩

/-- `PmMmioWrite`. -/
def PmMmioWrite (d : PmDefs) (e : PmExtern) (w : PmWorld) (master address mask value : Nat) :
    PmResult :=
  if mask = 0 then
    ⟨w, [PmEffect.IPI_RESPONSE1 (w.masters master).buffer d.XST_SUCCESS]⟩
  else if e.PmGetMmioAccess w master address = false then
    ⟨w, [PmEffect.IPI_RESPONSE1 (w.masters master).buffer d.XST_PM_NO_ACCESS]⟩
  else if mask = 0xffffffff then
    let w1 := e.XPfw_Write32 address value w
    ⟨w1, [PmEffect.XPfw_Write32 address value,
          PmEffect.IPI_RESPONSE1 (w1.masters master).buffer d.XST_SUCCESS]⟩
  else
    let data := e.XPfw_Read32 w address &&& not32 mask
    let value1 := (value &&& mask) ||| data
    let w1 := e.XPfw_Write32 address value1 w
    ⟨w1, [PmEffect.XPfw_Read32 address, PmEffect.XPfw_Write32 address value1,
          PmEffect.IPI_RESPONSE1 (w1.masters master).buffer d.XST_SUCCESS]⟩

/-- `PmMmioRead`. -/
def PmMmioRead (d : PmDefs) (e : PmExtern) (w : PmWorld) (master address : Nat) : PmResult :=
  if e.PmGetMmioAccess w master address = false then
    ⟨w, [PmEffect.IPI_RESPONSE2 (w.masters master).buffer d.XST_PM_NO_ACCESS 0]⟩
  else
    ⟨w, [PmEffect.XPfw_Read32 address,
         PmEffect.IPI_RESPONSE2 (w.masters master).buffer d.XST_SUCCESS
           (e.XPfw_Read32 w address)]⟩

/-- `PmSetWakeupSource`. -/
def PmSetWakeupSource (d : PmDefs) (e : PmExtern) (w : PmWorld)
    (master targetNode sourceNode enable : Nat) : PmResult :=
  let req := e.PmGetRequirementForSlave w master sourceNode
  if targetNode ≠ (w.masters master).nid ∧ e.PmGetProcOfThisMaster w master targetNode = none
  then
    ⟨w, [PmEffect.IPI_RESPONSE1 (w.masters master).buffer d.XST_INVALID_PARAM]⟩
  else
    match req with
    | none => ⟨w, [PmEffect.IPI_RESPONSE1 (w.masters master).buffer d.XST_PM_NO_ACCESS]⟩
    | some r =>
      if (w.slaves (w.reqs r).slave).wake = none then
        ⟨w, [PmEffect.IPI_RESPONSE1 (w.masters master).buffer d.XST_NO_FEATURE]⟩
      else
        let w1 :=
          if 0 = enable then
            w.setReqInfo r ((w.reqs r).info &&& not32 d.PM_MASTER_WAKEUP_REQ_MASK)
          else
            w.setReqInfo r ((w.reqs r).info ||| d.PM_MASTER_WAKEUP_REQ_MASK)
        ⟨w1, [PmEffect.IPI_RESPONSE1 (w1.masters master).buffer d.XST_SUCCESS]⟩

/-- `PmSystemShutdown`. -/
def PmSystemShutdown (d : PmDefs) (e : PmExtern) (w : PmWorld) (master restart : Nat) :
    PmResult :=
  if e.PmSystemRequestNotAllowed w master = true then
    ⟨w, [PmEffect.IPI_RESPONSE1 (w.masters master).buffer d.XST_PM_NO_ACCESS]⟩
  else if d.PM_SHUTDOWN ≠ restart ∧ d.PM_RESTART ≠ restart then
    ⟨w, [PmEffect.IPI_RESPONSE1 (w.masters master).buffer d.XST_INVALID_PARAM]⟩
  else if e.PmSystemShutdownProcessing w = true then
    ⟨w, [PmEffect.IPI_RESPONSE1 (w.masters master).buffer d.XST_PM_DOUBLE_REQ]⟩
  else
    let r := e.PmSystemProcessShutdown master restart w
    ⟨r.2, [PmEffect.PmSystemProcessShutdown master restart,
           PmEffect.IPI_RESPONSE1 (r.2.masters master).buffer r.1]⟩

/-- `PmSetMaxLatency`. -/
def PmSetMaxLatency (d : PmDefs) (e : PmExtern) (w : PmWorld) (master node latency : Nat) :
    PmResult :=
  match e.PmGetRequirementForSlave w master node with
  | none => ⟨w, [PmEffect.IPI_RESPONSE1 (w.masters master).buffer d.XST_PM_NO_ACCESS]⟩
  | some masterReq =>
    if 0 = d.PM_MASTER_USING_SLAVE_MASK &&& (w.reqs masterReq).info then
      ⟨w, [PmEffect.IPI_RESPONSE1 (w.masters master).buffer d.XST_PM_NO_ACCESS]⟩
    else
      let w1 := w.setReqLatencyReq masterReq latency
      let slave := (w1.reqs masterReq).slave
      let r := e.PmUpdateSlave slave w1
      ⟨r.2, [PmEffect.PmUpdateSlave slave,
             PmEffect.IPI_RESPONSE1 (r.2.masters master).buffer r.1]⟩

/-- `PmSetConfiguration`: not implemented in the C code, it only prints. -/
def PmSetConfiguration (w : PmWorld) (_master _address : Nat) : PmResult :=
  ⟨w, []⟩

/-- `PmGetNodeStatus`. -/
def PmGetNodeStatus (d : PmDefs) (e : PmExtern) (w : PmWorld) (master node : Nat) : PmResult :=
  match e.PmGetNodeById w node with
  | none => ⟨w, [PmEffect.IPI_RESPONSE4 (w.masters master).buffer d.XST_INVALID_PARAM 0 0 0]⟩
  | some nodePtr =>
    let oppoint := (w.nodes nodePtr).currState
    if (w.nodes nodePtr).typeId ≥ d.PM_TYPE_SLAVE then
      ⟨w, [PmEffect.IPI_RESPONSE4 (w.masters master).buffer d.XST_SUCCESS oppoint
             (e.PmSlaveGetRequirements w node master) (e.PmSlaveGetUsageStatus w node master)]⟩
    else
      ⟨w, [PmEffect.IPI_RESPONSE4 (w.masters master).buffer d.XST_SUCCESS oppoint 0 0]⟩

/-- `PmGetOpCharacteristics`. -/
def PmGetOpCharacteristics (d : PmDefs) (e : PmExtern) (w : PmWorld)
    (master node type : Nat) : PmResult :=
  match e.PmGetNodeById w node with
  | none => ⟨w, [PmEffect.IPI_RESPONSE2 (w.masters master).buffer d.XST_INVALID_PARAM 0]⟩
  | some nodePtr =>
    if type = d.PM_OPCHAR_TYPE_POWER then
      ⟨w, [PmEffect.IPI_RESPONSE2 (w.masters master).buffer d.XST_SUCCESS
             (e.PmNodeGetPowerConsumption w nodePtr (w.nodes nodePtr).currState)]⟩
    else if type = d.PM_OPCHAR_TYPE_TEMP then
      ⟨w, [PmEffect.IPI_RESPONSE2 (w.masters master).buffer d.XST_SUCCESS 0]⟩
    else if type = d.PM_OPCHAR_TYPE_LATENCY then
      ⟨w, [PmEffect.IPI_RESPONSE2 (w.masters master).buffer d.XST_SUCCESS
             (e.PmNodeGetWakeLatency w nodePtr)]⟩
    else
      ⟨w, [PmEffect.IPI_RESPONSE2 (w.masters master).buffer d.XST_INVALID_PARAM 0]⟩

/-- `PmRegisterNotifier`. -/
def PmRegisterNotifier (d : PmDefs) (e : PmExtern) (w : PmWorld)
    (master node event wake enable : Nat) : PmResult :=
  match e.PmGetNodeById w node with
  | none => ⟨w, [PmEffect.IPI_RESPONSE1 (w.masters master).buffer d.XST_INVALID_PARAM]⟩
  | some nodePtr =>
    if 0 = enable then
      let w1 := e.PmNotifierUnregister master nodePtr event w
      ⟨w1, [PmEffect.PmNotifierUnregister master nodePtr event,
            PmEffect.IPI_RESPONSE1 (w1.masters master).buffer d.XST_SUCCESS]⟩
    else
      let r := e.PmNotifierRegister master nodePtr event wake w
      ⟨r.2, [PmEffect.PmNotifierRegister master nodePtr event wake,
             PmEffect.IPI_RESPONSE1 (r.2.masters master).buffer r.1]⟩

/-- `PmProcessApiCall`: the `switch (pload[0])`, one case per API id in the
order of the C code. -/
def PmProcessApiCall (d : PmDefs) (e : PmExtern) (w : PmWorld) (master : Nat)
    (pload : Nat → Nat) : PmResult :=
  let id := pload 0
  if id = d.PM_SELF_SUSPEND then
    let address := ((pload 5 <<< 32) % 2 ^ 64 + pload 4) % 2 ^ 64
    PmSelfSuspend d e w master (pload 1) (pload 2) (pload 3) address
  else if id = d.PM_REQUEST_SUSPEND then
    PmRequestSuspend d e w master (pload 1) (pload 2) (pload 3) (pload 4)
  else if id = d.PM_FORCE_POWERDOWN then
    PmForcePowerdown d e w master (pload 1) (pload 2)
  else if id = d.PM_ABORT_SUSPEND then
    PmAbortSuspend d e w master (pload 1) (pload 2)
  else if id = d.PM_REQUEST_WAKEUP then
    let setAddress := pload 2 &&& 0x1
    let address := ((pload 3 <<< 32) % 2 ^ 64 + (pload 2 &&& not32 0x1)) % 2 ^ 64
    PmRequestWakeup d e w master (pload 1) setAddress address (pload 4)
  else if id = d.PM_SET_WAKEUP_SOURCE then
    PmSetWakeupSource d e w master (pload 1) (pload 2) (pload 3)
  else if id = d.PM_SYSTEM_SHUTDOWN then
    PmSystemShutdown d e w master (pload 1)
  else if id = d.PM_REQUEST_NODE then
    PmRequestNode d e w master (pload 1) (pload 2) (pload 3) (pload 4)
  else if id = d.PM_RELEASE_NODE then
    PmReleaseNode d e w master (pload 1)
  else if id = d.PM_SET_REQUIREMENT then
    PmSetRequirement d e w master (pload 1) (pload 2) (pload 3) (pload 4)
  else if id = d.PM_SET_MAX_LATENCY then
    PmSetMaxLatency d e w master (pload 1) (pload 2)
  else if id = d.PM_GET_API_VERSION then
    PmGetApiVersion d w master
  else if id = d.PM_SET_CONFIGURATION then
    PmSetConfiguration w master (pload 1)
  else if id = d.PM_GET_NODE_STATUS then
    PmGetNodeStatus d e w master (pload 1)
  else if id = d.PM_GET_OP_CHARACTERISTIC then
    PmGetOpCharacteristics d e w master (pload 1) (pload 2)
  else if id = d.PM_REGISTER_NOTIFIER then
    PmRegisterNotifier d e w master (pload 1) (pload 2) (pload 3) (pload 4)
  else if id = d.PM_RESET_ASSERT then
    let r := e.PmResetAssert master (pload 1) (pload 2) w
    ⟨r.world, PmEffect.PmResetAssert master (pload 1) (pload 2) :: r.trace⟩
  else if id = d.PM_RESET_GET_STATUS then
    let r := e.PmResetGetStatus master (pload 1) w
    ⟨r.world, PmEffect.PmResetGetStatus master (pload 1) :: r.trace⟩
  else if id = d.PM_MMIO_WRITE then
    PmMmioWrite d e w master (pload 1) (pload 2) (pload 3)
  else if id = d.PM_MMIO_READ then
    PmMmioRead d e w master (pload 1)
  else
    ⟨w, PmProcessAckRequest d w (e.PmRequestAcknowledge w pload) master d.NODE_UNKNOWN
          d.XST_INVALID_VERSION 0⟩

/-- `PmProcessRequest`. -/
def PmProcessRequest (d : PmDefs) (e : PmExtern) (w : PmWorld) (master : Nat)
    (pload : Nat → Nat) : PmResult :=
  let status := e.PmCheckPayload w pload
  if d.PM_PAYLOAD_OK = status then
    PmProcessApiCall d e w master pload
  else if d.PM_PAYLOAD_ERR_API_ID ≠ status then
    ⟨w, PmProcessAckRequest d w (e.PmRequestAcknowledge w pload) master d.NODE_UNKNOWN
          d.XST_INVALID_PARAM 0⟩
  else
    ⟨w, []⟩

/-! ## Contracts of collaborators and trace observations -/

/-- The API ids `PmProcessApiCall` has a case for. -/
def recognizedApiIds (d : PmDefs) : List Nat :=
  [d.PM_SELF_SUSPEND, d.PM_REQUEST_SUSPEND, d.PM_FORCE_POWERDOWN, d.PM_ABORT_SUSPEND,
   d.PM_REQUEST_WAKEUP, d.PM_SET_WAKEUP_SOURCE, d.PM_SYSTEM_SHUTDOWN, d.PM_REQUEST_NODE,
   d.PM_RELEASE_NODE, d.PM_SET_REQUIREMENT, d.PM_SET_MAX_LATENCY, d.PM_GET_API_VERSION,
   d.PM_SET_CONFIGURATION, d.PM_GET_NODE_STATUS, d.PM_GET_OP_CHARACTERISTIC,
   d.PM_REGISTER_NOTIFIER, d.PM_RESET_ASSERT, d.PM_RESET_GET_STATUS, d.PM_MMIO_WRITE,
   d.PM_MMIO_READ]

/-- Modelled from the spec: the payload validation `PmCheckPayload` of `pm_api.c`, which
is not among the translated files.  Section 4.1, step 1: an unknown or
out-of-range API id yields `PM_PAYLOAD_ERR_API_ID`. -/
def PmCheckPayloadRejectsUnknownId (d : PmDefs) (e : PmExtern) : Prop :=
  ∀ (w : PmWorld) (pload : Nat → Nat),
    pload 0 ∉ recognizedApiIds d → e.PmCheckPayload w pload = d.PM_PAYLOAD_ERR_API_ID

/-- Replies to a master: a response written to an IPI buffer or an acknowledge
callback. -/
def PmEffect.isReply : PmEffect → Bool
  | PmEffect.IPI_RESPONSE1 _ _ => true
  | PmEffect.IPI_RESPONSE2 _ _ _ => true
  | PmEffect.IPI_RESPONSE4 _ _ _ _ _ => true
  | PmEffect.PmAcknowledgeCb _ _ _ _ => true
  | _ => false

/-- Recorded calls of `PmInitSuspendCb`. -/
def PmEffect.isInitSuspendCb : PmEffect → Bool
  | PmEffect.PmInitSuspendCb _ _ _ _ _ => true
  | _ => false

/-- Recorded calls of `PmRequirementUpdate`. -/
def PmEffect.isRequirementUpdate : PmEffect → Bool
  | PmEffect.PmRequirementUpdate _ _ => true
  | _ => false

/-- Recorded calls of `PmRequirementSchedule`. -/
def PmEffect.isRequirementSchedule : PmEffect → Bool
  | PmEffect.PmRequirementSchedule _ _ => true
  | _ => false

/-- Recorded calls of `PmSystemProcessShutdown`. -/
def PmEffect.isSystemProcessShutdown : PmEffect → Bool
  | PmEffect.PmSystemProcessShutdown _ _ => true
  | _ => false

/-- Recorded calls of `saveResumeAddr` and `PmProcFsm`. -/
def PmEffect.isProcCall : PmEffect → Bool
  | PmEffect.saveResumeAddr _ _ => true
  | PmEffect.PmProcFsm _ _ => true
  | _ => false

/-- Recorded calls of `PmUpdateSlave`. -/
def PmEffect.isUpdateSlave : PmEffect → Bool
  | PmEffect.PmUpdateSlave _ => true
  | _ => false

/-- Fired notifier events. -/
def PmEffect.isNotifierEvent : PmEffect → Bool
  | PmEffect.PmNotifierEvent _ _ => true
  | _ => false

/-- Recorded calls of `PmOpportunisticSuspend`. -/
def PmEffect.isOpportunisticSuspend : PmEffect → Bool
  | PmEffect.PmOpportunisticSuspend _ => true
  | _ => false

/-- Recorded force-down attempts: `PmProcFsm` and `PmForceDownTree` calls. -/
def PmEffect.isForceDown : PmEffect → Bool
  | PmEffect.PmProcFsm _ _ => true
  | PmEffect.PmForceDownTree _ => true
  | _ => false

/-- Requirement updates, requirement schedules, slave updates and notifier
events. -/
def PmEffect.isRequirementAction : PmEffect → Bool
  | PmEffect.PmRequirementUpdate _ _ => true
  | PmEffect.PmRequirementSchedule _ _ => true
  | PmEffect.PmUpdateSlave _ => true
  | PmEffect.PmNotifierEvent _ _ => true
  | _ => false

/-- The current state of a processor, `proc->node.currState`. -/
def PmWorld.procState (w : PmWorld) (proc : Nat) : Nat :=
  (w.nodes (w.procs proc).node).currState

/-- Modelled from the spec: the processor state machine `PmProcFsm` of `pm_proc.c`,
which is not among the translated files, for the abort event.  Section 4.3:
`AbortSuspend` is valid only from `Suspending`; if the processor is not in
`Suspending` the result is an error and there is no transition (section 8: the
state is left unchanged). -/
def PmProcFsmAbortOnlyWhileSuspending (d : PmDefs) (e : PmExtern) : Prop :=
  ∀ (proc : Nat) (w : PmWorld),
    w.procState proc ≠ d.PM_PROC_STATE_SUSPENDING →
      (e.PmProcFsm proc d.PM_PROC_EVENT_ABORT_SUSPEND w).1 ≠ d.XST_SUCCESS ∧
      (e.PmProcFsm proc d.PM_PROC_EVENT_ABORT_SUSPEND w).2 = w

/-! ## A concrete configuration for evaluating the handlers -/

/-- One assignment of the constants. -/
def exDefs : PmDefs where
  XST_SUCCESS := 0
  XST_FAILURE := 1
  XST_INVALID_PARAM := 15
  XST_INVALID_VERSION := 4
  XST_NO_FEATURE := 19
  XST_PM_CONFLICT := 2001
  XST_PM_NO_ACCESS := 2002
  XST_PM_INVALID_NODE := 2003
  XST_PM_DOUBLE_REQ := 2004
  REQUEST_ACK_BLOCKING := 2
  REQUEST_ACK_NON_BLOCKING := 3
  PM_PROC_EVENT_SELF_SUSPEND := 1
  PM_PROC_EVENT_FORCE_PWRDN := 2
  PM_PROC_EVENT_ABORT_SUSPEND := 3
  PM_PROC_EVENT_WAKE := 4
  PM_PROC_STATE_SUSPENDING := 2
  PM_PROC_STATE_ACTIVE := 1
  PM_TYPE_PROC := 1
  PM_TYPE_PWR_ISLAND := 2
  PM_TYPE_PWR_DOMAIN := 3
  PM_TYPE_SLAVE := 4
  PM_MASTER_USING_SLAVE_MASK := 2
  PM_MASTER_WAKEUP_REQ_MASK := 1
  SUSPEND_REASON_PU_REQ := 201
  EVENT_ZERO_USERS := 2
  NODE_UNKNOWN := 0
  PM_SHUTDOWN := 0
  PM_RESTART := 1
  PM_VERSION_MAJOR := 0
  PM_VERSION_MINOR := 1
  PM_OPCHAR_TYPE_POWER := 1
  PM_OPCHAR_TYPE_TEMP := 2
  PM_OPCHAR_TYPE_LATENCY := 3
  PM_PAYLOAD_OK := 0
  PM_PAYLOAD_ERR_API_ID := 1
  PM_GET_API_VERSION := 1
  PM_SET_CONFIGURATION := 2
  PM_GET_NODE_STATUS := 3
  PM_GET_OP_CHARACTERISTIC := 4
  PM_REGISTER_NOTIFIER := 5
  PM_REQUEST_SUSPEND := 6
  PM_SELF_SUSPEND := 7
  PM_FORCE_POWERDOWN := 8
  PM_ABORT_SUSPEND := 9
  PM_REQUEST_WAKEUP := 10
  PM_SET_WAKEUP_SOURCE := 11
  PM_SYSTEM_SHUTDOWN := 12
  PM_REQUEST_NODE := 13
  PM_RELEASE_NODE := 14
  PM_SET_REQUIREMENT := 15
  PM_SET_MAX_LATENCY := 16
  PM_RESET_ASSERT := 17
  PM_RESET_GET_STATUS := 18
  PM_MMIO_WRITE := 19
  PM_MMIO_READ := 20

/-- A small topology: masters 0 and 1 own processor 0 resp. 1 (node ids 10 and
11, placeholders 20 and 21), both have a Requirement (0 resp. 1) on slave 0
(node id 40, node 2).  Word 0 of `mem` is the shutdown-in-progress flag, word
`100 + r` the capabilities last set for Requirement `r`, word `200 + p` the
resume address of processor `p`.  The processor FSM accepts every event and
leaves the state alone. -/
def exExtern : PmExtern where
  PmCheckPayload := fun _ pload => if pload 0 ∈ recognizedApiIds exDefs then 0 else 1
  PmRequestAcknowledge := fun _ pload => pload 2
  PmGetProcOfThisMaster := fun _ master node => if node = 10 + master then some master else none
  PmGetProcByNodeId := fun _ node => if node = 10 then some 0 else if node = 11 then some 1 else none
  PmGetNodeById := fun _ node =>
    if node = 10 then some 0 else if node = 11 then some 1 else if node = 40 then some 2 else none
  PmMasterGetPlaceholder := fun _ node =>
    if node = 20 then some 0 else if node = 21 then some 1 else none
  PmGetRequirementForSlave := fun _ master node =>
    if node = 40 ∧ master < 2 then some master else none
  PmCanRequestSuspend := fun _ _ _ => true
  PmIsRequestedToSuspend := fun w target => ((w.masters target).suspendRequest.initiator).isSome
  PmSystemShutdownProcessing := fun w => decide (w.mem 0 ≠ 0)
  PmSystemRequestNotAllowed := fun _ master => decide (master ≠ 0)
  PmSlaveGetUsersMask := fun w _ =>
    (if (w.reqs 0).info &&& 2 = 0 then 0 else 1) + (if (w.reqs 1).info &&& 2 = 0 then 0 else 2)
  PmSlaveGetRequirements := fun w _ master => w.mem (100 + master)
  PmSlaveGetUsageStatus := fun w _ master => if (w.reqs master).info &&& 2 = 0 then 0 else 1
  PmNodeGetPowerConsumption := fun _ _ _ => 0
  PmNodeGetWakeLatency := fun _ _ => 0
  PmGetMmioAccess := fun _ _ address => decide (1000 ≤ address)
  XPfw_Read32 := fun w address => w.mem address
  XPfw_Write32 := fun address value w => { w with mem := Function.update w.mem address value }
  saveResumeAddr := fun proc address w =>
    (0, { w with mem := Function.update w.mem (200 + proc) address })
  PmProcFsm := fun _ _ w => (0, w)
  PmForceDownTree := fun _ w => (0, w)
  PmOpportunisticSuspend := fun _ w => w
  PmRequirementUpdate := fun req caps w =>
    (0, { w with mem := Function.update w.mem (100 + req) caps })
  PmRequirementSchedule := fun _ _ w => (0, w)
  PmUpdateSlave := fun _ w => (0, w)
  PmSystemProcessShutdown := fun _ _ w => (0, { w with mem := Function.update w.mem 0 1 })
  PmNotifierRegister := fun _ _ _ _ w => (0, w)
  PmNotifierUnregister := fun _ _ _ w => w
  PmResetAssert := fun _ _ _ w => ⟨w, []⟩
  PmResetGetStatus := fun _ _ w => ⟨w, []⟩

/-- The initial state of the small topology: every processor active, no
Requirement in use, no suspend request, no shutdown in progress.  Processor `p`
has power-down latency `pwrDn` and power-up latency `pwrUp`. -/
def exWorldLat (pwrDn pwrUp : Nat) : PmWorld where
  nodes := fun n => ⟨if n = 2 then 40 else 10 + n, if n = 2 then 4 else 1, 1, none, n⟩
  procs := fun p => ⟨p, pwrDn, pwrUp, 0⟩
  slaves := fun _ => ⟨2, some 0⟩
  reqs := fun _ => ⟨0, 0, 0⟩
  masters := fun m => ⟨20 + m, 500 + m, m, ⟨none, 0⟩⟩
  mem := fun _ => 0

/-- The initial state with latencies 100 and 200. -/
def exWorld : PmWorld := exWorldLat 100 200

/-- The state `exWorld` while a system shutdown is being processed. -/
def exWorldShutdown : PmWorld := { exWorld with mem := Function.update exWorld.mem 0 1 }

/-- The state `exWorld` in which master 0 uses slave 0 and, if `st` is given,
the processor of master 0 is in state `st`. -/
def exWorldInUse (st : Nat) : PmWorld :=
  { exWorld with
    reqs := Function.update exWorld.reqs 0 ⟨0, 2, 0⟩
    nodes := Function.update exWorld.nodes 0 ⟨10, 1, st, none, 0⟩ }

/-- Store `proc->node.currState = st`. -/
def PmWorld.setProcState (w : PmWorld) (proc st : Nat) : PmWorld :=
  let n : PmNode := { (w.nodes (w.procs proc).node) with currState := st }
  { w with nodes := Function.update w.nodes (w.procs proc).node n }

/-- Modelled from the spec: the processor state machine `PmProcFsm` of `pm_proc.c`,
which is not among the translated files, as section 4.3 describes it, with the
states forced-down 0, active 1, suspending 2, suspended 3 and the events of
`exDefs`: self-suspend moves an active processor to suspending; abort moves a
suspending processor back to active; wake moves a suspending or suspended
processor to active; force-powerdown moves any processor to forced-down; every
other combination is an error (`XST_FAILURE`) without transition. -/
def exProcFsm (proc event : Nat) (w : PmWorld) : Nat × PmWorld :=
  let st := w.procState proc
  if event = 1 then
    if st = 1 then (0, w.setProcState proc 2) else (1, w)
  else if event = 3 then
    if st = 2 then (0, w.setProcState proc 1) else (1, w)
  else if event = 4 then
    if st = 2 ∨ st = 3 then (0, w.setProcState proc 1) else (1, w)
  else if event = 2 then
    (0, w.setProcState proc 0)
  else
    (1, w)

/-- The collaborators of `exExtern` with the state machine `exProcFsm`, a
requirement update that accepts only capabilities below 8 and otherwise
returns `XST_NO_FEATURE` without changing anything, and a payload check that
in addition answers 2 (an argument error) for a payload whose word 4 is 0. -/
def exExternFsm : PmExtern :=
  { exExtern with
    PmCheckPayload := fun _ pload =>
      if pload 0 ∈ recognizedApiIds exDefs then (if pload 4 = 0 then 2 else 0) else 1
    PmProcFsm := exProcFsm
    PmRequirementUpdate := fun req caps w =>
      if caps < 8 then (0, { w with mem := Function.update w.mem (100 + req) caps })
      else (19, w) }

/-- The state `exWorld` in which the node of processor 0 has the power node 7
as parent. -/
def exWorldParent : PmWorld :=
  { exWorld with nodes := Function.update exWorld.nodes 0 ⟨10, 1, 1, some 7, 0⟩ }

/-- A payload from a list of words. -/
def payload (ws : List Nat) : Nat → Nat := fun i => ws.getD i 0

/-- Modelled from the spec: the requested capability bitmask of a Requirement
(section 3), a member of `PmRequirement` that `pm_core.c` never accesses; it is
kept in word `3 * req + 1` of `mem`. -/
def PmWorld.requestedCaps (w : PmWorld) (req : Nat) : Nat := w.mem (3 * req + 1)

/-- Modelled from the spec: the effective capability requirement of a slave
(section 3), state of the slave that `pm_core.c` never accesses; it is kept in
word `3 * slave + 2` of `mem`. -/
def PmWorld.effectiveCaps (w : PmWorld) (slave : Nat) : Nat := w.mem (3 * slave + 2)

/-- Modelled from the spec: "the union across all masters currently marked
in-use" (section 3) of the requested capabilities, taken over the Requirements
`rs` of a slave. -/
def unionInUse (d : PmDefs) (w : PmWorld) (rs : List Nat) : Nat :=
  rs.foldr (fun r acc =>
    if (w.reqs r).info &&& d.PM_MASTER_USING_SLAVE_MASK = 0 then acc
    else w.requestedCaps r ||| acc) 0

/-- Modelled from the spec: `PmRequirementUpdate`, a function of a translation unit
that is not among the translated files.  Section 4.4: it updates the slave's
effective capability (the union across all in-use masters); the update may
fail if the requested capability is invalid for the slave, reported as the
update's own error code `err`, and a failed operation leaves the state
unchanged (section 7).  `valid slave caps` tells whether the capability is
valid for the slave, `reqsOf slave` lists the Requirements of the slave. -/
def specRequirementUpdate (d : PmDefs) (valid : Nat → Nat → Bool) (reqsOf : Nat → List Nat)
    (err : Nat) (req caps : Nat) (w : PmWorld) : Nat × PmWorld :=
  let slave := (w.reqs req).slave
  if valid slave caps = true then
    let w1 : PmWorld := { w with mem := Function.update w.mem (3 * req + 1) caps }
    (d.XST_SUCCESS,
      { w1 with mem := Function.update w1.mem (3 * slave + 2) (unionInUse d w1 (reqsOf slave)) })
  else
    (err, w)

/-- The collaborators of `exExtern` with the requirement update of the
specification: capabilities below 8 are valid, slave 0 has the Requirements 0
and 1, the error code is `XST_NO_FEATURE`. -/
def exExternSpec : PmExtern :=
  { exExtern with
    PmRequirementUpdate :=
      specRequirementUpdate exDefs (fun _ caps => decide (caps < 8)) (fun _ => [0, 1]) 19 }

/-- Responses written to an IPI buffer. -/
def PmEffect.isIpiResponse : PmEffect → Bool
  | PmEffect.IPI_RESPONSE1 _ _ => true
  | PmEffect.IPI_RESPONSE2 _ _ _ => true
  | PmEffect.IPI_RESPONSE4 _ _ _ _ _ => true
  | _ => false

/-- Acknowledge callbacks. -/
def PmEffect.isAcknowledgeCb : PmEffect → Bool
  | PmEffect.PmAcknowledgeCb _ _ _ _ => true
  | _ => false

/-- Register reads. -/
def PmEffect.isRegisterRead : PmEffect → Bool
  | PmEffect.XPfw_Read32 _ => true
  | _ => false

/-- Register writes. -/
def PmEffect.isRegisterWrite : PmEffect → Bool
  | PmEffect.XPfw_Write32 _ _ => true
  | _ => false

end PmCore

/-! # Reset validation of the first-stage boot loader (`xfsbl_initialization.c`) -/

namespace Fsbl

/-- Register addresses, masks and codes of `xfsbl_hw.h`, `xfsbl_error.h` and
`xfsbl_main.h` used by `XFsbl_ResetValidation`. -/
structure XFsblDefs where
  XFSBL_ERROR_STATUS_REGISTER_OFFSET : Nat
  CRL_APB_RESET_REASON : Nat
  PMU_GLOBAL_ERROR_STATUS_1 : Nat
  CRL_APB_RESET_REASON_PMU_SYS_RESET_MASK : Nat
  PMU_GLOBAL_ERROR_STATUS_1_LPD_SWDT_MASK : Nat
  XFSBL_RUNNING : Nat
  XFSBL_SUCCESS : Nat
  XFSBL_ERROR_SYSTEM_WDT_RESET : Nat

/-- The register file: the word each address holds. -/
abbrev Regs := Nat → Nat

/-- Modelled from the spec: the macro `XFsbl_In32` of `xfsbl_hw.h`, which is not
among the translated files; section 6, `ReadRegister(address) -> word`: the
word the register file holds at the address. -/
def XFsbl_In32 (regs : Regs) (addr : Nat) : Nat := regs addr

/-- Modelled from the spec: the macro `XFsbl_Out32` of `xfsbl_hw.h`, which is not
among the translated files; section 6, `WriteRegister(address, word)`:
afterwards the register at the address holds the word. -/
def XFsbl_Out32 (regs : Regs) (addr value : Nat) : Regs := Function.update regs addr value

/-- What `XFsbl_ResetValidation` leaves behind: the returned status, the
register file and the register writes `(address, value)` it performed. -/
structure ResetResult where
  status : Nat
  regs : Regs
  writes : List (Nat × Nat)

/-- `XFsbl_ResetValidation`.  The instance pointer is not used by the C
code. -/
def XFsbl_ResetValidation (c : XFsblDefs) (regs : Regs) : ResetResult :=
  let FsblErrorStatus := XFsbl_In32 regs c.XFSBL_ERROR_STATUS_REGISTER_OFFSET
  let ResetReasonValue := XFsbl_In32 regs c.CRL_APB_RESET_REASON
  let ErrStatusRegValue := XFsbl_In32 regs c.PMU_GLOBAL_ERROR_STATUS_1
  if ResetReasonValue &&& c.CRL_APB_RESET_REASON_PMU_SYS_RESET_MASK
        = c.CRL_APB_RESET_REASON_PMU_SYS_RESET_MASK ∧
      ErrStatusRegValue &&& c.PMU_GLOBAL_ERROR_STATUS_1_LPD_SWDT_MASK
        = c.PMU_GLOBAL_ERROR_STATUS_1_LPD_SWDT_MASK ∧
      FsblErrorStatus = c.XFSBL_RUNNING then
    ⟨c.XFSBL_ERROR_SYSTEM_WDT_RESET, regs, []⟩
  else if FsblErrorStatus ≠ c.XFSBL_RUNNING then
    ⟨c.XFSBL_SUCCESS, XFsbl_Out32 regs c.XFSBL_ERROR_STATUS_REGISTER_OFFSET c.XFSBL_RUNNING,
      [(c.XFSBL_ERROR_STATUS_REGISTER_OFFSET, c.XFSBL_RUNNING)]⟩
  else
    ⟨c.XFSBL_SUCCESS, regs, []⟩

/-- One assignment of the constants, for evaluating `XFsbl_ResetValidation`. -/
def exFsblDefs : XFsblDefs where
  XFSBL_ERROR_STATUS_REGISTER_OFFSET := 0x2040
  CRL_APB_RESET_REASON := 0x0220
  PMU_GLOBAL_ERROR_STATUS_1 := 0x0530
  CRL_APB_RESET_REASON_PMU_SYS_RESET_MASK := 0x04
  PMU_GLOBAL_ERROR_STATUS_1_LPD_SWDT_MASK := 0x01
  XFSBL_RUNNING := 0xFFFF
  XFSBL_SUCCESS := 0
  XFSBL_ERROR_SYSTEM_WDT_RESET := 0x39

/-- A register file from the contents of the three registers. -/
def exRegs (errorStatus resetReason pmuError : Nat) : Regs := fun a =>
  if a = 0x2040 then errorStatus else if a = 0x0220 then resetReason
  else if a = 0x0530 then pmuError else 0

end Fsbl

namespace PmCore

/-! ## Theorems -/

theorem exExtern_checks_ids : PmCheckPayloadRejectsUnknownId exDefs exExtern := by
  intro w pload h
  show (if pload 0 ∈ recognizedApiIds exDefs then 0 else 1) = 1
  rw [if_neg h]

/-- The `default:` case of `PmProcessApiCall`: an id none of the cases matches is
acknowledged with `XST_INVALID_VERSION` for `NODE_UNKNOWN`, through the ack mode
`PmRequestAcknowledge` recovers from the payload.  `PmProcessRequest` reaches
this case only when `PmCheckPayload` has accepted the payload. -/
theorem PmProcessApiCall_unknown_id (d : PmDefs) (e : PmExtern) (w : PmWorld) (master : Nat)
    (pload : Nat → Nat) (hid : pload 0 ∉ recognizedApiIds d) :
    PmProcessApiCall d e w master pload
      = ⟨w, PmProcessAckRequest d w (e.PmRequestAcknowledge w pload) master d.NODE_UNKNOWN
            d.XST_INVALID_VERSION 0⟩ := by
  simp only [recognizedApiIds, List.mem_cons, List.mem_singleton, not_or, List.not_mem_nil,
    or_false] at hid
  obtain ⟨h1, h2, h3, h4, h5, h6, h7, h8, h9, h10, h11, h12, h13, h14, h15, h16, h17, h18,
    h19, h20⟩ := hid
  simp only [PmProcessApiCall, if_neg h1, if_neg h2, if_neg h3, if_neg h4, if_neg h5,
    if_neg h6, if_neg h7, if_neg h8, if_neg h9, if_neg h10, if_neg h11, if_neg h12,
    if_neg h13, if_neg h14, if_neg h15, if_neg h16, if_neg h17, if_neg h18, if_neg h19,
    if_neg h20]

/-- C1: for every master and every payload whose API id is not one of the ids
`PmProcessApiCall` recognizes, `PmProcessRequest` sends no reply of any kind (no
response word, no acknowledge callback): it performs nothing at all and leaves
the state as it is.  The validation `PmCheckPayload` is the one the spec
describes: it classifies such an id as `PM_PAYLOAD_ERR_API_ID`. -/
theorem PmProcessRequest_unknown_id_no_reply (d : PmDefs) (e : PmExtern)
    (hchk : PmCheckPayloadRejectsUnknownId d e)
    (henum : d.PM_PAYLOAD_OK ≠ d.PM_PAYLOAD_ERR_API_ID)
    (w : PmWorld) (master : Nat) (pload : Nat → Nat)
    (hid : pload 0 ∉ recognizedApiIds d) :
    (∀ x ∈ (PmProcessRequest d e w master pload).trace, x.isReply = false) ∧
    (PmProcessRequest d e w master pload).trace = [] ∧
    (PmProcessRequest d e w master pload).world = w := by
  have h := hchk w pload hid
  simp [PmProcessRequest, h, henum]

/-- C1, evaluated: API id 99 with a blocking ack word is not answered. -/
theorem PmProcessRequest_unknown_id_no_reply_witness :
    (PmProcessRequest exDefs exExtern exWorld 0 (payload [99, 0, 2, 0, 0, 0])).trace = [] :=
  (PmProcessRequest_unknown_id_no_reply exDefs exExtern exExtern_checks_ids (by decide)
    exWorld 0 (payload [99, 0, 2, 0, 0, 0]) (by decide)).2.1

/-- Every effect of `PmProcessAckRequest` is a reply. -/
theorem PmProcessAckRequest_isReply (d : PmDefs) (w : PmWorld)
    (ack master nodeId status oppoint : Nat) :
    ∀ x ∈ PmProcessAckRequest d w ack master nodeId status oppoint, x.isReply = true := by
  intro x hx
  unfold PmProcessAckRequest at hx
  split_ifs at hx <;> simp at hx <;> subst hx <;> rfl

/-- A reply is none of the recorded collaborator calls. -/
theorem PmEffect.isReply_not_call (x : PmEffect) (h : x.isReply = true) :
    x.isInitSuspendCb = false ∧ x.isRequirementUpdate = false ∧
    x.isRequirementSchedule = false ∧ x.isSystemProcessShutdown = false ∧
    x.isProcCall = false := by
  cases x <;> simp_all [PmEffect.isReply, PmEffect.isInitSuspendCb,
    PmEffect.isRequirementUpdate, PmEffect.isRequirementSchedule,
    PmEffect.isSystemProcessShutdown, PmEffect.isProcCall]

/-- C2: `PmRequestSuspend` with `ack = REQUEST_ACK_BLOCKING` is rejected with
`XST_INVALID_PARAM` for every master, node, latency, state and every system
state (shutdown in progress or not, any target state): the only effect is the
one-word response carrying `XST_INVALID_PARAM`, the state is unchanged, in
particular the `suspendRequest` of every master, and `PmInitSuspendCb` is not
invoked. -/
theorem PmRequestSuspend_blocking_rejected (d : PmDefs) (e : PmExtern) (w : PmWorld)
    (master node latency state : Nat) (hne : d.XST_SUCCESS ≠ d.XST_INVALID_PARAM) :
    (PmRequestSuspend d e w master node d.REQUEST_ACK_BLOCKING latency state).trace
      = [PmEffect.IPI_RESPONSE1 (w.masters master).buffer d.XST_INVALID_PARAM] ∧
    (PmRequestSuspend d e w master node d.REQUEST_ACK_BLOCKING latency state).world = w ∧
    (∀ m, ((PmRequestSuspend d e w master node d.REQUEST_ACK_BLOCKING latency
        state).world.masters m).suspendRequest = (w.masters m).suspendRequest) ∧
    (∀ x ∈ (PmRequestSuspend d e w master node d.REQUEST_ACK_BLOCKING latency state).trace,
        x.isInitSuspendCb = false) := by
  simp [PmRequestSuspend, PmRequestSuspend_done, PmProcessAckRequest, hne,
    PmEffect.isInitSuspendCb]

/-- C2, evaluated while a shutdown is in progress and for a node that is no
placeholder. -/
theorem PmRequestSuspend_blocking_rejected_witness :
    (PmRequestSuspend exDefs exExtern exWorldShutdown 0 77 exDefs.REQUEST_ACK_BLOCKING 5
        6).trace
      = [PmEffect.IPI_RESPONSE1 (exWorldShutdown.masters 0).buffer exDefs.XST_INVALID_PARAM] :=
  (PmRequestSuspend_blocking_rejected exDefs exExtern exWorldShutdown 0 77 5 6
    (by decide)).1

/-- Part of C3 that holds: a node that is not a processor of the calling master
is rejected with `XST_INVALID_PARAM`, nothing is called and nothing changes. -/
theorem PmSelfSuspend_foreign_node (d : PmDefs) (e : PmExtern) (w : PmWorld)
    (master node latency state address : Nat)
    (hproc : e.PmGetProcOfThisMaster w master node = none) :
    (PmSelfSuspend d e w master node latency state address).trace
      = [PmEffect.IPI_RESPONSE1 (w.masters master).buffer d.XST_INVALID_PARAM] ∧
    (PmSelfSuspend d e w master node latency state address).world = w := by
  simp [PmSelfSuspend, hproc]

/-- Part of C3 that holds: a latency below the 32-bit sum of the two latencies
is rejected with `XST_INVALID_PARAM`, nothing is called and nothing changes.
When the exact sum fits in 32 bits this is the exact sum. -/
theorem PmSelfSuspend_latency_below_sum32 (d : PmDefs) (e : PmExtern) (w : PmWorld)
    (master node latency state address proc : Nat)
    (hproc : e.PmGetProcOfThisMaster w master node = some proc)
    (hlat : latency < ((w.procs proc).pwrDnLatency + (w.procs proc).pwrUpLatency) % 2 ^ 32) :
    (PmSelfSuspend d e w master node latency state address).trace
      = [PmEffect.IPI_RESPONSE1 (w.masters master).buffer d.XST_INVALID_PARAM] ∧
    (PmSelfSuspend d e w master node latency state address).world = w := by
  unfold PmSelfSuspend
  simp only [hproc]
  rw [if_pos hlat]
  exact ⟨rfl, rfl⟩

/-- Part of C3 that holds: when the exact sum of the two latencies fits in 32
bits, a latency below it is rejected with `XST_INVALID_PARAM`, nothing is called
and nothing changes. -/
theorem PmSelfSuspend_latency_below_exact_sum (d : PmDefs) (e : PmExtern) (w : PmWorld)
    (master node latency state address proc : Nat)
    (hproc : e.PmGetProcOfThisMaster w master node = some proc)
    (hfit : (w.procs proc).pwrDnLatency + (w.procs proc).pwrUpLatency < 2 ^ 32)
    (hlat : latency < (w.procs proc).pwrDnLatency + (w.procs proc).pwrUpLatency) :
    (PmSelfSuspend d e w master node latency state address).trace
      = [PmEffect.IPI_RESPONSE1 (w.masters master).buffer d.XST_INVALID_PARAM] ∧
    (PmSelfSuspend d e w master node latency state address).world = w := by
  apply PmSelfSuspend_latency_below_sum32 d e w master node latency state address proc hproc
  rw [Nat.mod_eq_of_lt hfit]
  exact hlat

/-- C3, at the input where the code departs from it: processor 0 of master 0 has
power-down and power-up latency `0x80000000` each, so the exact sum is `2 ^ 32`
and the requested latency 5 is below it; the 32-bit sum is 0, the request is
accepted: the latency requirement becomes 5, `saveResumeAddr` and `PmProcFsm`
are invoked and the reply is `XST_SUCCESS`, not `XST_INVALID_PARAM`. -/
theorem PmSelfSuspend_latency_sum_wraps :
    5 < 0x80000000 + 0x80000000 ∧
    exExtern.PmGetProcOfThisMaster (exWorldLat 0x80000000 0x80000000) 0 10 = some 0 ∧
    (PmSelfSuspend exDefs exExtern (exWorldLat 0x80000000 0x80000000) 0 10 5 0 0x1000).trace
      = [PmEffect.saveResumeAddr 0 0x1000,
         PmEffect.PmProcFsm 0 exDefs.PM_PROC_EVENT_SELF_SUSPEND,
         PmEffect.IPI_RESPONSE1 500 exDefs.XST_SUCCESS] ∧
    ((exWorldLat 0x80000000 0x80000000).procs 0).latencyReq = 0 ∧
    ((PmSelfSuspend exDefs exExtern (exWorldLat 0x80000000 0x80000000) 0 10 5 0
        0x1000).world.procs 0).latencyReq = 5 := by
  refine ⟨by decide, by decide, by decide, by decide, by decide⟩

/-- Setting the in-use bits makes the in-use test succeed. -/
theorem using_mask_set (mask info : Nat) (hmask : mask ≠ 0) : mask &&& (info ||| mask) ≠ 0 := by
  have h : mask &&& (info ||| mask) = mask := by
    apply Nat.eq_of_testBit_eq
    intro i
    simp only [Nat.testBit_and, Nat.testBit_or]
    cases mask.testBit i <;> simp
  rw [h]
  exact hmask

/-- C4: let `masterReq` be the static Requirement of (master, slave), not in use.
After a first `PmRequestNode`, a second `PmRequestNode` by the same master for
the same slave, with any capabilities, qos and ack, is acknowledged with
`XST_PM_DOUBLE_REQ` (operating point 0) through its ack mode and changes
nothing: the state after the second call is the state after the first (info
flags, requested capabilities, the slave's effective capability), and the
second call does not invoke `PmRequirementUpdate`.  The Requirement is static
(`hstatic`) and `PmRequirementUpdate` does not write the info word
(`hinfo`). -/
theorem PmRequestNode_twice_double_req (d : PmDefs) (e : PmExtern) (w : PmWorld)
    (master node masterReq caps1 qos1 ack1 caps2 qos2 ack2 : Nat)
    (hmask : d.PM_MASTER_USING_SLAVE_MASK ≠ 0)
    (hstatic : ∀ w1, e.PmGetRequirementForSlave w1 master node = some masterReq)
    (hinfo : ∀ caps w1, ((e.PmRequirementUpdate masterReq caps w1).2.reqs masterReq).info
        = (w1.reqs masterReq).info)
    (hfree : d.PM_MASTER_USING_SLAVE_MASK &&& (w.reqs masterReq).info = 0) :
    (PmRequestNode d e (PmRequestNode d e w master node caps1 qos1 ack1).world
        master node caps2 qos2 ack2).trace
      = PmProcessAckRequest d (PmRequestNode d e w master node caps1 qos1 ack1).world
          ack2 master node d.XST_PM_DOUBLE_REQ 0 ∧
    (PmRequestNode d e (PmRequestNode d e w master node caps1 qos1 ack1).world
        master node caps2 qos2 ack2).world
      = (PmRequestNode d e w master node caps1 qos1 ack1).world ∧
    (∀ x ∈ (PmRequestNode d e (PmRequestNode d e w master node caps1 qos1 ack1).world
        master node caps2 qos2 ack2).trace, x.isRequirementUpdate = false) := by
  have hw1 : (PmRequestNode d e w master node caps1 qos1 ack1).world
      = (e.PmRequirementUpdate masterReq caps1 (w.setReqInfo masterReq
          ((w.reqs masterReq).info ||| d.PM_MASTER_USING_SLAVE_MASK))).2 := by
    simp [PmRequestNode, hstatic w, hfree]
  have hused : d.PM_MASTER_USING_SLAVE_MASK &&&
      (((PmRequestNode d e w master node caps1 qos1 ack1).world).reqs masterReq).info ≠ 0 := by
    rw [hw1, hinfo]
    simp only [PmWorld.setReqInfo, Function.update_same]
    exact using_mask_set _ _ hmask
  have h2 : PmRequestNode d e (PmRequestNode d e w master node caps1 qos1 ack1).world
      master node caps2 qos2 ack2
      = ⟨(PmRequestNode d e w master node caps1 qos1 ack1).world,
         PmProcessAckRequest d (PmRequestNode d e w master node caps1 qos1 ack1).world
          ack2 master node d.XST_PM_DOUBLE_REQ 0⟩ := by
    generalize (PmRequestNode d e w master node caps1 qos1 ack1).world = w1 at hused ⊢
    simp [PmRequestNode, hstatic w1, hused]
  rw [h2]
  refine ⟨rfl, rfl, ?_⟩
  intro x hx
  exact (PmEffect.isReply_not_call x (PmProcessAckRequest_isReply _ _ _ _ _ _ _ x hx)).2.1

/-- C4, evaluated: master 0 requests slave 0 (node id 40) twice, the second time
with a blocking ack. -/
theorem PmRequestNode_twice_double_req_witness :
    (PmRequestNode exDefs exExtern (PmRequestNode exDefs exExtern exWorld 0 40 7 0 2).world
        0 40 9 0 2).trace
      = PmProcessAckRequest exDefs (PmRequestNode exDefs exExtern exWorld 0 40 7 0 2).world
          2 0 40 exDefs.XST_PM_DOUBLE_REQ 0 :=
  (PmRequestNode_twice_double_req exDefs exExtern exWorld 0 40 0 7 0 2 9 0 2 (by decide)
    (fun _ => rfl) (fun _ _ => rfl) (by decide)).1

/-- C5: `PmSystemShutdown` replies `XST_PM_NO_ACCESS` when the master may not
trigger a system-level action; otherwise `XST_INVALID_PARAM` when the mode is
neither `PM_SHUTDOWN` nor `PM_RESTART`; otherwise `XST_PM_DOUBLE_REQ` when a
shutdown is already being processed; in these three cases the state is
unchanged and `PmSystemProcessShutdown` is not invoked.  In every remaining
case `PmSystemProcessShutdown` is invoked exactly once and its status is the
reply.  In all cases exactly one one-word response is sent. -/
theorem PmSystemShutdown_contract (d : PmDefs) (e : PmExtern) (w : PmWorld)
    (master restart : Nat) :
    (e.PmSystemRequestNotAllowed w master = true →
      (PmSystemShutdown d e w master restart).world = w ∧
      (PmSystemShutdown d e w master restart).trace
        = [PmEffect.IPI_RESPONSE1 (w.masters master).buffer d.XST_PM_NO_ACCESS]) ∧
    (e.PmSystemRequestNotAllowed w master = false →
      d.PM_SHUTDOWN ≠ restart ∧ d.PM_RESTART ≠ restart →
      (PmSystemShutdown d e w master restart).world = w ∧
      (PmSystemShutdown d e w master restart).trace
        = [PmEffect.IPI_RESPONSE1 (w.masters master).buffer d.XST_INVALID_PARAM]) ∧
    (e.PmSystemRequestNotAllowed w master = false →
      d.PM_SHUTDOWN = restart ∨ d.PM_RESTART = restart →
      e.PmSystemShutdownProcessing w = true →
      (PmSystemShutdown d e w master restart).world = w ∧
      (PmSystemShutdown d e w master restart).trace
        = [PmEffect.IPI_RESPONSE1 (w.masters master).buffer d.XST_PM_DOUBLE_REQ]) ∧
    (e.PmSystemRequestNotAllowed w master = false →
      d.PM_SHUTDOWN = restart ∨ d.PM_RESTART = restart →
      e.PmSystemShutdownProcessing w = false →
      (PmSystemShutdown d e w master restart).world
        = (e.PmSystemProcessShutdown master restart w).2 ∧
      (PmSystemShutdown d e w master restart).trace
        = [PmEffect.PmSystemProcessShutdown master restart,
           PmEffect.IPI_RESPONSE1
             ((e.PmSystemProcessShutdown master restart w).2.masters master).buffer
             (e.PmSystemProcessShutdown master restart w).1]) ∧
    ((PmSystemShutdown d e w master restart).trace.filter PmEffect.isReply).length = 1 ∧
    ((PmSystemShutdown d e w master restart).trace.filter
        PmEffect.isSystemProcessShutdown).length
      = (if e.PmSystemRequestNotAllowed w master = false ∧
            (d.PM_SHUTDOWN = restart ∨ d.PM_RESTART = restart) ∧
            e.PmSystemShutdownProcessing w = false then 1 else 0) := by
  unfold PmSystemShutdown
  cases hna : e.PmSystemRequestNotAllowed w master <;>
    cases hsp : e.PmSystemShutdownProcessing w <;>
    by_cases h1 : d.PM_SHUTDOWN = restart <;>
    by_cases h2 : d.PM_RESTART = restart <;>
    simp [h1, h2, PmEffect.isReply, PmEffect.isSystemProcessShutdown]

/-- C5, evaluated: a second `PmSystemShutdown` by master 0 right after a first
one is answered `XST_PM_DOUBLE_REQ`. -/
theorem PmSystemShutdown_contract_witness :
    (PmSystemShutdown exDefs exExtern (PmSystemShutdown exDefs exExtern exWorld 0 1).world
        0 1).trace
      = [PmEffect.IPI_RESPONSE1 500 exDefs.XST_PM_DOUBLE_REQ] :=
  ((PmSystemShutdown_contract exDefs exExtern
    (PmSystemShutdown exDefs exExtern exWorld 0 1).world 0 1).2.2.1
      (by decide) (Or.inr (by decide)) (by decide)).2

/-- C6 as stated fails for a blocking ack: while a shutdown is in progress, a
`PmRequestSuspend` with `ack = REQUEST_ACK_BLOCKING` is answered
`XST_INVALID_PARAM`, not `XST_PM_CONFLICT`. -/
theorem PmRequestSuspend_shutdown_blocking_not_conflict :
    exExtern.PmSystemShutdownProcessing exWorldShutdown = true ∧
    (PmRequestSuspend exDefs exExtern exWorldShutdown 0 21 exDefs.REQUEST_ACK_BLOCKING 0
        0).trace = [PmEffect.IPI_RESPONSE1 500 exDefs.XST_INVALID_PARAM] ∧
    ¬ ((PmRequestSuspend exDefs exExtern exWorldShutdown 0 21 exDefs.REQUEST_ACK_BLOCKING 0
        0).trace
      = PmProcessAckRequest exDefs exWorldShutdown exDefs.REQUEST_ACK_BLOCKING 0 21
          exDefs.XST_PM_CONFLICT 0) := by
  refine ⟨by decide, by decide, by decide⟩

/-- C6, amended: while a system shutdown or restart is in progress, every
`PmRequestSuspend` whose ack is not `REQUEST_ACK_BLOCKING`, for every node,
latency and state, is rejected with `XST_PM_CONFLICT`, acknowledged through the
requested ack mode with operating point 0, and records no suspend request: the
state is unchanged and `PmInitSuspendCb` is not invoked. -/
theorem PmRequestSuspend_shutdown_conflict (d : PmDefs) (e : PmExtern) (w : PmWorld)
    (master node ack latency state : Nat)
    (hack : d.REQUEST_ACK_BLOCKING ≠ ack)
    (hsd : e.PmSystemShutdownProcessing w = true)
    (hne : d.XST_SUCCESS ≠ d.XST_PM_CONFLICT) :
    (PmRequestSuspend d e w master node ack latency state).trace
      = PmProcessAckRequest d w ack master node d.XST_PM_CONFLICT 0 ∧
    (PmRequestSuspend d e w master node ack latency state).trace
      = (if d.REQUEST_ACK_NON_BLOCKING = ack
          then [PmEffect.PmAcknowledgeCb master node d.XST_PM_CONFLICT 0] else []) ∧
    (PmRequestSuspend d e w master node ack latency state).world = w ∧
    (∀ m, ((PmRequestSuspend d e w master node ack latency state).world.masters
        m).suspendRequest = (w.masters m).suspendRequest) ∧
    (∀ x ∈ (PmRequestSuspend d e w master node ack latency state).trace,
        x.isInitSuspendCb = false) := by
  have h : PmRequestSuspend d e w master node ack latency state
      = ⟨w, PmProcessAckRequest d w ack master node d.XST_PM_CONFLICT 0⟩ := by
    simp [PmRequestSuspend, PmRequestSuspend_done, hack, hsd, hne]
  rw [h]
  refine ⟨rfl, ?_, rfl, fun _ => rfl, ?_⟩
  · simp [PmProcessAckRequest, hack]
  · intro x hx
    exact (PmEffect.isReply_not_call x (PmProcessAckRequest_isReply _ _ _ _ _ _ _ x hx)).1

/-- C6 amended, evaluated: a non-blocking request during a shutdown. -/
theorem PmRequestSuspend_shutdown_conflict_witness :
    (PmRequestSuspend exDefs exExtern exWorldShutdown 0 21 exDefs.REQUEST_ACK_NON_BLOCKING 0
        0).trace
      = [PmEffect.PmAcknowledgeCb 0 21 exDefs.XST_PM_CONFLICT 0] :=
  (PmRequestSuspend_shutdown_conflict exDefs exExtern exWorldShutdown 0 21
    exDefs.REQUEST_ACK_NON_BLOCKING 0 0 (by decide) (by decide) (by decide)).2.1

/-- C7: while a system shutdown or restart is in progress, every
`PmRequestWakeup`, for every node (processor or not), setAddress flag, address
and ack, is acknowledged with `XST_PM_CONFLICT` and operating point 0 through
the requested ack mode, and nothing is touched: the state is unchanged, the
resume address is not saved and no event is given to the processor FSM. -/
theorem PmRequestWakeup_shutdown_conflict (d : PmDefs) (e : PmExtern) (w : PmWorld)
    (master node setAddress address ack : Nat)
    (hsd : e.PmSystemShutdownProcessing w = true) :
    (PmRequestWakeup d e w master node setAddress address ack).trace
      = PmProcessAckRequest d w ack master node d.XST_PM_CONFLICT 0 ∧
    (PmRequestWakeup d e w master node setAddress address ack).world = w ∧
    (∀ x ∈ (PmRequestWakeup d e w master node setAddress address ack).trace,
        x.isProcCall = false) := by
  have h : PmRequestWakeup d e w master node setAddress address ack
      = ⟨w, PmProcessAckRequest d w ack master node d.XST_PM_CONFLICT 0⟩ := by
    simp [PmRequestWakeup, hsd]
  rw [h]
  refine ⟨rfl, rfl, ?_⟩
  intro x hx
  exact (PmEffect.isReply_not_call x (PmProcessAckRequest_isReply _ _ _ _ _ _ _ x hx)).2.2.2.2

/-- C7, evaluated: a blocking wake-up of processor node 11 with an address
during a shutdown. -/
theorem PmRequestWakeup_shutdown_conflict_witness :
    (PmRequestWakeup exDefs exExtern exWorldShutdown 0 11 1 0x2000 2).trace
      = PmProcessAckRequest exDefs exWorldShutdown 2 0 11 exDefs.XST_PM_CONFLICT 0 :=
  (PmRequestWakeup_shutdown_conflict exDefs exExtern exWorldShutdown 0 11 1 0x2000 2
    (by decide)).1

/-- C8 as stated fails: master 0 has a Requirement on slave 0 that is not in
use; `PmReleaseNode` does not invoke `PmRequirementUpdate` and replies
`XST_FAILURE`, although the update would have returned `XST_SUCCESS`. -/
theorem PmReleaseNode_not_in_use_no_update :
    exExtern.PmGetRequirementForSlave exWorld 0 40 = some 0 ∧
    (exWorld.reqs 0).info &&& exDefs.PM_MASTER_USING_SLAVE_MASK = 0 ∧
    (exExtern.PmRequirementUpdate 0 0 exWorld).1 = exDefs.XST_SUCCESS ∧
    (PmReleaseNode exDefs exExtern exWorld 0 40).trace
      = [PmEffect.IPI_RESPONSE1 500 exDefs.XST_FAILURE] ∧
    ¬ (PmEffect.PmRequirementUpdate 0 0 ∈ (PmReleaseNode exDefs exExtern exWorld 0 40).trace ∧
       PmEffect.IPI_RESPONSE1 500 (exExtern.PmRequirementUpdate 0 0 exWorld).1
         ∈ (PmReleaseNode exDefs exExtern exWorld 0 40).trace) := by
  refine ⟨by decide, by decide, by decide, by decide, by decide⟩

/-- C8, amended: for every master and slave that have a static Requirement which
is not marked in-use by that master, `PmReleaseNode` does not attempt the
requirement update: the reply is the one-word response `XST_FAILURE` and the
state is unchanged. -/
theorem PmReleaseNode_not_in_use (d : PmDefs) (e : PmExtern) (w : PmWorld)
    (master node masterReq : Nat)
    (hreq : e.PmGetRequirementForSlave w master node = some masterReq)
    (hfree : (w.reqs masterReq).info &&& d.PM_MASTER_USING_SLAVE_MASK = 0) :
    (PmReleaseNode d e w master node).trace
      = [PmEffect.IPI_RESPONSE1 (w.masters master).buffer d.XST_FAILURE] ∧
    (PmReleaseNode d e w master node).world = w ∧
    (∀ x ∈ (PmReleaseNode d e w master node).trace, x.isRequirementUpdate = false) := by
  simp [PmReleaseNode, hreq, hfree, PmEffect.isRequirementUpdate]

/-- C8 amended, evaluated on the never-requested slave of master 0. -/
theorem PmReleaseNode_not_in_use_witness :
    (PmReleaseNode exDefs exExtern exWorld 0 40).world = exWorld :=
  (PmReleaseNode_not_in_use exDefs exExtern exWorld 0 40 0 (by decide) (by decide)).2.1

/-- Bits of the 32-bit complement. -/
theorem not32_testBit (x i : Nat) : (not32 x).testBit i = (decide (i < 32) && !x.testBit i) := by
  have h : (0xFFFFFFFF : Nat) = 2 ^ 32 - 1 := by norm_num
  unfold not32
  rw [h, Nat.testBit_xor, Nat.testBit_two_pow_sub_one, Nat.testBit_mod_two_pow]
  by_cases hi : i < 32 <;> simp [hi]

/-- Bits of a 32-bit word after `word &= ~mask`. -/
theorem and_not32_testBit (word mask i : Nat) :
    (word &&& not32 mask).testBit i
      = (decide (i < 32) && word.testBit i && !mask.testBit i) := by
  rw [Nat.testBit_and, not32_testBit]
  cases word.testBit i <;> cases mask.testBit i <;> simp

/-- After `word &= ~mask` no bit of `mask` is set. -/
theorem and_not32_and_mask (word mask : Nat) : (word &&& not32 mask) &&& mask = 0 := by
  apply Nat.eq_of_testBit_eq
  intro i
  rw [Nat.testBit_and, and_not32_testBit]
  cases mask.testBit i <;> simp

/-- C9: for a Requirement marked in-use by the calling master, `PmReleaseNode`
invokes `PmRequirementUpdate(masterReq, 0)` exactly once, clears the in-use flag
of the info word and leaves every other bit of the 32-bit word as it was (as
the update left it, which is the word before the call when the update does not
write it), replies with the update's status in one one-word response, and
fires `EVENT_ZERO_USERS` for the slave's node exactly when the slave's users
mask, read after the flag was cleared, is zero, whatever the update's status. -/
theorem PmReleaseNode_in_use (d : PmDefs) (e : PmExtern) (w : PmWorld)
    (master node masterReq : Nat)
    (hreq : e.PmGetRequirementForSlave w master node = some masterReq)
    (hused : (w.reqs masterReq).info &&& d.PM_MASTER_USING_SLAVE_MASK ≠ 0) :
    ((PmReleaseNode d e w master node).world.reqs masterReq).info
        &&& d.PM_MASTER_USING_SLAVE_MASK = 0 ∧
    (∀ i, (((PmReleaseNode d e w master node).world.reqs masterReq).info).testBit i
        = (decide (i < 32) &&
            (((e.PmRequirementUpdate masterReq 0 w).2.reqs masterReq).info).testBit i &&
            !(d.PM_MASTER_USING_SLAVE_MASK).testBit i)) ∧
    (((e.PmRequirementUpdate masterReq 0 w).2.reqs masterReq).info = (w.reqs masterReq).info →
      ∀ i, i < 32 → (d.PM_MASTER_USING_SLAVE_MASK).testBit i = false →
        (((PmReleaseNode d e w master node).world.reqs masterReq).info).testBit i
          = ((w.reqs masterReq).info).testBit i) ∧
    (PmReleaseNode d e w master node).world
      = (e.PmRequirementUpdate masterReq 0 w).2.setReqInfo masterReq
          (((e.PmRequirementUpdate masterReq 0 w).2.reqs masterReq).info
            &&& not32 d.PM_MASTER_USING_SLAVE_MASK) ∧
    (PmReleaseNode d e w master node).trace
      = [PmEffect.PmRequirementUpdate masterReq 0]
        ++ (if e.PmSlaveGetUsersMask (PmReleaseNode d e w master node).world
                ((PmReleaseNode d e w master node).world.reqs masterReq).slave = 0
            then [PmEffect.PmNotifierEvent
                ((PmReleaseNode d e w master node).world.slaves
                  ((PmReleaseNode d e w master node).world.reqs masterReq).slave).node
                d.EVENT_ZERO_USERS]
            else [])
        ++ [PmEffect.IPI_RESPONSE1 ((PmReleaseNode d e w master node).world.masters master).buffer
              (e.PmRequirementUpdate masterReq 0 w).1] ∧
    ((PmReleaseNode d e w master node).trace.filter PmEffect.isRequirementUpdate).length = 1 ∧
    ((PmReleaseNode d e w master node).trace.filter PmEffect.isReply).length = 1 := by
  have hused2 : ¬ (0 = (w.reqs masterReq).info &&& d.PM_MASTER_USING_SLAVE_MASK) :=
    fun h => hused h.symm
  have hw : (PmReleaseNode d e w master node).world
      = (e.PmRequirementUpdate masterReq 0 w).2.setReqInfo masterReq
          (((e.PmRequirementUpdate masterReq 0 w).2.reqs masterReq).info
            &&& not32 d.PM_MASTER_USING_SLAVE_MASK) := by
    simp [PmReleaseNode, hreq, hused2]
  have hinfo : ((PmReleaseNode d e w master node).world.reqs masterReq).info
      = ((e.PmRequirementUpdate masterReq 0 w).2.reqs masterReq).info
          &&& not32 d.PM_MASTER_USING_SLAVE_MASK := by
    rw [hw]
    simp [PmWorld.setReqInfo]
  refine ⟨?_, ?_, ?_, hw, ?_, ?_, ?_⟩
  · rw [hinfo]; exact and_not32_and_mask _ _
  · intro i; rw [hinfo]; exact and_not32_testBit _ _ i
  · intro hsame i hi hm
    rw [hinfo, and_not32_testBit, hsame, hm]
    simp [hi]
  · rw [hw]
    simp only [PmReleaseNode, hreq, if_neg hused2]
    by_cases hu : e.PmSlaveGetUsersMask
        ((e.PmRequirementUpdate masterReq 0 w).2.setReqInfo masterReq
          (((e.PmRequirementUpdate masterReq 0 w).2.reqs masterReq).info
            &&& not32 d.PM_MASTER_USING_SLAVE_MASK))
        (((e.PmRequirementUpdate masterReq 0 w).2.setReqInfo masterReq
          (((e.PmRequirementUpdate masterReq 0 w).2.reqs masterReq).info
            &&& not32 d.PM_MASTER_USING_SLAVE_MASK)).reqs masterReq).slave = 0
    · simp [hu]
    · have hu2 : ¬ (0 = e.PmSlaveGetUsersMask
        ((e.PmRequirementUpdate masterReq 0 w).2.setReqInfo masterReq
          (((e.PmRequirementUpdate masterReq 0 w).2.reqs masterReq).info
            &&& not32 d.PM_MASTER_USING_SLAVE_MASK))
        (((e.PmRequirementUpdate masterReq 0 w).2.setReqInfo masterReq
          (((e.PmRequirementUpdate masterReq 0 w).2.reqs masterReq).info
            &&& not32 d.PM_MASTER_USING_SLAVE_MASK)).reqs masterReq).slave) :=
        fun h => hu h.symm
      simp only [if_neg hu, if_neg hu2]
  · simp only [PmReleaseNode, hreq, if_neg hused2]
    split_ifs <;> simp [PmEffect.isRequirementUpdate]
  · simp only [PmReleaseNode, hreq, if_neg hused2]
    split_ifs <;> simp [PmEffect.isReply]

/-- C9, evaluated: master 0 releases slave 0, which it alone uses; the flag is
cleared and the zero-users event is fired. -/
theorem PmReleaseNode_in_use_witness :
    ((PmReleaseNode exDefs exExtern (exWorldInUse 1) 0 40).world.reqs 0).info
        &&& exDefs.PM_MASTER_USING_SLAVE_MASK = 0 :=
  (PmReleaseNode_in_use exDefs exExtern (exWorldInUse 1) 0 40 0 (by decide) (by decide)).1

/-- C10: let `masterReq` be the Requirement of (master, slave).  If it is not
in-use, the status is `XST_PM_NO_ACCESS` and nothing is invoked.  If it is
in-use, `PmSetRequirement` decides by the state of `procs[0]` of the master: in
`PM_PROC_STATE_SUSPENDING` it invokes `PmRequirementSchedule` with the
capabilities and not `PmRequirementUpdate`; in `PM_PROC_STATE_ACTIVE` it invokes
`PmRequirementUpdate` and not `PmRequirementSchedule`; in every other state it
invokes neither and the status is `XST_FAILURE`.  In each case the status is
acknowledged through the requested ack mode (with the slave's state as
operating point once the Requirement is in use). -/
theorem PmSetRequirement_contract (d : PmDefs) (e : PmExtern) (w : PmWorld)
    (master node capabilities qos ack masterReq : Nat)
    (hreq : e.PmGetRequirementForSlave w master node = some masterReq) :
    (d.PM_MASTER_USING_SLAVE_MASK &&& (w.reqs masterReq).info = 0 →
      (PmSetRequirement d e w master node capabilities qos ack).world = w ∧
      (PmSetRequirement d e w master node capabilities qos ack).trace
        = PmProcessAckRequest d w ack master node d.XST_PM_NO_ACCESS 0) ∧
    (d.PM_MASTER_USING_SLAVE_MASK &&& (w.reqs masterReq).info ≠ 0 →
      (w.nodes (w.procs (w.masters master).procs).node).currState
        = d.PM_PROC_STATE_SUSPENDING →
      (PmSetRequirement d e w master node capabilities qos ack).world
        = (e.PmRequirementSchedule masterReq capabilities w).2 ∧
      (PmSetRequirement d e w master node capabilities qos ack).trace
        = PmEffect.PmRequirementSchedule masterReq capabilities ::
          PmProcessAckRequest d (e.PmRequirementSchedule masterReq capabilities w).2 ack
            master node (e.PmRequirementSchedule masterReq capabilities w).1
            (((e.PmRequirementSchedule masterReq capabilities w).2.nodes
              ((e.PmRequirementSchedule masterReq capabilities w).2.slaves
                (((e.PmRequirementSchedule masterReq capabilities w).2.reqs
                  masterReq).slave)).node).currState) ∧
      (∀ x ∈ (PmSetRequirement d e w master node capabilities qos ack).trace,
        x.isRequirementUpdate = false)) ∧
    (d.PM_MASTER_USING_SLAVE_MASK &&& (w.reqs masterReq).info ≠ 0 →
      (w.nodes (w.procs (w.masters master).procs).node).currState
        ≠ d.PM_PROC_STATE_SUSPENDING →
      (w.nodes (w.procs (w.masters master).procs).node).currState = d.PM_PROC_STATE_ACTIVE →
      (PmSetRequirement d e w master node capabilities qos ack).world
        = (e.PmRequirementUpdate masterReq capabilities w).2 ∧
      (PmSetRequirement d e w master node capabilities qos ack).trace
        = PmEffect.PmRequirementUpdate masterReq capabilities ::
          PmProcessAckRequest d (e.PmRequirementUpdate masterReq capabilities w).2 ack
            master node (e.PmRequirementUpdate masterReq capabilities w).1
            (((e.PmRequirementUpdate masterReq capabilities w).2.nodes
              ((e.PmRequirementUpdate masterReq capabilities w).2.slaves
                (((e.PmRequirementUpdate masterReq capabilities w).2.reqs
                  masterReq).slave)).node).currState) ∧
      (∀ x ∈ (PmSetRequirement d e w master node capabilities qos ack).trace,
        x.isRequirementSchedule = false)) ∧
    (d.PM_MASTER_USING_SLAVE_MASK &&& (w.reqs masterReq).info ≠ 0 →
      (w.nodes (w.procs (w.masters master).procs).node).currState
        ≠ d.PM_PROC_STATE_SUSPENDING →
      (w.nodes (w.procs (w.masters master).procs).node).currState ≠ d.PM_PROC_STATE_ACTIVE →
      (PmSetRequirement d e w master node capabilities qos ack).world = w ∧
      (PmSetRequirement d e w master node capabilities qos ack).trace
        = PmProcessAckRequest d w ack master node d.XST_FAILURE
            ((w.nodes (w.slaves ((w.reqs masterReq).slave)).node).currState) ∧
      (∀ x ∈ (PmSetRequirement d e w master node capabilities qos ack).trace,
        x.isRequirementUpdate = false ∧ x.isRequirementSchedule = false)) := by
  refine ⟨?_, ?_, ?_, ?_⟩
  · intro hfree
    simp [PmSetRequirement, hreq, hfree]
  · intro hused hst
    have hused2 : ¬ (0 = d.PM_MASTER_USING_SLAVE_MASK &&& (w.reqs masterReq).info) :=
      fun h => hused h.symm
    have h : PmSetRequirement d e w master node capabilities qos ack
        = ⟨(e.PmRequirementSchedule masterReq capabilities w).2,
           PmEffect.PmRequirementSchedule masterReq capabilities ::
            PmProcessAckRequest d (e.PmRequirementSchedule masterReq capabilities w).2 ack
              master node (e.PmRequirementSchedule masterReq capabilities w).1
              (((e.PmRequirementSchedule masterReq capabilities w).2.nodes
                ((e.PmRequirementSchedule masterReq capabilities w).2.slaves
                  (((e.PmRequirementSchedule masterReq capabilities w).2.reqs
                    masterReq).slave)).node).currState)⟩ := by
      simp [PmSetRequirement, PmSetRequirement_switch, hreq, hused2, hst]
    rw [h]
    refine ⟨rfl, rfl, ?_⟩
    intro x hx
    rcases List.mem_cons.mp hx with hx | hx
    · subst hx; rfl
    · exact (PmEffect.isReply_not_call x (PmProcessAckRequest_isReply _ _ _ _ _ _ _ x hx)).2.1
  · intro hused hns hst
    have hused2 : ¬ (0 = d.PM_MASTER_USING_SLAVE_MASK &&& (w.reqs masterReq).info) :=
      fun h => hused h.symm
    have h : PmSetRequirement d e w master node capabilities qos ack
        = ⟨(e.PmRequirementUpdate masterReq capabilities w).2,
           PmEffect.PmRequirementUpdate masterReq capabilities ::
            PmProcessAckRequest d (e.PmRequirementUpdate masterReq capabilities w).2 ack
              master node (e.PmRequirementUpdate masterReq capabilities w).1
              (((e.PmRequirementUpdate masterReq capabilities w).2.nodes
                ((e.PmRequirementUpdate masterReq capabilities w).2.slaves
                  (((e.PmRequirementUpdate masterReq capabilities w).2.reqs
                    masterReq).slave)).node).currState)⟩ := by
      simp only [PmSetRequirement, PmSetRequirement_switch, hreq, if_neg hused2, if_neg hns,
        if_pos hst]
      rfl
    rw [h]
    refine ⟨rfl, rfl, ?_⟩
    intro x hx
    rcases List.mem_cons.mp hx with hx | hx
    · subst hx; rfl
    · exact (PmEffect.isReply_not_call x (PmProcessAckRequest_isReply _ _ _ _ _ _ _ x hx)).2.2.1
  · intro hused hns hna
    have hused2 : ¬ (0 = d.PM_MASTER_USING_SLAVE_MASK &&& (w.reqs masterReq).info) :=
      fun h => hused h.symm
    have h : PmSetRequirement d e w master node capabilities qos ack
        = ⟨w, PmProcessAckRequest d w ack master node d.XST_FAILURE
            ((w.nodes (w.slaves ((w.reqs masterReq).slave)).node).currState)⟩ := by
      simp only [PmSetRequirement, PmSetRequirement_switch, hreq, if_neg hused2, if_neg hns,
        if_neg hna]
      rfl
    rw [h]
    refine ⟨rfl, rfl, ?_⟩
    intro x hx
    have hr := PmEffect.isReply_not_call x (PmProcessAckRequest_isReply _ _ _ _ _ _ _ x hx)
    exact ⟨hr.2.1, hr.2.2.1⟩

/-- C10, evaluated: the processor of master 0 is suspending (state 2), so a
non-blocking `PmSetRequirement` on its in-use slave is scheduled, not applied. -/
theorem PmSetRequirement_contract_witness :
    (PmSetRequirement exDefs exExtern (exWorldInUse 2) 0 40 5 0 3).trace
      = [PmEffect.PmRequirementSchedule 0 5, PmEffect.PmAcknowledgeCb 0 40 0 1] :=
  ((PmSetRequirement_contract exDefs exExtern (exWorldInUse 2) 0 40 5 0 3 0 (by decide)).2.1
    (by decide) (by decide)).2.1

/-- A reply is none of the recorded requirement, slave, notifier or power
calls. -/
theorem PmEffect.isReply_not_action (x : PmEffect) (h : x.isReply = true) :
    x.isRequirementAction = false ∧ x.isUpdateSlave = false ∧ x.isNotifierEvent = false ∧
    x.isOpportunisticSuspend = false ∧ x.isForceDown = false := by
  cases x <;> simp_all [PmEffect.isReply, PmEffect.isRequirementAction,
    PmEffect.isUpdateSlave, PmEffect.isNotifierEvent, PmEffect.isOpportunisticSuspend,
    PmEffect.isForceDown]

/-- C11: let `masterReq` be the Requirement of (master, slave).  When it is not
marked in-use, `PmSetMaxLatency` replies `XST_PM_NO_ACCESS`, the state (so the
stored latency requirement) is unchanged and `PmUpdateSlave` is not invoked.
When it is in-use, `latencyReq` of the Requirement is set to exactly the given
latency, `PmUpdateSlave` is then invoked exactly once, on the Requirement's
slave and on the state holding the new latency, and the reply is its status;
the latency is still the stored value after the call whenever
`PmUpdateSlave` does not write it. -/
theorem PmSetMaxLatency_contract (d : PmDefs) (e : PmExtern) (w : PmWorld)
    (master node latency masterReq : Nat)
    (hreq : e.PmGetRequirementForSlave w master node = some masterReq) :
    (d.PM_MASTER_USING_SLAVE_MASK &&& (w.reqs masterReq).info = 0 →
      (PmSetMaxLatency d e w master node latency).world = w ∧
      (PmSetMaxLatency d e w master node latency).trace
        = [PmEffect.IPI_RESPONSE1 (w.masters master).buffer d.XST_PM_NO_ACCESS] ∧
      (∀ x ∈ (PmSetMaxLatency d e w master node latency).trace, x.isUpdateSlave = false)) ∧
    (d.PM_MASTER_USING_SLAVE_MASK &&& (w.reqs masterReq).info ≠ 0 →
      ((w.setReqLatencyReq masterReq latency).reqs masterReq).latencyReq = latency ∧
      (PmSetMaxLatency d e w master node latency).world
        = (e.PmUpdateSlave (w.reqs masterReq).slave (w.setReqLatencyReq masterReq latency)).2 ∧
      (PmSetMaxLatency d e w master node latency).trace
        = [PmEffect.PmUpdateSlave (w.reqs masterReq).slave,
           PmEffect.IPI_RESPONSE1
             ((PmSetMaxLatency d e w master node latency).world.masters master).buffer
             (e.PmUpdateSlave (w.reqs masterReq).slave
               (w.setReqLatencyReq masterReq latency)).1] ∧
      ((PmSetMaxLatency d e w master node latency).trace.filter
          PmEffect.isUpdateSlave).length = 1 ∧
      ((∀ s w1, ((e.PmUpdateSlave s w1).2.reqs masterReq).latencyReq
            = (w1.reqs masterReq).latencyReq) →
        ((PmSetMaxLatency d e w master node latency).world.reqs masterReq).latencyReq
          = latency)) := by
  constructor
  · intro hfree
    simp [PmSetMaxLatency, hreq, hfree, PmEffect.isUpdateSlave]
  · intro hused
    have hused2 : ¬ (0 = d.PM_MASTER_USING_SLAVE_MASK &&& (w.reqs masterReq).info) :=
      fun h => hused h.symm
    have hslave : ((w.setReqLatencyReq masterReq latency).reqs masterReq).slave
        = (w.reqs masterReq).slave := by
      simp [PmWorld.setReqLatencyReq]
    have hlat : ((w.setReqLatencyReq masterReq latency).reqs masterReq).latencyReq
        = latency := by
      simp [PmWorld.setReqLatencyReq]
    have h : PmSetMaxLatency d e w master node latency
        = ⟨(e.PmUpdateSlave (w.reqs masterReq).slave (w.setReqLatencyReq masterReq latency)).2,
           [PmEffect.PmUpdateSlave (w.reqs masterReq).slave,
            PmEffect.IPI_RESPONSE1
              ((e.PmUpdateSlave (w.reqs masterReq).slave
                (w.setReqLatencyReq masterReq latency)).2.masters master).buffer
              (e.PmUpdateSlave (w.reqs masterReq).slave
                (w.setReqLatencyReq masterReq latency)).1]⟩ := by
      simp only [PmSetMaxLatency, hreq, if_neg hused2, hslave]
    rw [h]
    refine ⟨hlat, rfl, rfl, ?_, ?_⟩
    · simp [PmEffect.isUpdateSlave]
    · intro hframe
      rw [hframe, hlat]

/-- C11, evaluated: master 0 sets the latency 77 for its in-use slave 0. -/
theorem PmSetMaxLatency_contract_witness :
    (PmSetMaxLatency exDefs exExtern (exWorldInUse 1) 0 40 77).trace
      = [PmEffect.PmUpdateSlave 0, PmEffect.IPI_RESPONSE1 500 exDefs.XST_SUCCESS] :=
  ((PmSetMaxLatency_contract exDefs exExtern (exWorldInUse 1) 0 40 77 0 (by decide)).2
    (by decide)).2.2.1

/-- C12: when `PmGetRequirementForSlave` finds no Requirement for the (master,
slave) pair, each of `PmRequestNode`, `PmReleaseNode`, `PmSetRequirement` and
`PmSetMaxLatency` has status `XST_PM_NO_ACCESS` (acknowledged through the ack
argument with operating point 0, resp. sent as the one-word response) and
changes nothing: the state is unchanged, no requirement update or schedule and
no slave update is invoked and no notifier event is fired. -/
theorem no_requirement_no_access (d : PmDefs) (e : PmExtern) (w : PmWorld)
    (master node capabilities qos ack latency : Nat)
    (hreq : e.PmGetRequirementForSlave w master node = none) :
    ((PmRequestNode d e w master node capabilities qos ack).world = w ∧
      (PmRequestNode d e w master node capabilities qos ack).trace
        = PmProcessAckRequest d w ack master node d.XST_PM_NO_ACCESS 0 ∧
      (∀ x ∈ (PmRequestNode d e w master node capabilities qos ack).trace,
        x.isRequirementAction = false)) ∧
    ((PmReleaseNode d e w master node).world = w ∧
      (PmReleaseNode d e w master node).trace
        = [PmEffect.IPI_RESPONSE1 (w.masters master).buffer d.XST_PM_NO_ACCESS] ∧
      (∀ x ∈ (PmReleaseNode d e w master node).trace, x.isRequirementAction = false)) ∧
    ((PmSetRequirement d e w master node capabilities qos ack).world = w ∧
      (PmSetRequirement d e w master node capabilities qos ack).trace
        = PmProcessAckRequest d w ack master node d.XST_PM_NO_ACCESS 0 ∧
      (∀ x ∈ (PmSetRequirement d e w master node capabilities qos ack).trace,
        x.isRequirementAction = false)) ∧
    ((PmSetMaxLatency d e w master node latency).world = w ∧
      (PmSetMaxLatency d e w master node latency).trace
        = [PmEffect.IPI_RESPONSE1 (w.masters master).buffer d.XST_PM_NO_ACCESS] ∧
      (∀ x ∈ (PmSetMaxLatency d e w master node latency).trace,
        x.isRequirementAction = false)) := by
  have hack : ∀ x ∈ PmProcessAckRequest d w ack master node d.XST_PM_NO_ACCESS 0,
      x.isRequirementAction = false := fun x hx =>
    (PmEffect.isReply_not_action x (PmProcessAckRequest_isReply _ _ _ _ _ _ _ x hx)).1
  have h1 : PmRequestNode d e w master node capabilities qos ack
      = ⟨w, PmProcessAckRequest d w ack master node d.XST_PM_NO_ACCESS 0⟩ := by
    simp [PmRequestNode, hreq]
  have h3 : PmSetRequirement d e w master node capabilities qos ack
      = ⟨w, PmProcessAckRequest d w ack master node d.XST_PM_NO_ACCESS 0⟩ := by
    simp [PmSetRequirement, hreq]
  rw [h1, h3]
  refine ⟨⟨rfl, rfl, hack⟩, ?_, ⟨rfl, rfl, hack⟩, ?_⟩
  · simp [PmReleaseNode, hreq, PmEffect.isRequirementAction]
  · simp [PmSetMaxLatency, hreq, PmEffect.isRequirementAction]

/-- C12, evaluated: master 0 has no Requirement on node 41. -/
theorem no_requirement_no_access_witness :
    (PmReleaseNode exDefs exExtern exWorld 0 41).trace
      = [PmEffect.IPI_RESPONSE1 (exWorld.masters 0).buffer exDefs.XST_PM_NO_ACCESS] :=
  (no_requirement_no_access exDefs exExtern exWorld 0 41 1 0 2 5 (by decide)).2.1.2.1

/-- Part of C13 that holds: a `PmRequestNode` rejected by its own checks (no
Requirement, or already in use) leaves the state unchanged. -/
theorem PmRequestNode_rejected_unchanged (d : PmDefs) (e : PmExtern) (w : PmWorld)
    (master node capabilities qos ack : Nat)
    (hrej : e.PmGetRequirementForSlave w master node = none ∨
      ∃ masterReq, e.PmGetRequirementForSlave w master node = some masterReq ∧
        d.PM_MASTER_USING_SLAVE_MASK &&& (w.reqs masterReq).info ≠ 0) :
    (PmRequestNode d e w master node capabilities qos ack).world = w := by
  rcases hrej with h | ⟨masterReq, h, hused⟩
  · simp [PmRequestNode, h]
  · simp [PmRequestNode, h, hused]

/-- The state `PmRequestNode` ends in when the Requirement exists and is not in
use: the in-use bits are set before `PmRequirementUpdate` runs and are not
reset afterwards, whatever status the update returns. -/
theorem PmRequestNode_sets_in_use_first (d : PmDefs) (e : PmExtern) (w : PmWorld)
    (master node capabilities qos ack masterReq : Nat)
    (hreq : e.PmGetRequirementForSlave w master node = some masterReq)
    (hfree : d.PM_MASTER_USING_SLAVE_MASK &&& (w.reqs masterReq).info = 0) :
    (PmRequestNode d e w master node capabilities qos ack).world
      = (e.PmRequirementUpdate masterReq capabilities (w.setReqInfo masterReq
          ((w.reqs masterReq).info ||| d.PM_MASTER_USING_SLAVE_MASK))).2 ∧
    (PmRequestNode d e w master node capabilities qos ack).trace
      = PmEffect.PmRequirementUpdate masterReq capabilities ::
        PmProcessAckRequest d (PmRequestNode d e w master node capabilities qos ack).world
          ack master node
          (e.PmRequirementUpdate masterReq capabilities (w.setReqInfo masterReq
            ((w.reqs masterReq).info ||| d.PM_MASTER_USING_SLAVE_MASK))).1 0 := by
  simp [PmRequestNode, hreq, hfree]

/-- C13, at the input where the code departs from it: master 0 requests slave 0
(node id 40), not in use before, with capabilities 8 that the update rejects
with `XST_NO_FEATURE`.  The acknowledged status is not `XST_SUCCESS`, yet the
in-use flag of the Requirement, clear before the call, is set after it. -/
theorem PmRequestNode_failed_update_keeps_in_use :
    exExternFsm.PmGetRequirementForSlave exWorld 0 40 = some 0 ∧
    exDefs.PM_MASTER_USING_SLAVE_MASK &&& (exWorld.reqs 0).info = 0 ∧
    (PmRequestNode exDefs exExternFsm exWorld 0 40 8 0 exDefs.REQUEST_ACK_BLOCKING).trace
      = [PmEffect.PmRequirementUpdate 0 8,
         PmEffect.IPI_RESPONSE1 500 exDefs.XST_NO_FEATURE] ∧
    exDefs.XST_NO_FEATURE ≠ exDefs.XST_SUCCESS ∧
    exDefs.PM_MASTER_USING_SLAVE_MASK &&&
      ((PmRequestNode exDefs exExternFsm exWorld 0 40 8 0
        exDefs.REQUEST_ACK_BLOCKING).world.reqs 0).info
      = exDefs.PM_MASTER_USING_SLAVE_MASK := by
  refine ⟨by decide, by decide, by decide, by decide, by decide⟩

/-- The state `PmSelfSuspend` works on after its two checks: `latencyReq` is
stored before `saveResumeAddr` and `PmProcFsm` run, and no path resets it. -/
theorem PmSelfSuspend_stores_latency_first (d : PmDefs) (e : PmExtern) (w : PmWorld)
    (master node latency state address proc : Nat)
    (hproc : e.PmGetProcOfThisMaster w master node = some proc)
    (hlat : ¬ latency < ((w.procs proc).pwrDnLatency + (w.procs proc).pwrUpLatency) % 2 ^ 32) :
    (PmSelfSuspend d e w master node latency state address).world
      = (if d.XST_SUCCESS ≠ (e.saveResumeAddr proc address
            (w.setProcLatencyReq proc latency)).1
          then (e.saveResumeAddr proc address (w.setProcLatencyReq proc latency)).2
          else (e.PmProcFsm proc d.PM_PROC_EVENT_SELF_SUSPEND
            (e.saveResumeAddr proc address (w.setProcLatencyReq proc latency)).2).2) := by
  unfold PmSelfSuspend
  simp only [hproc]
  rw [if_neg hlat]
  split_ifs <;> rfl

/-- C14, at the input where the code departs from it: processor 0 of master 0 is
already suspending and issues `PmSelfSuspend` with latency 1000 (not below the
worst-case latency 300).  The state machine rejects the event, the reply is
`XST_FAILURE`, yet the stored latency requirement, 0 before the call, is 1000
after it. -/
theorem PmSelfSuspend_failed_fsm_changes_latency :
    exExternFsm.PmGetProcOfThisMaster (exWorld.setProcState 0 2) 0 10 = some 0 ∧
    (PmSelfSuspend exDefs exExternFsm (exWorld.setProcState 0 2) 0 10 1000 0 0x1000).trace
      = [PmEffect.saveResumeAddr 0 0x1000,
         PmEffect.PmProcFsm 0 exDefs.PM_PROC_EVENT_SELF_SUSPEND,
         PmEffect.IPI_RESPONSE1 500 exDefs.XST_FAILURE] ∧
    exDefs.XST_FAILURE ≠ exDefs.XST_SUCCESS ∧
    (((exWorld.setProcState 0 2).procs 0).latencyReq = 0) ∧
    ((PmSelfSuspend exDefs exExternFsm (exWorld.setProcState 0 2) 0 10 1000 0
        0x1000).world.procs 0).latencyReq = 1000 := by
  refine ⟨by decide, by decide, by decide, by decide, by decide⟩

/-- C15: when the target master already has an outstanding suspend request
(`PmIsRequestedToSuspend(target)` is true), a `PmRequestSuspend` that passes the
earlier checks (ack not blocking, no shutdown in progress, the node is the
placeholder of `target`, the initiator is permitted) is acknowledged with
`XST_PM_DOUBLE_REQ` through its ack mode, the state is unchanged, so the
recorded `suspendRequest.initiator` and `suspendRequest.acknowledge` of the
target keep their values, and `PmInitSuspendCb` is not invoked. -/
theorem PmRequestSuspend_double_request (d : PmDefs) (e : PmExtern) (w : PmWorld)
    (master node ack latency state target : Nat)
    (hack : d.REQUEST_ACK_BLOCKING ≠ ack)
    (hsd : e.PmSystemShutdownProcessing w = false)
    (htarget : e.PmMasterGetPlaceholder w node = some target)
    (hcan : e.PmCanRequestSuspend w master target = true)
    (hreq : e.PmIsRequestedToSuspend w target = true)
    (hne : d.XST_SUCCESS ≠ d.XST_PM_DOUBLE_REQ) :
    (PmRequestSuspend d e w master node ack latency state).trace
      = PmProcessAckRequest d w ack master node d.XST_PM_DOUBLE_REQ 0 ∧
    (PmRequestSuspend d e w master node ack latency state).world = w ∧
    ((PmRequestSuspend d e w master node ack latency state).world.masters
        target).suspendRequest.initiator = (w.masters target).suspendRequest.initiator ∧
    ((PmRequestSuspend d e w master node ack latency state).world.masters
        target).suspendRequest.acknowledge = (w.masters target).suspendRequest.acknowledge ∧
    (∀ x ∈ (PmRequestSuspend d e w master node ack latency state).trace,
        x.isInitSuspendCb = false) := by
  have h : PmRequestSuspend d e w master node ack latency state
      = ⟨w, PmProcessAckRequest d w ack master node d.XST_PM_DOUBLE_REQ 0⟩ := by
    simp [PmRequestSuspend, PmRequestSuspend_done, hack, hsd, htarget, hcan, hreq, hne]
  rw [h]
  refine ⟨rfl, rfl, rfl, rfl, ?_⟩
  intro x hx
  exact (PmEffect.isReply_not_call x (PmProcessAckRequest_isReply _ _ _ _ _ _ _ x hx)).1

/-- C15, evaluated: master 0 asks twice for the suspension of master 1
(placeholder node 21); the second request is a double request. -/
theorem PmRequestSuspend_double_request_witness :
    (PmRequestSuspend exDefs exExtern
        (PmRequestSuspend exDefs exExtern exWorld 0 21 3 0 0).world 0 21 3 0 0).trace
      = PmProcessAckRequest exDefs (PmRequestSuspend exDefs exExtern exWorld 0 21 3 0 0).world
          3 0 21 exDefs.XST_PM_DOUBLE_REQ 0 :=
  (PmRequestSuspend_double_request exDefs exExtern
    (PmRequestSuspend exDefs exExtern exWorld 0 21 3 0 0).world 0 21 3 0 0 1
    (by decide) (by decide) (by decide) (by decide) (by decide) (by decide)).1

/-- C16: when every check of `PmRequestSuspend` passes, the target's
`suspendRequest.initiator` becomes the calling master and
`suspendRequest.acknowledge` the ack argument (nothing else changes),
`PmInitSuspendCb` is invoked exactly once, on the target, with reason
`SUSPEND_REASON_PU_REQ` and the given latency and state, and no acknowledgement
is sent during the call (no response word, no acknowledge callback).
Conversely, each rejected `PmRequestSuspend` (blocking ack, shutdown in
progress, no such placeholder, initiator not permitted, double request) leaves
the state unchanged and is acknowledged at once through the requested ack mode
with its error status. -/
theorem PmRequestSuspend_contract (d : PmDefs) (e : PmExtern) (w : PmWorld)
    (master node ack latency state : Nat)
    (hne1 : d.XST_SUCCESS ≠ d.XST_INVALID_PARAM)
    (hne2 : d.XST_SUCCESS ≠ d.XST_PM_CONFLICT)
    (hne3 : d.XST_SUCCESS ≠ d.XST_PM_NO_ACCESS)
    (hne4 : d.XST_SUCCESS ≠ d.XST_PM_DOUBLE_REQ) :
    (d.REQUEST_ACK_BLOCKING = ack →
      PmRequestSuspend d e w master node ack latency state
        = ⟨w, PmProcessAckRequest d w ack master node d.XST_INVALID_PARAM 0⟩) ∧
    (d.REQUEST_ACK_BLOCKING ≠ ack → e.PmSystemShutdownProcessing w = true →
      PmRequestSuspend d e w master node ack latency state
        = ⟨w, PmProcessAckRequest d w ack master node d.XST_PM_CONFLICT 0⟩) ∧
    (d.REQUEST_ACK_BLOCKING ≠ ack → e.PmSystemShutdownProcessing w = false →
      e.PmMasterGetPlaceholder w node = none →
      PmRequestSuspend d e w master node ack latency state
        = ⟨w, PmProcessAckRequest d w ack master node d.XST_INVALID_PARAM 0⟩) ∧
    (∀ target, d.REQUEST_ACK_BLOCKING ≠ ack → e.PmSystemShutdownProcessing w = false →
      e.PmMasterGetPlaceholder w node = some target →
      e.PmCanRequestSuspend w master target = false →
      PmRequestSuspend d e w master node ack latency state
        = ⟨w, PmProcessAckRequest d w ack master node d.XST_PM_NO_ACCESS 0⟩) ∧
    (∀ target, d.REQUEST_ACK_BLOCKING ≠ ack → e.PmSystemShutdownProcessing w = false →
      e.PmMasterGetPlaceholder w node = some target →
      e.PmCanRequestSuspend w master target = true →
      e.PmIsRequestedToSuspend w target = true →
      PmRequestSuspend d e w master node ack latency state
        = ⟨w, PmProcessAckRequest d w ack master node d.XST_PM_DOUBLE_REQ 0⟩) ∧
    (∀ target, d.REQUEST_ACK_BLOCKING ≠ ack → e.PmSystemShutdownProcessing w = false →
      e.PmMasterGetPlaceholder w node = some target →
      e.PmCanRequestSuspend w master target = true →
      e.PmIsRequestedToSuspend w target = false →
      (PmRequestSuspend d e w master node ack latency state).world
        = w.setSuspendRequest target master ack ∧
      ((PmRequestSuspend d e w master node ack latency state).world.masters
        target).suspendRequest = ⟨some master, ack⟩ ∧
      (∀ m, m ≠ target →
        (PmRequestSuspend d e w master node ack latency state).world.masters m
          = w.masters m) ∧
      (PmRequestSuspend d e w master node ack latency state).trace
        = [PmEffect.PmInitSuspendCb target d.SUSPEND_REASON_PU_REQ latency state 0] ∧
      (∀ x ∈ (PmRequestSuspend d e w master node ack latency state).trace,
        x.isReply = false)) := by
  refine ⟨?_, ?_, ?_, ?_, ?_, ?_⟩
  · intro hb
    simp [PmRequestSuspend, PmRequestSuspend_done, hb, hne1]
  · intro hb hsd
    simp [PmRequestSuspend, PmRequestSuspend_done, hb, hsd, hne2]
  · intro hb hsd ht
    simp [PmRequestSuspend, PmRequestSuspend_done, hb, hsd, ht, hne1]
  · intro target hb hsd ht hcan
    simp [PmRequestSuspend, PmRequestSuspend_done, hb, hsd, ht, hcan, hne3]
  · intro target hb hsd ht hcan hreq
    simp [PmRequestSuspend, PmRequestSuspend_done, hb, hsd, ht, hcan, hreq, hne4]
  · intro target hb hsd ht hcan hreq
    have h : PmRequestSuspend d e w master node ack latency state
        = ⟨w.setSuspendRequest target master ack,
           [PmEffect.PmInitSuspendCb target d.SUSPEND_REASON_PU_REQ latency state 0]⟩ := by
      simp [PmRequestSuspend, PmRequestSuspend_done, hb, hsd, ht, hcan, hreq]
    rw [h]
    refine ⟨rfl, ?_, ?_, rfl, ?_⟩
    · simp [PmWorld.setSuspendRequest]
    · intro m hm
      simp [PmWorld.setSuspendRequest, Function.update_noteq hm]
    · intro x hx
      simp only [List.mem_singleton] at hx
      subst hx
      rfl

/-- C16, evaluated: master 0 asks for the suspension of master 1 with a
non-blocking ack; the request is recorded and nothing is answered. -/
theorem PmRequestSuspend_contract_witness :
    (PmRequestSuspend exDefs exExtern exWorld 0 21 3 50 0).trace
      = [PmEffect.PmInitSuspendCb 1 exDefs.SUSPEND_REASON_PU_REQ 50 0 0] :=
  ((PmRequestSuspend_contract exDefs exExtern exWorld 0 21 3 50 0 (by decide) (by decide)
    (by decide) (by decide)).2.2.2.2.2 1 (by decide) (by decide) (by decide) (by decide)
    (by decide)).2.2.2.1

/-- The call recorded by the `switch` of `PmForcePowerdown` is a force-down
attempt, never an opportunistic suspend or a reply. -/
theorem PmForcePowerdown_switch_trace (d : PmDefs) (e : PmExtern) (w : PmWorld)
    (nodePtr : Nat) :
    ∀ x ∈ (PmForcePowerdown_switch d e w nodePtr).2,
      x.isOpportunisticSuspend = false ∧ x.isReply = false ∧ x.isForceDown = true := by
  intro x hx
  unfold PmForcePowerdown_switch at hx
  simp only at hx
  split_ifs at hx <;> simp at hx <;> subst hx <;> exact ⟨rfl, rfl, rfl⟩

/-- C17: `PmForcePowerdown` on an unknown node acknowledges `XST_INVALID_PARAM`
(operating point 0) and calls nothing.  On a known node the force-down is
`PmProcFsm` with the `FORCE_PWRDN` event for a processor, `PmForceDownTree` for
a power island or power domain, and none for any other type (status
`XST_INVALID_PARAM`).  `PmOpportunisticSuspend(parent)` is invoked exactly once
when the force-down status is `XST_SUCCESS` and the node has a parent, and not
at all otherwise.  The acknowledgement carries the force-down status and the
node's state after the force-down as operating point. -/
theorem PmForcePowerdown_contract (d : PmDefs) (e : PmExtern) (w : PmWorld)
    (master node ack : Nat) (hne : d.XST_SUCCESS ≠ d.XST_INVALID_PARAM) :
    (e.PmGetNodeById w node = none →
      PmForcePowerdown d e w master node ack
        = ⟨w, PmProcessAckRequest d w ack master node d.XST_INVALID_PARAM 0⟩ ∧
      (∀ x ∈ (PmForcePowerdown d e w master node ack).trace,
        x.isOpportunisticSuspend = false ∧ x.isForceDown = false)) ∧
    (∀ nodePtr, e.PmGetNodeById w node = some nodePtr →
      ((w.nodes nodePtr).typeId = d.PM_TYPE_PROC →
        PmForcePowerdown_switch d e w nodePtr
          = (e.PmProcFsm (w.nodes nodePtr).derived d.PM_PROC_EVENT_FORCE_PWRDN w,
             [PmEffect.PmProcFsm (w.nodes nodePtr).derived d.PM_PROC_EVENT_FORCE_PWRDN])) ∧
      ((w.nodes nodePtr).typeId ≠ d.PM_TYPE_PROC →
        (w.nodes nodePtr).typeId = d.PM_TYPE_PWR_ISLAND ∨
          (w.nodes nodePtr).typeId = d.PM_TYPE_PWR_DOMAIN →
        PmForcePowerdown_switch d e w nodePtr
          = (e.PmForceDownTree (w.nodes nodePtr).derived w,
             [PmEffect.PmForceDownTree (w.nodes nodePtr).derived])) ∧
      ((w.nodes nodePtr).typeId ≠ d.PM_TYPE_PROC →
        (w.nodes nodePtr).typeId ≠ d.PM_TYPE_PWR_ISLAND →
        (w.nodes nodePtr).typeId ≠ d.PM_TYPE_PWR_DOMAIN →
        PmForcePowerdown d e w master node ack
          = ⟨w, PmProcessAckRequest d w ack master node d.XST_INVALID_PARAM
                (w.nodes nodePtr).currState⟩ ∧
        (∀ x ∈ (PmForcePowerdown d e w master node ack).trace,
          x.isOpportunisticSuspend = false ∧ x.isForceDown = false)) ∧
      (∀ parent, (PmForcePowerdown_switch d e w nodePtr).1.1 = d.XST_SUCCESS →
        ((PmForcePowerdown_switch d e w nodePtr).1.2.nodes nodePtr).parent = some parent →
        (PmForcePowerdown d e w master node ack).world
          = e.PmOpportunisticSuspend parent (PmForcePowerdown_switch d e w nodePtr).1.2 ∧
        (PmForcePowerdown d e w master node ack).trace
          = (PmForcePowerdown_switch d e w nodePtr).2
            ++ [PmEffect.PmOpportunisticSuspend parent]
            ++ PmProcessAckRequest d (PmForcePowerdown d e w master node ack).world ack
                master node (PmForcePowerdown_switch d e w nodePtr).1.1
                ((PmForcePowerdown_switch d e w nodePtr).1.2.nodes nodePtr).currState ∧
        ((PmForcePowerdown d e w master node ack).trace.filter
          PmEffect.isOpportunisticSuspend).length = 1) ∧
      ((PmForcePowerdown_switch d e w nodePtr).1.1 ≠ d.XST_SUCCESS ∨
          ((PmForcePowerdown_switch d e w nodePtr).1.2.nodes nodePtr).parent = none →
        (PmForcePowerdown d e w master node ack).world
          = (PmForcePowerdown_switch d e w nodePtr).1.2 ∧
        (PmForcePowerdown d e w master node ack).trace
          = (PmForcePowerdown_switch d e w nodePtr).2
            ++ PmProcessAckRequest d (PmForcePowerdown_switch d e w nodePtr).1.2 ack
                master node (PmForcePowerdown_switch d e w nodePtr).1.1
                ((PmForcePowerdown_switch d e w nodePtr).1.2.nodes nodePtr).currState ∧
        (∀ x ∈ (PmForcePowerdown d e w master node ack).trace,
          x.isOpportunisticSuspend = false))) := by
  constructor
  · intro hnone
    have h : PmForcePowerdown d e w master node ack
        = ⟨w, PmProcessAckRequest d w ack master node d.XST_INVALID_PARAM 0⟩ := by
      simp [PmForcePowerdown, hnone]
    rw [h]
    refine ⟨rfl, ?_⟩
    intro x hx
    have hr := PmEffect.isReply_not_action x (PmProcessAckRequest_isReply _ _ _ _ _ _ _ x hx)
    exact ⟨hr.2.2.2.1, hr.2.2.2.2⟩
  · intro nodePtr hnode
    refine ⟨?_, ?_, ?_, ?_, ?_⟩
    · intro hp
      simp [PmForcePowerdown_switch, hp]
    · intro hp hpw
      simp [PmForcePowerdown_switch, hp, hpw]
    · intro hp hi hdm
      have hsw : PmForcePowerdown_switch d e w nodePtr = ((d.XST_INVALID_PARAM, w), []) := by
        simp [PmForcePowerdown_switch, hp, hi, hdm]
      have h : PmForcePowerdown d e w master node ack
          = ⟨w, PmProcessAckRequest d w ack master node d.XST_INVALID_PARAM
                (w.nodes nodePtr).currState⟩ := by
        simp [PmForcePowerdown, hnode, hsw, hne]
      rw [h]
      refine ⟨rfl, ?_⟩
      intro x hx
      have hr := PmEffect.isReply_not_action x
        (PmProcessAckRequest_isReply _ _ _ _ _ _ _ x hx)
      exact ⟨hr.2.2.2.1, hr.2.2.2.2⟩
    · intro parent hs hpar
      have h : PmForcePowerdown d e w master node ack
          = ⟨e.PmOpportunisticSuspend parent (PmForcePowerdown_switch d e w nodePtr).1.2,
             (PmForcePowerdown_switch d e w nodePtr).2
              ++ [PmEffect.PmOpportunisticSuspend parent]
              ++ PmProcessAckRequest d
                  (e.PmOpportunisticSuspend parent (PmForcePowerdown_switch d e w nodePtr).1.2)
                  ack master node (PmForcePowerdown_switch d e w nodePtr).1.1
                  ((PmForcePowerdown_switch d e w nodePtr).1.2.nodes nodePtr).currState⟩ := by
        simp only [PmForcePowerdown, hnode, hs, if_true, hpar]
      rw [h]
      refine ⟨rfl, rfl, ?_⟩
      have h1 : (PmForcePowerdown_switch d e w nodePtr).2.filter
          PmEffect.isOpportunisticSuspend = [] := by
        rw [List.filter_eq_nil_iff]
        intro x hx
        simp [(PmForcePowerdown_switch_trace d e w nodePtr x hx).1]
      have h2 : (PmProcessAckRequest d
          (e.PmOpportunisticSuspend parent (PmForcePowerdown_switch d e w nodePtr).1.2)
          ack master node (PmForcePowerdown_switch d e w nodePtr).1.1
          ((PmForcePowerdown_switch d e w nodePtr).1.2.nodes nodePtr).currState).filter
          PmEffect.isOpportunisticSuspend = [] := by
        rw [List.filter_eq_nil_iff]
        intro x hx
        simp [(PmEffect.isReply_not_action x
          (PmProcessAckRequest_isReply _ _ _ _ _ _ _ x hx)).2.2.2.1]
      simp only [List.filter_append, h1, h2]
      simp [PmEffect.isOpportunisticSuspend]
    · intro hcase
      have hcond : (if d.XST_SUCCESS = (PmForcePowerdown_switch d e w nodePtr).1.1
          then ((PmForcePowerdown_switch d e w nodePtr).1.2.nodes nodePtr).parent
          else none) = none := by
        rcases hcase with hs | hpar
        · rw [if_neg (fun h => hs h.symm)]
        · rw [hpar]; simp
      have h : PmForcePowerdown d e w master node ack
          = ⟨(PmForcePowerdown_switch d e w nodePtr).1.2,
             (PmForcePowerdown_switch d e w nodePtr).2
              ++ PmProcessAckRequest d (PmForcePowerdown_switch d e w nodePtr).1.2 ack
                  master node (PmForcePowerdown_switch d e w nodePtr).1.1
                  ((PmForcePowerdown_switch d e w nodePtr).1.2.nodes nodePtr).currState⟩ := by
        simp only [PmForcePowerdown, hnode, hcond]
      rw [h]
      refine ⟨rfl, rfl, ?_⟩
      intro x hx
      rcases List.mem_append.mp hx with hx | hx
      · exact (PmForcePowerdown_switch_trace d e w nodePtr x hx).1
      · exact (PmEffect.isReply_not_action x
          (PmProcessAckRequest_isReply _ _ _ _ _ _ _ x hx)).2.2.2.1

/-- C17, evaluated: master 0 forces processor node 10 down, non-blocking; the
state machine succeeds, the node has parent 7, so the parent is tried once and
the acknowledgement carries status 0 and the new state 0. -/
theorem PmForcePowerdown_contract_witness :
    (PmForcePowerdown exDefs exExternFsm exWorldParent 0 10 3).trace
      = [PmEffect.PmProcFsm 0 exDefs.PM_PROC_EVENT_FORCE_PWRDN,
         PmEffect.PmOpportunisticSuspend 7,
         PmEffect.PmAcknowledgeCb 0 10 exDefs.XST_SUCCESS 0] :=
  (((PmForcePowerdown_contract exDefs exExternFsm exWorldParent 0 10 3 (by decide)).2 0
    (by decide)).2.2.2.1 7 (by decide) (by decide)).2.1

/-- The state machine `exProcFsm` obeys the abort rule of the specification. -/
theorem exExternFsm_abort_rule : PmProcFsmAbortOnlyWhileSuspending exDefs exExternFsm := by
  intro proc w h
  have h2 : ¬ (w.procState proc = 2) := h
  simp [exExternFsm, exProcFsm, exDefs, h2]

/-- C18: when the node is not a processor of the calling master, `PmAbortSuspend`
replies `XST_PM_INVALID_NODE`, gives no event to any processor FSM and changes
nothing.  When it is, exactly the `ABORT_SUSPEND` event is given to that
processor's FSM and the reply is the FSM's status; with the FSM of the
specification, an abort for a processor that is not suspending (active,
suspended) therefore replies an error and leaves the state unchanged.  In
every case exactly one one-word response is sent. -/
theorem PmAbortSuspend_contract (d : PmDefs) (e : PmExtern) (w : PmWorld)
    (master reason node : Nat) :
    (e.PmGetProcOfThisMaster w master node = none →
      PmAbortSuspend d e w master reason node
        = ⟨w, [PmEffect.IPI_RESPONSE1 (w.masters master).buffer d.XST_PM_INVALID_NODE]⟩ ∧
      (∀ x ∈ (PmAbortSuspend d e w master reason node).trace, x.isProcCall = false)) ∧
    (∀ proc, e.PmGetProcOfThisMaster w master node = some proc →
      (PmAbortSuspend d e w master reason node).world
        = (e.PmProcFsm proc d.PM_PROC_EVENT_ABORT_SUSPEND w).2 ∧
      (PmAbortSuspend d e w master reason node).trace
        = [PmEffect.PmProcFsm proc d.PM_PROC_EVENT_ABORT_SUSPEND,
           PmEffect.IPI_RESPONSE1
             ((PmAbortSuspend d e w master reason node).world.masters master).buffer
             (e.PmProcFsm proc d.PM_PROC_EVENT_ABORT_SUSPEND w).1] ∧
      ((PmAbortSuspend d e w master reason node).trace.filter PmEffect.isProcCall).length = 1 ∧
      (PmProcFsmAbortOnlyWhileSuspending d e →
        w.procState proc ≠ d.PM_PROC_STATE_SUSPENDING →
        (e.PmProcFsm proc d.PM_PROC_EVENT_ABORT_SUSPEND w).1 ≠ d.XST_SUCCESS ∧
        (PmAbortSuspend d e w master reason node).world = w ∧
        (PmAbortSuspend d e w master reason node).world.procState proc
          = w.procState proc)) ∧
    ((PmAbortSuspend d e w master reason node).trace.filter PmEffect.isReply).length = 1 := by
  refine ⟨?_, ?_, ?_⟩
  · intro hnone
    simp [PmAbortSuspend, hnone, PmEffect.isProcCall]
  · intro proc hproc
    have h : PmAbortSuspend d e w master reason node
        = ⟨(e.PmProcFsm proc d.PM_PROC_EVENT_ABORT_SUSPEND w).2,
           [PmEffect.PmProcFsm proc d.PM_PROC_EVENT_ABORT_SUSPEND,
            PmEffect.IPI_RESPONSE1
              ((e.PmProcFsm proc d.PM_PROC_EVENT_ABORT_SUSPEND w).2.masters master).buffer
              (e.PmProcFsm proc d.PM_PROC_EVENT_ABORT_SUSPEND w).1]⟩ := by
      simp [PmAbortSuspend, hproc]
    rw [h]
    refine ⟨rfl, rfl, ?_, ?_⟩
    · simp [PmEffect.isProcCall]
    · intro hfsm hst
      have hc := hfsm proc w hst
      refine ⟨hc.1, hc.2, ?_⟩
      show (e.PmProcFsm proc d.PM_PROC_EVENT_ABORT_SUSPEND w).2.procState proc = _
      rw [hc.2]
  · cases hproc : e.PmGetProcOfThisMaster w master node <;>
      simp [PmAbortSuspend, hproc, PmEffect.isReply]

/-- C18, evaluated: processor 0 of master 0 is active and aborts a suspend; the
reply is `XST_FAILURE` and the state is unchanged. -/
theorem PmAbortSuspend_contract_witness :
    (exExternFsm.PmProcFsm 0 exDefs.PM_PROC_EVENT_ABORT_SUSPEND exWorld).1
        ≠ exDefs.XST_SUCCESS ∧
    (PmAbortSuspend exDefs exExternFsm exWorld 0 0 10).world = exWorld ∧
    (PmAbortSuspend exDefs exExternFsm exWorld 0 0 10).world.procState 0
      = exWorld.procState 0 :=
  ((PmAbortSuspend_contract exDefs exExternFsm exWorld 0 0 10).2.1 0 (by decide)).2.2.2
    exExternFsm_abort_rule (by decide)

/-- C19: for a `PmRequestWakeup` issued while no shutdown is in progress: if the
node is not a processor, the acknowledgement is `XST_PM_INVALID_NODE` with
operating point 0 and nothing changes; otherwise the resume address is saved
exactly when `setAddress` is 1, before the wake event, the `WAKE` event is
given to the processor FSM exactly once, and the acknowledgement carries the
FSM's status and the processor's state after that event as operating point. -/
theorem PmRequestWakeup_contract (d : PmDefs) (e : PmExtern) (w : PmWorld)
    (master node setAddress address ack : Nat)
    (hsd : e.PmSystemShutdownProcessing w = false) :
    (e.PmGetProcByNodeId w node = none →
      PmRequestWakeup d e w master node setAddress address ack
        = ⟨w, PmProcessAckRequest d w ack master node d.XST_PM_INVALID_NODE 0⟩) ∧
    (∀ proc, e.PmGetProcByNodeId w node = some proc →
      (setAddress = 1 →
        (PmRequestWakeup d e w master node setAddress address ack).world
          = (e.PmProcFsm proc d.PM_PROC_EVENT_WAKE (e.saveResumeAddr proc address w).2).2 ∧
        (PmRequestWakeup d e w master node setAddress address ack).trace
          = [PmEffect.saveResumeAddr proc address,
             PmEffect.PmProcFsm proc d.PM_PROC_EVENT_WAKE]
            ++ PmProcessAckRequest d
                (PmRequestWakeup d e w master node setAddress address ack).world
                ack master node
                (e.PmProcFsm proc d.PM_PROC_EVENT_WAKE (e.saveResumeAddr proc address w).2).1
                ((PmRequestWakeup d e w master node setAddress address ack).world.procState
                  proc)) ∧
      (setAddress ≠ 1 →
        (PmRequestWakeup d e w master node setAddress address ack).world
          = (e.PmProcFsm proc d.PM_PROC_EVENT_WAKE w).2 ∧
        (PmRequestWakeup d e w master node setAddress address ack).trace
          = [PmEffect.PmProcFsm proc d.PM_PROC_EVENT_WAKE]
            ++ PmProcessAckRequest d
                (PmRequestWakeup d e w master node setAddress address ack).world
                ack master node (e.PmProcFsm proc d.PM_PROC_EVENT_WAKE w).1
                ((PmRequestWakeup d e w master node setAddress address ack).world.procState
                  proc))) := by
  constructor
  · intro hnone
    simp [PmRequestWakeup, hsd, hnone]
  · intro proc hproc
    constructor
    · intro hset
      have h1 : (1 : Nat) = setAddress := hset.symm
      simp [PmRequestWakeup, hsd, hproc, h1, PmWorld.procState]
    · intro hset
      have h1 : ¬ ((1 : Nat) = setAddress) := fun h => hset h.symm
      simp [PmRequestWakeup, hsd, hproc, h1, PmWorld.procState]

/-- C19, evaluated: master 0 wakes the suspended processor of master 1 with a
resume address, blocking. -/
theorem PmRequestWakeup_contract_witness :
    (PmRequestWakeup exDefs exExternFsm (exWorld.setProcState 1 3) 0 11 1 0x2000 2).trace
      = [PmEffect.saveResumeAddr 1 0x2000, PmEffect.PmProcFsm 1 exDefs.PM_PROC_EVENT_WAKE,
         PmEffect.IPI_RESPONSE1 500 exDefs.XST_SUCCESS] :=
  (((PmRequestWakeup_contract exDefs exExternFsm (exWorld.setProcState 1 3) 0 11 1 0x2000 2
    (by decide)).2 1 (by decide)).1 (by decide)).2

/-- C20: when `PmCheckPayload` reports an error other than
`PM_PAYLOAD_ERR_API_ID`, `PmProcessRequest` runs no API handler (the state is
unchanged and the only effects are replies) and acknowledges
`XST_INVALID_PARAM` for `NODE_UNKNOWN` with operating point 0 through the ack
mode `PmRequestAcknowledge` recovers from the payload: one response word if it
is blocking, one acknowledge callback if it is non-blocking, nothing
otherwise. -/
theorem PmProcessRequest_bad_arguments (d : PmDefs) (e : PmExtern) (w : PmWorld)
    (master : Nat) (pload : Nat → Nat)
    (hok : e.PmCheckPayload w pload ≠ d.PM_PAYLOAD_OK)
    (herr : e.PmCheckPayload w pload ≠ d.PM_PAYLOAD_ERR_API_ID) :
    (PmProcessRequest d e w master pload).world = w ∧
    (PmProcessRequest d e w master pload).trace
      = PmProcessAckRequest d w (e.PmRequestAcknowledge w pload) master d.NODE_UNKNOWN
          d.XST_INVALID_PARAM 0 ∧
    (e.PmRequestAcknowledge w pload = d.REQUEST_ACK_BLOCKING →
      (PmProcessRequest d e w master pload).trace
        = [PmEffect.IPI_RESPONSE1 (w.masters master).buffer d.XST_INVALID_PARAM]) ∧
    (e.PmRequestAcknowledge w pload ≠ d.REQUEST_ACK_BLOCKING →
      e.PmRequestAcknowledge w pload = d.REQUEST_ACK_NON_BLOCKING →
      (PmProcessRequest d e w master pload).trace
        = [PmEffect.PmAcknowledgeCb master d.NODE_UNKNOWN d.XST_INVALID_PARAM 0]) ∧
    (e.PmRequestAcknowledge w pload ≠ d.REQUEST_ACK_BLOCKING →
      e.PmRequestAcknowledge w pload ≠ d.REQUEST_ACK_NON_BLOCKING →
      (PmProcessRequest d e w master pload).trace = []) ∧
    (∀ x ∈ (PmProcessRequest d e w master pload).trace, x.isReply = true) := by
  have hok2 : ¬ (d.PM_PAYLOAD_OK = e.PmCheckPayload w pload) := fun h => hok h.symm
  have herr2 : d.PM_PAYLOAD_ERR_API_ID ≠ e.PmCheckPayload w pload := fun h => herr h.symm
  have h : PmProcessRequest d e w master pload
      = ⟨w, PmProcessAckRequest d w (e.PmRequestAcknowledge w pload) master d.NODE_UNKNOWN
            d.XST_INVALID_PARAM 0⟩ := by
    simp only [PmProcessRequest, if_neg hok2, if_pos herr2]
  rw [h]
  refine ⟨rfl, rfl, ?_, ?_, ?_, ?_⟩
  · intro hb
    simp [PmProcessAckRequest, hb]
  · intro hb hn
    have hb2 : ¬ (d.REQUEST_ACK_BLOCKING = e.PmRequestAcknowledge w pload) :=
      fun h => hb h.symm
    simp only [PmProcessAckRequest, if_neg hb2, if_pos hn.symm]
  · intro hb hn
    have hb2 : ¬ (d.REQUEST_ACK_BLOCKING = e.PmRequestAcknowledge w pload) :=
      fun h => hb h.symm
    have hn2 : ¬ (d.REQUEST_ACK_NON_BLOCKING = e.PmRequestAcknowledge w pload) :=
      fun h => hn h.symm
    simp only [PmProcessAckRequest, if_neg hb2, if_neg hn2]
  · exact PmProcessAckRequest_isReply _ _ _ _ _ _ _

/-- C20, evaluated: a `PM_REQUEST_NODE` payload the check rejects with an
argument error, ack word blocking. -/
theorem PmProcessRequest_bad_arguments_witness :
    (PmProcessRequest exDefs exExternFsm exWorld 0 (payload [13, 40, 2, 0, 0, 0])).trace
      = [PmEffect.IPI_RESPONSE1 (exWorld.masters 0).buffer exDefs.XST_INVALID_PARAM] :=
  (PmProcessRequest_bad_arguments exDefs exExternFsm exWorld 0
    (payload [13, 40, 2, 0, 0, 0]) (by decide) (by decide)).2.2.1 (by decide)

/-- C21: `PmProcessAckRequest` takes exactly one acknowledgement path.  For
`ack = REQUEST_ACK_BLOCKING` it writes exactly one one-word response with the
status to the master's buffer and issues no callback; for
`ack = REQUEST_ACK_NON_BLOCKING` it issues exactly one acknowledge callback with
(master, node, status, operating point) and writes no response; for every other
ack it sends nothing; for no ack does it send both a response and a callback. -/
theorem PmProcessAckRequest_one_path (d : PmDefs) (w : PmWorld)
    (ack master nodeId status oppoint : Nat)
    (hdist : d.REQUEST_ACK_BLOCKING ≠ d.REQUEST_ACK_NON_BLOCKING) :
    (ack = d.REQUEST_ACK_BLOCKING →
      PmProcessAckRequest d w ack master nodeId status oppoint
        = [PmEffect.IPI_RESPONSE1 (w.masters master).buffer status]) ∧
    (ack = d.REQUEST_ACK_NON_BLOCKING →
      PmProcessAckRequest d w ack master nodeId status oppoint
        = [PmEffect.PmAcknowledgeCb master nodeId status oppoint]) ∧
    (ack ≠ d.REQUEST_ACK_BLOCKING → ack ≠ d.REQUEST_ACK_NON_BLOCKING →
      PmProcessAckRequest d w ack master nodeId status oppoint = []) ∧
    ((PmProcessAckRequest d w ack master nodeId status oppoint).filter
        PmEffect.isIpiResponse).length
      = (if ack = d.REQUEST_ACK_BLOCKING then 1 else 0) ∧
    ((PmProcessAckRequest d w ack master nodeId status oppoint).filter
        PmEffect.isAcknowledgeCb).length
      = (if ack = d.REQUEST_ACK_NON_BLOCKING then 1 else 0) ∧
    (PmProcessAckRequest d w ack master nodeId status oppoint).length ≤ 1 := by
  by_cases hb : ack = d.REQUEST_ACK_BLOCKING
  · have hn : ack ≠ d.REQUEST_ACK_NON_BLOCKING := fun h => hdist (hb.symm.trans h)
    subst hb
    simp [PmProcessAckRequest, hn, PmEffect.isIpiResponse, PmEffect.isAcknowledgeCb]
  · have hb2 : ¬ (d.REQUEST_ACK_BLOCKING = ack) := fun h => hb h.symm
    by_cases hn : ack = d.REQUEST_ACK_NON_BLOCKING
    · subst hn
      simp [PmProcessAckRequest, hb, hb2, hdist, PmEffect.isIpiResponse,
        PmEffect.isAcknowledgeCb]
    · have hn2 : ¬ (d.REQUEST_ACK_NON_BLOCKING = ack) := fun h => hn h.symm
      simp [PmProcessAckRequest, hb, hn, hb2, hn2]

/-- C21, evaluated: a non-blocking acknowledge is one callback. -/
theorem PmProcessAckRequest_one_path_witness :
    PmProcessAckRequest exDefs exWorld 3 0 40 15 1 = [PmEffect.PmAcknowledgeCb 0 40 15 1] :=
  (PmProcessAckRequest_one_path exDefs exWorld 3 0 40 15 1 (by decide)).2.1 (by decide)

/-- C22 as stated fails for `mask = 0`: a `PmMmioWrite` with mask 0 to an address
the master may not access is answered `XST_SUCCESS`, not `XST_PM_NO_ACCESS`. -/
theorem PmMmioWrite_mask_zero_not_denied :
    exExtern.PmGetMmioAccess exWorld 0 5 = false ∧
    (PmMmioWrite exDefs exExtern exWorld 0 5 0 7).trace
      = [PmEffect.IPI_RESPONSE1 500 exDefs.XST_SUCCESS] ∧
    ¬ ((PmMmioWrite exDefs exExtern exWorld 0 5 0 7).trace
      = [PmEffect.IPI_RESPONSE1 500 exDefs.XST_PM_NO_ACCESS]) := by
  refine ⟨by decide, by decide, by decide⟩

/-- C22, amended: for an address the requesting master may not access
(`PmGetMmioAccess` is false), `PmMmioRead` replies `XST_PM_NO_ACCESS` with value
word 0, and `PmMmioWrite` with any value replies `XST_PM_NO_ACCESS` for every
mask other than 0 and `XST_SUCCESS` for mask 0; in all these cases no register
is read or written and the state is unchanged. -/
theorem mmio_denied (d : PmDefs) (e : PmExtern) (w : PmWorld)
    (master address mask value : Nat)
    (hdenied : e.PmGetMmioAccess w master address = false) :
    PmMmioRead d e w master address
      = ⟨w, [PmEffect.IPI_RESPONSE2 (w.masters master).buffer d.XST_PM_NO_ACCESS 0]⟩ ∧
    (mask ≠ 0 →
      PmMmioWrite d e w master address mask value
        = ⟨w, [PmEffect.IPI_RESPONSE1 (w.masters master).buffer d.XST_PM_NO_ACCESS]⟩) ∧
    (mask = 0 →
      PmMmioWrite d e w master address mask value
        = ⟨w, [PmEffect.IPI_RESPONSE1 (w.masters master).buffer d.XST_SUCCESS]⟩) ∧
    (∀ x ∈ (PmMmioRead d e w master address).trace,
      x.isRegisterRead = false ∧ x.isRegisterWrite = false) ∧
    (∀ x ∈ (PmMmioWrite d e w master address mask value).trace,
      x.isRegisterRead = false ∧ x.isRegisterWrite = false) := by
  refine ⟨?_, ?_, ?_, ?_, ?_⟩
  · simp [PmMmioRead, hdenied]
  · intro hm
    simp [PmMmioWrite, hm, hdenied]
  · intro hm
    simp [PmMmioWrite, hm]
  · simp [PmMmioRead, hdenied, PmEffect.isRegisterRead, PmEffect.isRegisterWrite]
  · by_cases hm : mask = 0 <;>
      simp [PmMmioWrite, hm, hdenied, PmEffect.isRegisterRead, PmEffect.isRegisterWrite]

/-- C22 amended, evaluated: master 0 may not write address 5. -/
theorem mmio_denied_witness :
    PmMmioWrite exDefs exExtern exWorld 0 5 0xFF 7
      = ⟨exWorld, [PmEffect.IPI_RESPONSE1 (exWorld.masters 0).buffer
          exDefs.XST_PM_NO_ACCESS]⟩ :=
  (mmio_denied exDefs exExtern exWorld 0 5 0xFF 7 (by decide)).2.1 (by decide)

/-- A shifted word and a word that fits below the shift: their bitwise OR is
their sum. -/
theorem shiftLeft_or_eq_add (a b i : Nat) (hb : b < 2 ^ i) :
    a <<< i ||| b = a * 2 ^ i + b := by
  rw [Nat.shiftLeft_eq, Nat.mul_comm, ← Nat.mul_add_lt_is_or hb]

/-- C24: `PmGetApiVersion` always replies with exactly two words,
(`XST_SUCCESS`, version), where version is `(PM_VERSION_MAJOR << 16) |
PM_VERSION_MINOR` with the shift taken in 32 bits, and changes nothing.  For
major and minor below `2 ^ 16` the packing is lossless: `version >> 16` is
major and `version & 0xFFFF` is minor. -/
theorem PmGetApiVersion_packing (d : PmDefs) (w : PmWorld) (master : Nat) :
    PmGetApiVersion d w master
      = ⟨w, [PmEffect.IPI_RESPONSE2 (w.masters master).buffer d.XST_SUCCESS
          (((d.PM_VERSION_MAJOR <<< 16) % 2 ^ 32) ||| d.PM_VERSION_MINOR)]⟩ ∧
    (d.PM_VERSION_MAJOR < 2 ^ 16 → d.PM_VERSION_MINOR < 2 ^ 16 →
      (((d.PM_VERSION_MAJOR <<< 16) % 2 ^ 32) ||| d.PM_VERSION_MINOR) >>> 16
        = d.PM_VERSION_MAJOR ∧
      (((d.PM_VERSION_MAJOR <<< 16) % 2 ^ 32) ||| d.PM_VERSION_MINOR) &&& 0xFFFF
        = d.PM_VERSION_MINOR ∧
      (((d.PM_VERSION_MAJOR <<< 16) % 2 ^ 32) ||| d.PM_VERSION_MINOR)
        = d.PM_VERSION_MAJOR * 2 ^ 16 + d.PM_VERSION_MINOR ∧
      (((d.PM_VERSION_MAJOR <<< 16) % 2 ^ 32) ||| d.PM_VERSION_MINOR) < 2 ^ 32) := by
  refine ⟨rfl, ?_⟩
  intro hmaj hmin
  have hsh : (d.PM_VERSION_MAJOR <<< 16) % 2 ^ 32 = d.PM_VERSION_MAJOR <<< 16 := by
    apply Nat.mod_eq_of_lt
    rw [Nat.shiftLeft_eq]
    omega
  have hor : d.PM_VERSION_MAJOR <<< 16 ||| d.PM_VERSION_MINOR
      = d.PM_VERSION_MAJOR * 2 ^ 16 + d.PM_VERSION_MINOR := by
    exact shiftLeft_or_eq_add _ _ 16 hmin
  rw [hsh, hor]
  refine ⟨?_, ?_, rfl, ?_⟩
  · rw [Nat.shiftRight_eq_div_pow]
    omega
  · have h : (0xFFFF : Nat) = 2 ^ 16 - 1 := by norm_num
    rw [h, Nat.and_pow_two_sub_one_eq_mod]
    omega
  · omega

/-- C24, evaluated for version 0.1. -/
theorem PmGetApiVersion_packing_witness :
    (((exDefs.PM_VERSION_MAJOR <<< 16) % 2 ^ 32) ||| exDefs.PM_VERSION_MINOR) >>> 16
        = exDefs.PM_VERSION_MAJOR :=
  ((PmGetApiVersion_packing exDefs exWorld 0).2 (by decide) (by decide)).1

/-- For a full mask the read-modify-write formula gives the new value, whatever
the old content. -/
theorem full_mask_formula (old value : Nat) (hv : value < 2 ^ 32) :
    (old &&& not32 0xffffffff) ||| (value &&& 0xffffffff) = value := by
  apply Nat.eq_of_testBit_eq
  intro i
  have h : (0xffffffff : Nat) = 2 ^ 32 - 1 := by norm_num
  rw [Nat.testBit_or, and_not32_testBit, Nat.testBit_and, h, Nat.testBit_two_pow_sub_one]
  by_cases hi : i < 32
  · simp [hi]
  · have hlt : value < 2 ^ i :=
      Nat.lt_of_lt_of_le hv (Nat.pow_le_pow_right (by decide) (Nat.le_of_not_lt hi))
    simp [hi, Nat.testBit_lt_two_pow hlt]

/-- Bits of the word a read-modify-write stores: inside the mask the bits of
the value, outside the mask the bits of the old content. -/
theorem masked_write_testBit (old value mask i : Nat) (hi : i < 32) :
    ((old &&& not32 mask) ||| (value &&& mask)).testBit i
      = (if mask.testBit i then value.testBit i else old.testBit i) := by
  rw [Nat.testBit_or, and_not32_testBit, Nat.testBit_and]
  cases mask.testBit i <;> simp [hi]

/-- C25: `PmMmioWrite` with mask 0 reads and writes no register and replies
`XST_SUCCESS`.  With a mask other than 0 and a permitted address it performs
exactly one register write, to that address, and replies `XST_SUCCESS`: for
mask `0xFFFFFFFF` the register is not read and the written word is the value
(which is the read-modify-write formula for any old content); otherwise the
register is read once, just before, and the written word is
`(old AND NOT mask) OR (value AND mask)`, whose bits inside the mask are the
value's and outside the mask the old ones. -/
theorem PmMmioWrite_contract (d : PmDefs) (e : PmExtern) (w : PmWorld)
    (master address mask value : Nat) :
    (mask = 0 →
      PmMmioWrite d e w master address mask value
        = ⟨w, [PmEffect.IPI_RESPONSE1 (w.masters master).buffer d.XST_SUCCESS]⟩) ∧
    (mask ≠ 0 → e.PmGetMmioAccess w master address = true → mask = 0xffffffff →
      PmMmioWrite d e w master address mask value
        = ⟨e.XPfw_Write32 address value w,
           [PmEffect.XPfw_Write32 address value,
            PmEffect.IPI_RESPONSE1 ((e.XPfw_Write32 address value w).masters master).buffer
              d.XST_SUCCESS]⟩ ∧
      (∀ old, value < 2 ^ 32 → (old &&& not32 mask) ||| (value &&& mask) = value)) ∧
    (mask ≠ 0 → e.PmGetMmioAccess w master address = true → mask ≠ 0xffffffff →
      PmMmioWrite d e w master address mask value
        = ⟨e.XPfw_Write32 address
            ((e.XPfw_Read32 w address &&& not32 mask) ||| (value &&& mask)) w,
           [PmEffect.XPfw_Read32 address,
            PmEffect.XPfw_Write32 address
              ((e.XPfw_Read32 w address &&& not32 mask) ||| (value &&& mask)),
            PmEffect.IPI_RESPONSE1
              ((e.XPfw_Write32 address
                ((e.XPfw_Read32 w address &&& not32 mask) ||| (value &&& mask))
                w).masters master).buffer d.XST_SUCCESS]⟩ ∧
      (∀ i, i < 32 →
        ((e.XPfw_Read32 w address &&& not32 mask) ||| (value &&& mask)).testBit i
          = (if mask.testBit i then value.testBit i
             else (e.XPfw_Read32 w address).testBit i))) ∧
    (mask ≠ 0 → e.PmGetMmioAccess w master address = true →
      ((PmMmioWrite d e w master address mask value).trace.filter
        PmEffect.isRegisterWrite).length = 1 ∧
      (∀ a v, PmEffect.XPfw_Write32 a v ∈ (PmMmioWrite d e w master address mask value).trace
        → a = address)) := by
  refine ⟨?_, ?_, ?_, ?_⟩
  · intro hm
    simp [PmMmioWrite, hm]
  · intro hm hacc hfull
    refine ⟨?_, ?_⟩
    · subst hfull
      simp [PmMmioWrite, hacc]
    · intro old hv
      subst hfull
      exact full_mask_formula old value hv
  · intro hm hacc hfull
    refine ⟨?_, ?_⟩
    · have hc : (value &&& mask) ||| (e.XPfw_Read32 w address &&& not32 mask)
          = (e.XPfw_Read32 w address &&& not32 mask) ||| (value &&& mask) :=
        Nat.or_comm _ _
      simp only [PmMmioWrite, if_neg hm, hacc, if_neg hfull, hc]
      simp
    · intro i hi
      exact masked_write_testBit _ _ _ i hi
  · intro hm hacc
    by_cases hfull : mask = 0xffffffff
    · subst hfull
      simp [PmMmioWrite, hacc, PmEffect.isRegisterWrite]
    · simp only [PmMmioWrite, if_neg hm, hacc, if_neg hfull]
      simp [PmEffect.isRegisterWrite]

/-- C25, evaluated: master 0 writes value 0xAB under mask 0xF0 to the permitted
address 1000, which holds 0; the stored word is 0xA0. -/
theorem PmMmioWrite_contract_witness :
    PmMmioWrite exDefs exExtern exWorld 0 1000 0xF0 0xAB
      = ⟨exExtern.XPfw_Write32 1000
          ((exExtern.XPfw_Read32 exWorld 1000 &&& not32 0xF0) ||| (0xAB &&& 0xF0)) exWorld,
         [PmEffect.XPfw_Read32 1000,
          PmEffect.XPfw_Write32 1000
            ((exExtern.XPfw_Read32 exWorld 1000 &&& not32 0xF0) ||| (0xAB &&& 0xF0)),
          PmEffect.IPI_RESPONSE1
            ((exExtern.XPfw_Write32 1000
              ((exExtern.XPfw_Read32 exWorld 1000 &&& not32 0xF0) ||| (0xAB &&& 0xF0))
              exWorld).masters 0).buffer exDefs.XST_SUCCESS]⟩ :=
  ((PmMmioWrite_contract exDefs exExtern exWorld 0 1000 0xF0 0xAB).2.2.1 (by decide)
    (by decide) (by decide)).1

/-- Bits of a 32-bit word after `word & ~0x1U`: bit 0 is cleared, every other
bit is kept. -/
theorem and_not32_one_testBit (x i : Nat) (hx : x < 2 ^ 32) :
    (x &&& not32 0x1).testBit i = (decide (i ≠ 0) && x.testBit i) := by
  rw [and_not32_testBit]
  by_cases hi : i < 32
  · cases i with
    | zero => simp
    | succ j =>
      have h1 : Nat.testBit 1 (j + 1) = false :=
        Nat.testBit_lt_two_pow (Nat.one_lt_two_pow (by omega))
      simp [hi, h1]
  · have hlt : x < 2 ^ i :=
      Nat.lt_of_lt_of_le hx (Nat.pow_le_pow_right (by decide) (Nat.le_of_not_lt hi))
    simp [hi, Nat.testBit_lt_two_pow hlt]

/-- The word `word & ~0x1U` is below `2 ^ 32` and even. -/
theorem and_not32_one_bounds (x : Nat) :
    x &&& not32 0x1 < 2 ^ 32 ∧ (x &&& not32 0x1) % 2 = 0 := by
  constructor
  · exact Nat.and_lt_two_pow x (by decide)
  · have h := and_not32_testBit x 1 0
    have h1 : Nat.testBit 1 0 = true := by decide
    rw [h1] at h
    simp only [Bool.not_true, Bool.and_false] at h
    rw [Nat.testBit_zero] at h
    have h0 := of_decide_eq_false h
    omega

/-- C26: for payload words below `2 ^ 32`, `PmProcessApiCall` passes on resume
addresses assembled without loss or overflow.  For `PM_SELF_SUSPEND` the address
is `pload[5] * 2 ^ 32 + pload[4]`, with high word `pload[5]` and low word
`pload[4]`.  For `PM_REQUEST_WAKEUP` (a case label different from the four
before it) `setAddress` is `pload[2] AND 1` and the address is
`pload[3] * 2 ^ 32 + (pload[2] AND NOT 1)`: below `2 ^ 64`, bit 0 clear, high
word `pload[3]`, low word `pload[2]` with bit 0 cleared.  In both cases the sum
equals the bitwise OR of the two parts. -/
theorem PmProcessApiCall_addresses (d : PmDefs) (e : PmExtern) (w : PmWorld) (master : Nat)
    (pload : Nat → Nat)
    (h2 : pload 2 < 2 ^ 32) (h3 : pload 3 < 2 ^ 32) (h4 : pload 4 < 2 ^ 32)
    (h5 : pload 5 < 2 ^ 32) :
    (pload 0 = d.PM_SELF_SUSPEND →
      PmProcessApiCall d e w master pload
        = PmSelfSuspend d e w master (pload 1) (pload 2) (pload 3)
            (pload 5 * 2 ^ 32 + pload 4)) ∧
    (pload 0 ≠ d.PM_SELF_SUSPEND → pload 0 ≠ d.PM_REQUEST_SUSPEND →
      pload 0 ≠ d.PM_FORCE_POWERDOWN → pload 0 ≠ d.PM_ABORT_SUSPEND →
      pload 0 = d.PM_REQUEST_WAKEUP →
      PmProcessApiCall d e w master pload
        = PmRequestWakeup d e w master (pload 1) (pload 2 &&& 0x1)
            (pload 3 * 2 ^ 32 + (pload 2 &&& not32 0x1)) (pload 4)) ∧
    (pload 5 * 2 ^ 32 + pload 4 < 2 ^ 64 ∧
      (pload 5 * 2 ^ 32 + pload 4) >>> 32 = pload 5 ∧
      (pload 5 * 2 ^ 32 + pload 4) % 2 ^ 32 = pload 4 ∧
      pload 5 * 2 ^ 32 + pload 4 = pload 5 <<< 32 ||| pload 4) ∧
    (pload 3 * 2 ^ 32 + (pload 2 &&& not32 0x1) < 2 ^ 64 ∧
      (pload 3 * 2 ^ 32 + (pload 2 &&& not32 0x1)).testBit 0 = false ∧
      (pload 3 * 2 ^ 32 + (pload 2 &&& not32 0x1)) >>> 32 = pload 3 ∧
      (pload 3 * 2 ^ 32 + (pload 2 &&& not32 0x1)) % 2 ^ 32 = pload 2 &&& not32 0x1 ∧
      (∀ i, (pload 2 &&& not32 0x1).testBit i = (decide (i ≠ 0) && (pload 2).testBit i)) ∧
      pload 3 * 2 ^ 32 + (pload 2 &&& not32 0x1)
        = pload 3 <<< 32 ||| (pload 2 &&& not32 0x1) ∧
      pload 2 &&& 0x1 = pload 2 % 2) := by
  have hlow := and_not32_one_bounds (pload 2)
  have hs5 : (pload 5 <<< 32) % 2 ^ 64 = pload 5 * 2 ^ 32 := by
    rw [Nat.shiftLeft_eq]
    apply Nat.mod_eq_of_lt
    omega
  have hs3 : (pload 3 <<< 32) % 2 ^ 64 = pload 3 * 2 ^ 32 := by
    rw [Nat.shiftLeft_eq]
    apply Nat.mod_eq_of_lt
    omega
  have ha5 : (pload 5 * 2 ^ 32 + pload 4) % 2 ^ 64 = pload 5 * 2 ^ 32 + pload 4 := by
    apply Nat.mod_eq_of_lt
    omega
  have ha3 : (pload 3 * 2 ^ 32 + (pload 2 &&& not32 0x1)) % 2 ^ 64
      = pload 3 * 2 ^ 32 + (pload 2 &&& not32 0x1) := by
    apply Nat.mod_eq_of_lt
    omega
  refine ⟨?_, ?_, ⟨?_, ?_, ?_, ?_⟩, ⟨?_, ?_, ?_, ?_, ?_, ?_, ?_⟩⟩
  · intro hid
    simp only [PmProcessApiCall, if_pos hid, hs5, ha5]
  · intro n1 n2 n3 n4 hid
    simp only [PmProcessApiCall, if_neg n1, if_neg n2, if_neg n3, if_neg n4, if_pos hid, hs3,
      ha3]
  · omega
  · rw [Nat.shiftRight_eq_div_pow]
    omega
  · omega
  · exact (shiftLeft_or_eq_add _ _ 32 h4).symm
  · omega
  · have h0 : (pload 3 * 2 ^ 32 + (pload 2 &&& not32 0x1)) % 2 = 0 := by omega
    rw [Nat.testBit_zero, h0]
    decide
  · rw [Nat.shiftRight_eq_div_pow]
    omega
  · omega
  · intro i
    exact and_not32_one_testBit (pload 2) i h2
  · exact (shiftLeft_or_eq_add _ _ 32 hlow.1).symm
  · exact Nat.and_one_is_mod (pload 2)

/-- C26, evaluated: a wake-up payload with low word `0x1001` (address bit 0 is
the setAddress flag) and high word 2. -/
theorem PmProcessApiCall_addresses_witness :
    PmProcessApiCall exDefs exExtern exWorld 0 (payload [10, 11, 0x1001, 2, 3, 0])
      = PmRequestWakeup exDefs exExtern exWorld 0 11 (0x1001 &&& 0x1)
          (2 * 2 ^ 32 + (0x1001 &&& not32 0x1)) 3 :=
  (PmProcessApiCall_addresses exDefs exExtern exWorld 0 (payload [10, 11, 0x1001, 2, 3, 0])
    (by decide) (by decide) (by decide) (by decide)).2.1
    (by decide) (by decide) (by decide) (by decide) (by decide)

/-- Writing the info word twice keeps the second value. -/
theorem setReqInfo_setReqInfo (w : PmWorld) (req a b : Nat) :
    (w.setReqInfo req a).setReqInfo req b = w.setReqInfo req b := by
  simp [PmWorld.setReqInfo]

/-- The info word after a write. -/
theorem setReqInfo_info (w : PmWorld) (req a : Nat) :
    ((w.setReqInfo req a).reqs req).info = a := by
  simp [PmWorld.setReqInfo]

/-- Fields a write of the info word leaves alone. -/
theorem setReqInfo_frame (w : PmWorld) (req a : Nat) :
    ((w.setReqInfo req a).reqs req).info = a ∧
    ((w.setReqInfo req a).reqs req).slave = (w.reqs req).slave ∧
    ((w.setReqInfo req a).reqs req).latencyReq = (w.reqs req).latencyReq ∧
    (∀ r, r ≠ req → (w.setReqInfo req a).reqs r = w.reqs r) ∧
    (w.setReqInfo req a).nodes = w.nodes ∧ (w.setReqInfo req a).procs = w.procs ∧
    (w.setReqInfo req a).slaves = w.slaves ∧ (w.setReqInfo req a).masters = w.masters ∧
    (w.setReqInfo req a).mem = w.mem := by
  refine ⟨?_, ?_, ?_, ?_, rfl, rfl, rfl, rfl, rfl⟩
  · simp [PmWorld.setReqInfo]
  · simp [PmWorld.setReqInfo]
  · simp [PmWorld.setReqInfo]
  · intro r hr
    simp [PmWorld.setReqInfo, Function.update_noteq hr]

/-- The word `PmSetWakeupSource` stores in `info`. -/
theorem wakeup_info_cases (info mask enable : Nat) :
    (enable = 0 →
      (if 0 = enable then info &&& not32 mask else info ||| mask) = info &&& not32 mask) ∧
    (enable ≠ 0 →
      (if 0 = enable then info &&& not32 mask else info ||| mask) = info ||| mask) := by
  constructor
  · intro h; simp [h]
  · intro h
    have h2 : ¬ (0 = enable) := fun h3 => h h3.symm
    simp [h2]

/-- C27: `PmSetWakeupSource` replies `XST_INVALID_PARAM` for a target node that is
neither the master's node id nor one of its processors, else
`XST_PM_NO_ACCESS` when the (master, source slave) Requirement is missing, else
`XST_NO_FEATURE` when the slave has no wake capability, and changes nothing in
these cases.  Otherwise it replies `XST_SUCCESS` and writes only the info word
of that Requirement: the `PM_MASTER_WAKEUP_REQ_MASK` bits are cleared for
`enable = 0` and set for every other `enable`, every other bit of the 32-bit
word, every other member and every other Requirement are unchanged, and
repeating the call on the resulting state (same Requirement and processor
lookups) leaves that state as it is. -/
theorem PmSetWakeupSource_contract (d : PmDefs) (e : PmExtern) (w : PmWorld)
    (master targetNode sourceNode enable : Nat) :
    (targetNode ≠ (w.masters master).nid ∧
        e.PmGetProcOfThisMaster w master targetNode = none →
      PmSetWakeupSource d e w master targetNode sourceNode enable
        = ⟨w, [PmEffect.IPI_RESPONSE1 (w.masters master).buffer d.XST_INVALID_PARAM]⟩) ∧
    (¬ (targetNode ≠ (w.masters master).nid ∧
        e.PmGetProcOfThisMaster w master targetNode = none) →
      e.PmGetRequirementForSlave w master sourceNode = none →
      PmSetWakeupSource d e w master targetNode sourceNode enable
        = ⟨w, [PmEffect.IPI_RESPONSE1 (w.masters master).buffer d.XST_PM_NO_ACCESS]⟩) ∧
    (∀ r, ¬ (targetNode ≠ (w.masters master).nid ∧
        e.PmGetProcOfThisMaster w master targetNode = none) →
      e.PmGetRequirementForSlave w master sourceNode = some r →
      (w.slaves (w.reqs r).slave).wake = none →
      PmSetWakeupSource d e w master targetNode sourceNode enable
        = ⟨w, [PmEffect.IPI_RESPONSE1 (w.masters master).buffer d.XST_NO_FEATURE]⟩) ∧
    (∀ r, ¬ (targetNode ≠ (w.masters master).nid ∧
        e.PmGetProcOfThisMaster w master targetNode = none) →
      e.PmGetRequirementForSlave w master sourceNode = some r →
      (w.slaves (w.reqs r).slave).wake ≠ none →
      (PmSetWakeupSource d e w master targetNode sourceNode enable).trace
        = [PmEffect.IPI_RESPONSE1 (w.masters master).buffer d.XST_SUCCESS] ∧
      (PmSetWakeupSource d e w master targetNode sourceNode enable).world
        = w.setReqInfo r (if 0 = enable
            then (w.reqs r).info &&& not32 d.PM_MASTER_WAKEUP_REQ_MASK
            else (w.reqs r).info ||| d.PM_MASTER_WAKEUP_REQ_MASK) ∧
      (enable = 0 →
        ((PmSetWakeupSource d e w master targetNode sourceNode enable).world.reqs r).info
          &&& d.PM_MASTER_WAKEUP_REQ_MASK = 0) ∧
      (enable ≠ 0 →
        ((PmSetWakeupSource d e w master targetNode sourceNode enable).world.reqs r).info
          &&& d.PM_MASTER_WAKEUP_REQ_MASK = d.PM_MASTER_WAKEUP_REQ_MASK) ∧
      (∀ i, i < 32 → (d.PM_MASTER_WAKEUP_REQ_MASK).testBit i = false →
        (((PmSetWakeupSource d e w master targetNode sourceNode enable).world.reqs
          r).info).testBit i = ((w.reqs r).info).testBit i) ∧
      ((PmSetWakeupSource d e w master targetNode sourceNode enable).world.reqs r).slave
        = (w.reqs r).slave ∧
      ((PmSetWakeupSource d e w master targetNode sourceNode enable).world.reqs r).latencyReq
        = (w.reqs r).latencyReq ∧
      (∀ r1, r1 ≠ r →
        (PmSetWakeupSource d e w master targetNode sourceNode enable).world.reqs r1
          = w.reqs r1) ∧
      (PmSetWakeupSource d e w master targetNode sourceNode enable).world.nodes = w.nodes ∧
      (PmSetWakeupSource d e w master targetNode sourceNode enable).world.procs = w.procs ∧
      (PmSetWakeupSource d e w master targetNode sourceNode enable).world.slaves = w.slaves ∧
      (PmSetWakeupSource d e w master targetNode sourceNode enable).world.masters
        = w.masters ∧
      (PmSetWakeupSource d e w master targetNode sourceNode enable).world.mem = w.mem ∧
      (e.PmGetRequirementForSlave
          (PmSetWakeupSource d e w master targetNode sourceNode enable).world master
          sourceNode = some r →
        e.PmGetProcOfThisMaster
          (PmSetWakeupSource d e w master targetNode sourceNode enable).world master
          targetNode = e.PmGetProcOfThisMaster w master targetNode →
        PmSetWakeupSource d e
          (PmSetWakeupSource d e w master targetNode sourceNode enable).world
          master targetNode sourceNode enable
          = PmSetWakeupSource d e w master targetNode sourceNode enable)) := by
  refine ⟨?_, ?_, ?_, ?_⟩
  · intro ht
    simp [PmSetWakeupSource, ht]
  · intro ht hreq
    simp only [PmSetWakeupSource, if_neg ht, hreq]
  · intro r ht hreq hw
    simp only [PmSetWakeupSource, if_neg ht, hreq, hw, if_true]
  · intro r ht hreq hw
    have hres : PmSetWakeupSource d e w master targetNode sourceNode enable
        = ⟨w.setReqInfo r (if 0 = enable
            then (w.reqs r).info &&& not32 d.PM_MASTER_WAKEUP_REQ_MASK
            else (w.reqs r).info ||| d.PM_MASTER_WAKEUP_REQ_MASK),
           [PmEffect.IPI_RESPONSE1 (w.masters master).buffer d.XST_SUCCESS]⟩ := by
      simp only [PmSetWakeupSource, if_neg ht, hreq, if_neg hw]
      by_cases he : 0 = enable <;> simp [he, PmWorld.setReqInfo]
    have hfr := setReqInfo_frame w r (if 0 = enable
            then (w.reqs r).info &&& not32 d.PM_MASTER_WAKEUP_REQ_MASK
            else (w.reqs r).info ||| d.PM_MASTER_WAKEUP_REQ_MASK)
    have hc := wakeup_info_cases (w.reqs r).info d.PM_MASTER_WAKEUP_REQ_MASK enable
    rw [hres]
    refine ⟨rfl, rfl, ?_, ?_, ?_, hfr.2.1, hfr.2.2.1, hfr.2.2.2.1, rfl, rfl, rfl, rfl, rfl, ?_⟩
    · intro he
      show ((w.setReqInfo r _).reqs r).info &&& _ = 0
      rw [hfr.1, hc.1 he]
      exact and_not32_and_mask _ _
    · intro he
      show ((w.setReqInfo r _).reqs r).info &&& _ = _
      rw [hfr.1, hc.2 he]
      apply Nat.eq_of_testBit_eq
      intro i
      rw [Nat.testBit_and, Nat.testBit_or]
      cases (d.PM_MASTER_WAKEUP_REQ_MASK).testBit i <;> simp
    · intro i hi hm
      show (((w.setReqInfo r _).reqs r).info).testBit i = _
      rw [hfr.1]
      by_cases he : enable = 0
      · rw [hc.1 he, and_not32_testBit, hm]
        simp [hi]
      · rw [hc.2 he, Nat.testBit_or, hm]
        simp
    · intro hreq2 hproc2
      show PmSetWakeupSource d e (w.setReqInfo r _) master targetNode sourceNode enable = _
      have hreq3 : e.PmGetRequirementForSlave (w.setReqInfo r (if 0 = enable
            then (w.reqs r).info &&& not32 d.PM_MASTER_WAKEUP_REQ_MASK
            else (w.reqs r).info ||| d.PM_MASTER_WAKEUP_REQ_MASK)) master sourceNode
          = some r := hreq2
      have hproc3 : e.PmGetProcOfThisMaster (w.setReqInfo r (if 0 = enable
            then (w.reqs r).info &&& not32 d.PM_MASTER_WAKEUP_REQ_MASK
            else (w.reqs r).info ||| d.PM_MASTER_WAKEUP_REQ_MASK)) master targetNode
          = e.PmGetProcOfThisMaster w master targetNode := hproc2
      have ht2 : ¬ (targetNode ≠ ((w.setReqInfo r (if 0 = enable
            then (w.reqs r).info &&& not32 d.PM_MASTER_WAKEUP_REQ_MASK
            else (w.reqs r).info ||| d.PM_MASTER_WAKEUP_REQ_MASK)).masters master).nid ∧
          e.PmGetProcOfThisMaster (w.setReqInfo r (if 0 = enable
            then (w.reqs r).info &&& not32 d.PM_MASTER_WAKEUP_REQ_MASK
            else (w.reqs r).info ||| d.PM_MASTER_WAKEUP_REQ_MASK)) master targetNode
            = none) := by
        rw [hproc3]
        exact ht
      have hw2 : ((w.setReqInfo r (if 0 = enable
            then (w.reqs r).info &&& not32 d.PM_MASTER_WAKEUP_REQ_MASK
            else (w.reqs r).info ||| d.PM_MASTER_WAKEUP_REQ_MASK)).slaves
          ((w.setReqInfo r (if 0 = enable
            then (w.reqs r).info &&& not32 d.PM_MASTER_WAKEUP_REQ_MASK
            else (w.reqs r).info ||| d.PM_MASTER_WAKEUP_REQ_MASK)).reqs r).slave).wake
          ≠ none := by
        rw [hfr.2.1]
        exact hw
      simp only [PmSetWakeupSource, if_neg ht2, hreq3, if_neg hw2]
      by_cases he : 0 = enable
      · simp only [if_pos he, setReqInfo_info, setReqInfo_setReqInfo]
        have hidem : ((w.reqs r).info &&& not32 d.PM_MASTER_WAKEUP_REQ_MASK)
            &&& not32 d.PM_MASTER_WAKEUP_REQ_MASK
            = (w.reqs r).info &&& not32 d.PM_MASTER_WAKEUP_REQ_MASK := by
          rw [Nat.and_assoc, Nat.and_self]
        rw [hidem]
        rfl
      · simp only [if_neg he, setReqInfo_info, setReqInfo_setReqInfo]
        have hidem : ((w.reqs r).info ||| d.PM_MASTER_WAKEUP_REQ_MASK)
            ||| d.PM_MASTER_WAKEUP_REQ_MASK
            = (w.reqs r).info ||| d.PM_MASTER_WAKEUP_REQ_MASK := by
          rw [Nat.or_assoc, Nat.or_self]
        rw [hidem]
        rfl

/-- C27, evaluated: master 0 enables slave 0 (node id 40) as wake-up source for
itself (node id 20); the wake-up request bit is set. -/
theorem PmSetWakeupSource_contract_witness :
    ((PmSetWakeupSource exDefs exExtern exWorld 0 20 40 1).world.reqs 0).info
        &&& exDefs.PM_MASTER_WAKEUP_REQ_MASK = exDefs.PM_MASTER_WAKEUP_REQ_MASK :=
  ((PmSetWakeupSource_contract exDefs exExtern exWorld 0 20 40 1).2.2.2 0 (by decide)
    (by decide) (by decide)).2.2.2.1 (by decide)

/-- Bits of the union over the in-use Requirements. -/
theorem unionInUse_testBit (d : PmDefs) (w : PmWorld) (rs : List Nat) (i : Nat) :
    (unionInUse d w rs).testBit i
      = rs.any (fun r => decide ((w.reqs r).info &&& d.PM_MASTER_USING_SLAVE_MASK ≠ 0) &&
          (w.requestedCaps r).testBit i) := by
  induction rs with
  | nil => simp [unionInUse]
  | cons r rs ih =>
    have hstep : unionInUse d w (r :: rs)
        = (if (w.reqs r).info &&& d.PM_MASTER_USING_SLAVE_MASK = 0 then unionInUse d w rs
           else w.requestedCaps r ||| unionInUse d w rs) := rfl
    rw [hstep, List.any_cons, ← ih]
    by_cases h : (w.reqs r).info &&& d.PM_MASTER_USING_SLAVE_MASK = 0
    · simp [h]
    · simp [h, Nat.testBit_or]

/-- When exactly the Requirements `a` and `b` of the list are in use, the union
is the OR of their requested capabilities. -/
theorem unionInUse_two (d : PmDefs) (w : PmWorld) (rs : List Nat) (a b : Nat)
    (ha : a ∈ rs) (hb : b ∈ rs)
    (huse : ∀ r ∈ rs, ((w.reqs r).info &&& d.PM_MASTER_USING_SLAVE_MASK ≠ 0 ↔ r = a ∨ r = b)) :
    unionInUse d w rs = w.requestedCaps a ||| w.requestedCaps b := by
  apply Nat.eq_of_testBit_eq
  intro i
  rw [unionInUse_testBit, Nat.testBit_or, Bool.eq_iff_iff]
  simp only [List.any_eq_true, Bool.and_eq_true, decide_eq_true_eq, Bool.or_eq_true]
  constructor
  · rintro ⟨r, hr, hu, hbit⟩
    rcases (huse r hr).mp hu with h | h
    · left; rw [← h]; exact hbit
    · right; rw [← h]; exact hbit
  · rintro (h | h)
    · exact ⟨a, ha, (huse a ha).mpr (Or.inl rfl), h⟩
    · exact ⟨b, hb, (huse b hb).mpr (Or.inr rfl), h⟩

/-- The requirement update of the specification, for a valid capability:
success, no Requirement touched, the requested capability recorded, and the
slave's effective capability recomputed as the union over its in-use
Requirements. -/
theorem specRequirementUpdate_valid (d : PmDefs) (valid : Nat → Nat → Bool)
    (reqsOf : Nat → List Nat) (err req caps : Nat) (w : PmWorld)
    (hv : valid (w.reqs req).slave caps = true) :
    (specRequirementUpdate d valid reqsOf err req caps w).1 = d.XST_SUCCESS ∧
    (specRequirementUpdate d valid reqsOf err req caps w).2.reqs = w.reqs ∧
    (specRequirementUpdate d valid reqsOf err req caps w).2.requestedCaps req = caps ∧
    (∀ r, r ≠ req →
      (specRequirementUpdate d valid reqsOf err req caps w).2.requestedCaps r
        = w.requestedCaps r) ∧
    (specRequirementUpdate d valid reqsOf err req caps w).2.effectiveCaps (w.reqs req).slave
      = unionInUse d (specRequirementUpdate d valid reqsOf err req caps w).2
          (reqsOf (w.reqs req).slave) := by
  have hne : ∀ r s : Nat, 3 * r + 1 ≠ 3 * s + 2 := fun r s => by omega
  have hcaps : ∀ r, (specRequirementUpdate d valid reqsOf err req caps w).2.requestedCaps r
      = if r = req then caps else w.requestedCaps r := by
    intro r
    simp only [specRequirementUpdate, hv, if_true, PmWorld.requestedCaps]
    rw [Function.update_noteq (hne r _)]
    by_cases h : r = req
    · subst h; simp
    · have h2 : 3 * r + 1 ≠ 3 * req + 1 := by omega
      rw [Function.update_noteq h2, if_neg h]
  have hreqs : (specRequirementUpdate d valid reqsOf err req caps w).2.reqs = w.reqs := by
    simp only [specRequirementUpdate, hv, if_true]
  refine ⟨?_, hreqs, ?_, ?_, ?_⟩
  · simp only [specRequirementUpdate, hv, if_true]
  · rw [hcaps, if_pos rfl]
  · intro r hr
    rw [hcaps, if_neg hr]
  · have heff : (specRequirementUpdate d valid reqsOf err req caps w).2.effectiveCaps
        (w.reqs req).slave
        = unionInUse d { w with mem := Function.update w.mem (3 * req + 1) caps }
            (reqsOf (w.reqs req).slave) := by
      simp only [specRequirementUpdate, hv, if_true, PmWorld.effectiveCaps,
        Function.update_same]
    rw [heff]
    apply Nat.eq_of_testBit_eq
    intro i
    rw [unionInUse_testBit, unionInUse_testBit]
    congr 1
    funext r
    rw [hreqs, hcaps r]
    congr 2
    simp only [PmWorld.requestedCaps]
    by_cases h : r = req
    · subst h; simp
    · have h2 : 3 * r + 1 ≠ 3 * req + 1 := by omega
      rw [Function.update_noteq h2, if_neg h]

/-- Setting the in-use bits makes the in-use test of the release path succeed. -/
theorem using_mask_set_left (mask info : Nat) (hmask : mask ≠ 0) :
    (info ||| mask) &&& mask ≠ 0 := by
  rw [Nat.and_comm]
  exact using_mask_set mask info hmask

/-- `PmRequestNode` with the requirement update of the specification, for a
Requirement that is not in use and a valid capability: only the in-use bits of
that Requirement and its requested capability change, and the slave's
effective capability is the union over its in-use Requirements. -/
theorem PmRequestNode_spec_update (d : PmDefs) (e : PmExtern) (w : PmWorld)
    (valid : Nat → Nat → Bool) (reqsOf : Nat → List Nat)
    (err master node caps qos ack r : Nat)
    (hupd : e.PmRequirementUpdate = specRequirementUpdate d valid reqsOf err)
    (hreq : e.PmGetRequirementForSlave w master node = some r)
    (hfree : (w.reqs r).info &&& d.PM_MASTER_USING_SLAVE_MASK = 0)
    (hv : valid (w.reqs r).slave caps = true) :
    (∀ r1, ((PmRequestNode d e w master node caps qos ack).world.reqs r1).slave
      = (w.reqs r1).slave) ∧
    ((PmRequestNode d e w master node caps qos ack).world.reqs r).info
      = (w.reqs r).info ||| d.PM_MASTER_USING_SLAVE_MASK ∧
    (∀ r1, r1 ≠ r → ((PmRequestNode d e w master node caps qos ack).world.reqs r1).info
      = (w.reqs r1).info) ∧
    (PmRequestNode d e w master node caps qos ack).world.requestedCaps r = caps ∧
    (∀ r1, r1 ≠ r → (PmRequestNode d e w master node caps qos ack).world.requestedCaps r1
      = w.requestedCaps r1) ∧
    (PmRequestNode d e w master node caps qos ack).world.effectiveCaps (w.reqs r).slave
      = unionInUse d (PmRequestNode d e w master node caps qos ack).world
          (reqsOf (w.reqs r).slave) := by
  have hfree2 : d.PM_MASTER_USING_SLAVE_MASK &&& (w.reqs r).info = 0 := by
    rw [Nat.and_comm]; exact hfree
  have hw := (PmRequestNode_sets_in_use_first d e w master node caps qos ack r hreq hfree2).1
  rw [hupd] at hw
  have hfr := setReqInfo_frame w r ((w.reqs r).info ||| d.PM_MASTER_USING_SLAVE_MASK)
  have hv2 : valid ((w.setReqInfo r
      ((w.reqs r).info ||| d.PM_MASTER_USING_SLAVE_MASK)).reqs r).slave caps = true := by
    rw [hfr.2.1]; exact hv
  have hs := specRequirementUpdate_valid d valid reqsOf err r caps
    (w.setReqInfo r ((w.reqs r).info ||| d.PM_MASTER_USING_SLAVE_MASK)) hv2
  rw [hfr.2.1] at hs
  rw [hw]
  refine ⟨?_, ?_, ?_, hs.2.2.1, ?_, hs.2.2.2.2⟩
  · intro r1
    rw [hs.2.1]
    by_cases h : r1 = r
    · subst h; exact hfr.2.1
    · rw [hfr.2.2.2.1 r1 h]
  · rw [hs.2.1]; exact hfr.1
  · intro r1 h
    rw [hs.2.1, hfr.2.2.2.1 r1 h]
  · intro r1 h
    rw [hs.2.2.2.1 r1 h]
    rfl

/-- `PmReleaseNode` with the requirement update of the specification, for a
Requirement in use: its requested capability becomes 0, the slave's effective
capability is recomputed by the update (on the state `u` the update leaves,
where the in-use bits are still set), then the in-use bits are cleared. -/
theorem PmReleaseNode_spec_update (d : PmDefs) (e : PmExtern) (w : PmWorld)
    (valid : Nat → Nat → Bool) (reqsOf : Nat → List Nat)
    (err master node r : Nat)
    (hupd : e.PmRequirementUpdate = specRequirementUpdate d valid reqsOf err)
    (hreq : e.PmGetRequirementForSlave w master node = some r)
    (hused : (w.reqs r).info &&& d.PM_MASTER_USING_SLAVE_MASK ≠ 0)
    (hv : valid (w.reqs r).slave 0 = true) :
    (∀ r1, ((PmReleaseNode d e w master node).world.reqs r1).slave = (w.reqs r1).slave) ∧
    ((PmReleaseNode d e w master node).world.reqs r).info
      = (w.reqs r).info &&& not32 d.PM_MASTER_USING_SLAVE_MASK ∧
    (∀ r1, r1 ≠ r → ((PmReleaseNode d e w master node).world.reqs r1).info
      = (w.reqs r1).info) ∧
    (PmReleaseNode d e w master node).world.requestedCaps r = 0 ∧
    (∀ r1, r1 ≠ r → (PmReleaseNode d e w master node).world.requestedCaps r1
      = w.requestedCaps r1) ∧
    (PmReleaseNode d e w master node).world.effectiveCaps (w.reqs r).slave
      = unionInUse d (specRequirementUpdate d valid reqsOf err r 0 w).2
          (reqsOf (w.reqs r).slave) := by
  have hused2 : ¬ (0 = (w.reqs r).info &&& d.PM_MASTER_USING_SLAVE_MASK) :=
    fun h => hused h.symm
  have hs := specRequirementUpdate_valid d valid reqsOf err r 0 w hv
  have hw : (PmReleaseNode d e w master node).world
      = (specRequirementUpdate d valid reqsOf err r 0 w).2.setReqInfo r
          (((specRequirementUpdate d valid reqsOf err r 0 w).2.reqs r).info
            &&& not32 d.PM_MASTER_USING_SLAVE_MASK) := by
    simp [PmReleaseNode, hreq, hused2, hupd]
  have hfr := setReqInfo_frame (specRequirementUpdate d valid reqsOf err r 0 w).2 r
    (((specRequirementUpdate d valid reqsOf err r 0 w).2.reqs r).info
      &&& not32 d.PM_MASTER_USING_SLAVE_MASK)
  rw [hw]
  refine ⟨?_, ?_, ?_, ?_, ?_, ?_⟩
  · intro r1
    by_cases h : r1 = r
    · subst h; rw [hfr.2.1, hs.2.1]
    · rw [hfr.2.2.2.1 r1 h, hs.2.1]
  · rw [hfr.1, hs.2.1]
  · intro r1 h
    rw [hfr.2.2.2.1 r1 h, hs.2.1]
  · exact hs.2.2.1
  · intro r1 h
    exact hs.2.2.2.1 r1 h
  · exact hs.2.2.2.2

/-- C23: two Requirements `r1` and `r2` (of two distinct masters) on the same
slave, no Requirement of the slave in use initially.  With the requirement
update of the specification and capabilities valid for the slave: after
`PmRequestNode(capA)` by master1 and `PmRequestNode(capB)` by master2 the
slave's effective capability is `capA OR capB`, and after a subsequent
`PmReleaseNode` by master1 it is `capB` alone; each time it equals the union
over the Requirements marked in-use. -/
theorem effective_capability_union (d : PmDefs) (e : PmExtern) (w : PmWorld)
    (valid : Nat → Nat → Bool) (reqsOf : Nat → List Nat)
    (err master1 master2 node r1 r2 slave capA capB qos1 ack1 qos2 ack2 : Nat)
    (hupd : e.PmRequirementUpdate = specRequirementUpdate d valid reqsOf err)
    (hmask : d.PM_MASTER_USING_SLAVE_MASK ≠ 0)
    (hreq1 : ∀ w1, e.PmGetRequirementForSlave w1 master1 node = some r1)
    (hreq2 : ∀ w1, e.PmGetRequirementForSlave w1 master2 node = some r2)
    (hr : r1 ≠ r2)
    (hs1 : (w.reqs r1).slave = slave) (hs2 : (w.reqs r2).slave = slave)
    (hmem1 : r1 ∈ reqsOf slave) (hmem2 : r2 ∈ reqsOf slave)
    (hfree : ∀ r ∈ reqsOf slave, (w.reqs r).info &&& d.PM_MASTER_USING_SLAVE_MASK = 0)
    (hvA : valid slave capA = true) (hvB : valid slave capB = true)
    (hv0 : valid slave 0 = true) :
    (PmRequestNode d e (PmRequestNode d e w master1 node capA qos1 ack1).world
        master2 node capB qos2 ack2).world.effectiveCaps slave = capA ||| capB ∧
    unionInUse d (PmRequestNode d e (PmRequestNode d e w master1 node capA qos1 ack1).world
        master2 node capB qos2 ack2).world (reqsOf slave) = capA ||| capB ∧
    (PmReleaseNode d e (PmRequestNode d e (PmRequestNode d e w master1 node capA qos1
        ack1).world master2 node capB qos2 ack2).world master1 node).world.effectiveCaps slave
      = capB ∧
    unionInUse d (PmReleaseNode d e (PmRequestNode d e (PmRequestNode d e w master1 node capA
        qos1 ack1).world master2 node capB qos2 ack2).world master1 node).world (reqsOf slave)
      = capB := by
  -- first request
  have A1 := PmRequestNode_spec_update d e w valid reqsOf err master1 node capA qos1 ack1 r1
    hupd (hreq1 w) (hfree r1 hmem1) (by rw [hs1]; exact hvA)
  generalize (PmRequestNode d e w master1 node capA qos1 ack1).world = W1 at A1 ⊢
  obtain ⟨a1s, a1i, a1o, a1c, -, -⟩ := A1
  -- second request
  have hfree2 : (W1.reqs r2).info &&& d.PM_MASTER_USING_SLAVE_MASK = 0 := by
    rw [a1o r2 (Ne.symm hr)]; exact hfree r2 hmem2
  have hsl2 : (W1.reqs r2).slave = slave := by rw [a1s]; exact hs2
  have A2 := PmRequestNode_spec_update d e W1 valid reqsOf err master2 node capB qos2 ack2 r2
    hupd (hreq2 W1) hfree2 (by rw [hsl2]; exact hvB)
  rw [hsl2] at A2
  generalize (PmRequestNode d e W1 master2 node capB qos2 ack2).world = W2 at A2 ⊢
  obtain ⟨a2s, a2i, a2o, a2c, a2co, a2e⟩ := A2
  have hi1 : (W2.reqs r1).info = (w.reqs r1).info ||| d.PM_MASTER_USING_SLAVE_MASK := by
    rw [a2o r1 hr, a1i]
  have hi2 : (W2.reqs r2).info = (w.reqs r2).info ||| d.PM_MASTER_USING_SLAVE_MASK := by
    rw [a2i, a1o r2 (Ne.symm hr)]
  have hio : ∀ r, r ≠ r1 → r ≠ r2 → (W2.reqs r).info = (w.reqs r).info := by
    intro r h1 h2
    rw [a2o r h2, a1o r h1]
  have hc1 : W2.requestedCaps r1 = capA := by rw [a2co r1 hr, a1c]
  have huse2 : ∀ r ∈ reqsOf slave,
      ((W2.reqs r).info &&& d.PM_MASTER_USING_SLAVE_MASK ≠ 0 ↔ r = r1 ∨ r = r2) := by
    intro r hmem
    by_cases h1 : r = r1
    · subst h1
      rw [hi1]
      exact ⟨fun _ => Or.inl rfl, fun _ => using_mask_set_left _ _ hmask⟩
    · by_cases h2 : r = r2
      · subst h2
        rw [hi2]
        exact ⟨fun _ => Or.inr rfl, fun _ => using_mask_set_left _ _ hmask⟩
      · rw [hio r h1 h2, hfree r hmem]
        simp [h1, h2]
  have hU2 : unionInUse d W2 (reqsOf slave) = capA ||| capB := by
    rw [unionInUse_two d W2 (reqsOf slave) r1 r2 hmem1 hmem2 huse2, hc1, a2c]
  -- release by master1
  have hsl1 : (W2.reqs r1).slave = slave := by rw [a2s, a1s]; exact hs1
  have hused1 : (W2.reqs r1).info &&& d.PM_MASTER_USING_SLAVE_MASK ≠ 0 :=
    (huse2 r1 hmem1).mpr (Or.inl rfl)
  have hv0b : valid (W2.reqs r1).slave 0 = true := by rw [hsl1]; exact hv0
  have B := PmReleaseNode_spec_update d e W2 valid reqsOf err master1 node r1 hupd (hreq1 W2)
    hused1 hv0b
  have hu := specRequirementUpdate_valid d valid reqsOf err r1 0 W2 hv0b
  rw [hsl1] at B
  generalize (PmReleaseNode d e W2 master1 node).world = W3 at B ⊢
  obtain ⟨-, b3i, b3o, -, b3co, b3e⟩ := B
  have huseU : ∀ r ∈ reqsOf slave,
      (((specRequirementUpdate d valid reqsOf err r1 0 W2).2.reqs r).info
        &&& d.PM_MASTER_USING_SLAVE_MASK ≠ 0 ↔ r = r1 ∨ r = r2) := by
    intro r hmem
    rw [hu.2.1]
    exact huse2 r hmem
  have hUu : unionInUse d (specRequirementUpdate d valid reqsOf err r1 0 W2).2 (reqsOf slave)
      = capB := by
    rw [unionInUse_two d _ (reqsOf slave) r1 r2 hmem1 hmem2 huseU, hu.2.2.1,
      hu.2.2.2.1 r2 (Ne.symm hr), a2c, Nat.zero_or]
  have huse3 : ∀ r ∈ reqsOf slave,
      ((W3.reqs r).info &&& d.PM_MASTER_USING_SLAVE_MASK ≠ 0 ↔ r = r2 ∨ r = r2) := by
    intro r hmem
    by_cases h1 : r = r1
    · subst h1
      rw [b3i, and_not32_and_mask]
      simp [hr]
    · rw [b3o r h1]
      rw [huse2 r hmem]
      simp [h1]
  have hU3 : unionInUse d W3 (reqsOf slave) = capB := by
    rw [unionInUse_two d W3 (reqsOf slave) r2 r2 hmem2 hmem2 huse3,
      b3co r2 (Ne.symm hr), a2c, Nat.or_self]
  exact ⟨by rw [a2e, hU2], hU2, by rw [b3e, hUu], hU3⟩

/-- C23, evaluated: masters 0 and 1 request slave 0 (node id 40) with
capabilities 1 and 4, then master 0 releases it. -/
theorem effective_capability_union_witness :
    (PmRequestNode exDefs exExternSpec (PmRequestNode exDefs exExternSpec exWorld 0 40 1 0
        2).world 1 40 4 0 2).world.effectiveCaps 0 = 1 ||| 4 ∧
    (PmReleaseNode exDefs exExternSpec (PmRequestNode exDefs exExternSpec
        (PmRequestNode exDefs exExternSpec exWorld 0 40 1 0 2).world 1 40 4 0 2).world
        0 40).world.effectiveCaps 0 = 4 :=
  have h := effective_capability_union exDefs exExternSpec exWorld
    (fun _ caps => decide (caps < 8)) (fun _ => [0, 1]) 19 0 1 40 0 1 0 1 4 0 2 0 2
    rfl (by decide) (fun _ => rfl) (fun _ => rfl) (by decide) rfl rfl (by decide) (by decide)
    (by decide) (by decide) (by decide) (by decide)
  ⟨h.1, h.2.2.1⟩

end PmCore

namespace Fsbl

/-- C28: `XFsbl_ResetValidation` returns `XFSBL_ERROR_SYSTEM_WDT_RESET` exactly
when the reset-reason register has the PMU system-reset bits set, the PMU
error-status register has the LPD watchdog bits set and the FSBL error-status
register holds `XFSBL_RUNNING`; in that case it writes no register.  In every
other case it returns `XFSBL_SUCCESS` and afterwards the FSBL error-status
register holds `XFSBL_RUNNING`, written exactly when it did not hold that
value already; no other register is written. -/
theorem XFsbl_ResetValidation_contract (c : XFsblDefs) (regs : Regs)
    (hne : c.XFSBL_ERROR_SYSTEM_WDT_RESET ≠ c.XFSBL_SUCCESS) :
    ((XFsbl_ResetValidation c regs).status = c.XFSBL_ERROR_SYSTEM_WDT_RESET ↔
      (regs c.CRL_APB_RESET_REASON &&& c.CRL_APB_RESET_REASON_PMU_SYS_RESET_MASK
          = c.CRL_APB_RESET_REASON_PMU_SYS_RESET_MASK ∧
        regs c.PMU_GLOBAL_ERROR_STATUS_1 &&& c.PMU_GLOBAL_ERROR_STATUS_1_LPD_SWDT_MASK
          = c.PMU_GLOBAL_ERROR_STATUS_1_LPD_SWDT_MASK ∧
        regs c.XFSBL_ERROR_STATUS_REGISTER_OFFSET = c.XFSBL_RUNNING)) ∧
    ((XFsbl_ResetValidation c regs).status = c.XFSBL_ERROR_SYSTEM_WDT_RESET →
      (XFsbl_ResetValidation c regs).writes = [] ∧
      (XFsbl_ResetValidation c regs).regs = regs) ∧
    ((XFsbl_ResetValidation c regs).status ≠ c.XFSBL_ERROR_SYSTEM_WDT_RESET →
      (XFsbl_ResetValidation c regs).status = c.XFSBL_SUCCESS ∧
      (XFsbl_ResetValidation c regs).regs c.XFSBL_ERROR_STATUS_REGISTER_OFFSET
        = c.XFSBL_RUNNING ∧
      (∀ a, a ≠ c.XFSBL_ERROR_STATUS_REGISTER_OFFSET →
        (XFsbl_ResetValidation c regs).regs a = regs a) ∧
      (regs c.XFSBL_ERROR_STATUS_REGISTER_OFFSET ≠ c.XFSBL_RUNNING →
        (XFsbl_ResetValidation c regs).writes
          = [(c.XFSBL_ERROR_STATUS_REGISTER_OFFSET, c.XFSBL_RUNNING)]) ∧
      (regs c.XFSBL_ERROR_STATUS_REGISTER_OFFSET = c.XFSBL_RUNNING →
        (XFsbl_ResetValidation c regs).writes = [] ∧
        (XFsbl_ResetValidation c regs).regs = regs)) := by
  by_cases hc : regs c.CRL_APB_RESET_REASON &&& c.CRL_APB_RESET_REASON_PMU_SYS_RESET_MASK
          = c.CRL_APB_RESET_REASON_PMU_SYS_RESET_MASK ∧
        regs c.PMU_GLOBAL_ERROR_STATUS_1 &&& c.PMU_GLOBAL_ERROR_STATUS_1_LPD_SWDT_MASK
          = c.PMU_GLOBAL_ERROR_STATUS_1_LPD_SWDT_MASK ∧
        regs c.XFSBL_ERROR_STATUS_REGISTER_OFFSET = c.XFSBL_RUNNING
  · have h : XFsbl_ResetValidation c regs = ⟨c.XFSBL_ERROR_SYSTEM_WDT_RESET, regs, []⟩ := by
      dsimp only [XFsbl_ResetValidation, XFsbl_In32]
      rw [if_pos hc]
    rw [h]
    refine ⟨⟨fun _ => hc, fun _ => rfl⟩, fun _ => ⟨rfl, rfl⟩, fun hcontra => ?_⟩
    exact absurd rfl hcontra
  · by_cases hr : regs c.XFSBL_ERROR_STATUS_REGISTER_OFFSET = c.XFSBL_RUNNING
    · have h : XFsbl_ResetValidation c regs = ⟨c.XFSBL_SUCCESS, regs, []⟩ := by
        dsimp only [XFsbl_ResetValidation, XFsbl_In32]
        rw [if_neg hc, if_neg (fun hn => hn hr)]
      rw [h]
      refine ⟨⟨fun hs => absurd hs.symm hne, fun hcond => absurd hcond hc⟩,
        fun hs => absurd hs.symm hne, fun _ => ⟨rfl, hr, fun _ _ => rfl, ?_, ?_⟩⟩
      · intro hnr
        exact absurd hr hnr
      · intro _
        exact ⟨rfl, rfl⟩
    · have h : XFsbl_ResetValidation c regs
          = ⟨c.XFSBL_SUCCESS,
             XFsbl_Out32 regs c.XFSBL_ERROR_STATUS_REGISTER_OFFSET c.XFSBL_RUNNING,
             [(c.XFSBL_ERROR_STATUS_REGISTER_OFFSET, c.XFSBL_RUNNING)]⟩ := by
        dsimp only [XFsbl_ResetValidation, XFsbl_In32]
        rw [if_neg hc, if_pos hr]
      rw [h]
      refine ⟨⟨fun hs => absurd hs.symm hne, fun hcond => absurd hcond hc⟩,
        fun hs => absurd hs.symm hne, fun _ => ⟨rfl, ?_, ?_, fun _ => rfl, ?_⟩⟩
      · simp [XFsbl_Out32]
      · intro a ha
        simp [XFsbl_Out32, Function.update_noteq ha]
      · intro hrr
        exact absurd hrr hr

/-- C28, evaluated: after a watchdog reset during a previous run (reset reason
bit 2, error status bit 0, FSBL marked running) the result is the fallback
error and nothing is written. -/
theorem XFsbl_ResetValidation_contract_witness :
    (XFsbl_ResetValidation exFsblDefs (exRegs 0xFFFF 0x04 0x01)).status
      = exFsblDefs.XFSBL_ERROR_SYSTEM_WDT_RESET :=
  (XFsbl_ResetValidation_contract exFsblDefs (exRegs 0xFFFF 0x04 0x01) (by decide)).1.mpr
    ⟨by decide, by decide, by decide⟩

end Fsbl
